import Mathlib

/-!
# Hotspot collection engine: mark-sweep-compact driver and ParNew scan closures

A shallow embedding of
* `gc_implementation/parallelScavenge/psMarkSweep.cpp` (the full collector driver), and
* `gc_implementation/parNew/parOopClosures.inline.hpp` (the copying scavenger's closures).

Conventions of the embedding.
* Addresses and sizes are natural numbers (byte addresses; `HeapWordSize` bytes per word).
* C++ code that mutates ambient state becomes a state transformer in the monad `M`;
  a run either returns (`Outcome.ok`) or halts the VM (`Outcome.fatal`): a failed
  `assert` (only in builds that define `ASSERT`), `ShouldNotReachHere()`, or a null
  dereference.
* Every call to a collaborator whose body is not part of these files is recorded in a
  trace and its effect on the state is supplied by an environment, so that theorems
  hold for every behaviour of the collaborators.
* Pure diagnostics (`printf`, `gclog_or_tty->print...`, `trace(...)`, and the scoped
  timers/markers `TraceTime`, `TraceCPUTime`, `TraceCollectorStats`,
  `TraceMemoryManagerStats`, `EventMark`, `HandleMark`, `AdaptiveSizePolicyOutput`)
  do not touch collector state and are left out.
-/

namespace Hotspot

/-! ## Outcomes and the state monad -/

/-- Reasons for which the VM halts. -/
inductive Fault where
  /-- A failed `assert(cond, msg)`; the payload is the message. -/
  | assertion (msg : String)
  /-- The code reached `ShouldNotReachHere()`. -/
  | should_not_reach_here
  /-- A header of the null object was read. -/
  | null_dereference
  /-- A loop that never ends. -/
  | nontermination
  deriving DecidableEq, Repr

/-- Result of running VM code from a state: a value and the new state, or a halt. -/
inductive Outcome (σ α : Type) where
  | ok (a : α) (s : σ)
  | fatal (e : Fault) (s : σ)

/-- State transformers that may halt the VM. -/
def M (σ α : Type) : Type := σ → Outcome σ α

/-- Return a value, state untouched. -/
def M.pure {σ α : Type} (a : α) : M σ α := fun s => Outcome.ok a s

/-- Sequencing: a halt stops the run. -/
def M.bind {σ α β : Type} (m : M σ α) (k : α → M σ β) : M σ β := fun s =>
  match m s with
  | Outcome.ok a s' => k a s'
  | Outcome.fatal e s' => Outcome.fatal e s'

instance (σ : Type) : Monad (M σ) where
  pure := M.pure
  bind := M.bind

/-- Read a value off the state. -/
def M.read {σ α : Type} (f : σ → α) : M σ α := fun s => Outcome.ok (f s) s

/-- Update the state. -/
def M.modify {σ : Type} (f : σ → σ) : M σ Unit := fun s => Outcome.ok () (f s)

/-- Halt the VM. -/
def M.halt {σ α : Type} (e : Fault) : M σ α := fun s => Outcome.fatal e s

/-- Conditional statement without an else branch: `if (b) { m }`. -/
def M.when {σ : Type} (b : Bool) (m : M σ Unit) : M σ Unit :=
  if b then m else M.pure ()

/-- The `assert(cond, msg)` of `utilities/debug.hpp`: compiled only when the build
defines `ASSERT` (parameter `dbg`); a false condition halts the VM. -/
def M.assert {σ : Type} (dbg : Bool) (cond : σ → Bool) (msg : String) : M σ Unit := fun s =>
  if dbg && !cond s then Outcome.fatal (Fault.assertion msg) s else Outcome.ok () s

/-- The value returned by a run, if it returned. -/
def Outcome.value? {σ α : Type} : Outcome σ α → Option α
  | Outcome.ok a _ => some a
  | Outcome.fatal _ _ => none

/-- The state at which a run returned or halted. -/
def Outcome.state {σ α : Type} : Outcome σ α → σ
  | Outcome.ok _ s => s
  | Outcome.fatal _ s => s

/-- The fault of a halted run. -/
def Outcome.fault? {σ α : Type} : Outcome σ α → Option Fault
  | Outcome.ok _ _ => none
  | Outcome.fatal e _ => some e

/-! ## Data model of the parallel-scavenge heap, as read by `psMarkSweep.cpp` -/

/-- Width of `size_t` and of addresses (LP64). -/
def size_t_bits : Nat := 64

/-- Unsigned `size_t` subtraction, wrapping. -/
def size_t_sub (a b : Nat) : Nat := (a + 2 ^ size_t_bits - b % 2 ^ size_t_bits) % 2 ^ size_t_bits

/-- Modelled from the spec: `pointer_delta(left, right, element_size)` of
`utilities/globalDefinitions.hpp` (not part of these sources): the distance between two
addresses in units of `element_size` bytes. -/
def pointer_delta (left right element_size : Nat) : Nat := size_t_sub left right / element_size

/-- Modelled from the spec: `align_size_up(size, alignment)` of
`utilities/globalDefinitions.hpp`: the least multiple of `alignment` that is at least
`size`. -/
def align_size_up (size alignment : Nat) : Nat := (size + alignment - 1) / alignment * alignment

/-- Modelled from the spec: a `MemRegion`, a half-open range of addresses. -/
structure MemRegion where
  start : Nat
  end_ : Nat
  deriving DecidableEq, Repr

/-- Modelled from the spec: a `MutableSpace`, "a contiguous, bump-allocated region with
bottom, top (next free address), and end". -/
structure MutableSpace where
  bottom : Nat
  top : Nat
  end_ : Nat
  deriving DecidableEq, Repr

/-- Whether an address lies in a region: `is_in_reserved`. -/
def MemRegion.contains (mr : MemRegion) (a : Nat) : Bool := decide (mr.start ≤ a ∧ a < mr.end_)

/-- Bytes in use in a space. -/
def MutableSpace.used_in_bytes (sp : MutableSpace) : Nat := sp.top - sp.bottom

/-- Bytes a space can hold. -/
def MutableSpace.capacity_in_bytes (sp : MutableSpace) : Nat := sp.end_ - sp.bottom

/-- A space with nothing allocated in it. -/
def MutableSpace.is_empty (sp : MutableSpace) : Bool := sp.used_in_bytes == 0

/-- The backing store of a generation (`PSVirtualSpace`), as far as the collector reads it. -/
structure PSVirtualSpace where
  alignment : Nat
  uncommitted_size : Nat
  deriving DecidableEq, Repr

/-- The young generation: eden and the two survivor spaces. -/
structure PSYoungGen where
  eden_space : MutableSpace
  from_space : MutableSpace
  to_space : MutableSpace
  virtual_space : PSVirtualSpace
  capacity_in_bytes : Nat
  min_gen_size : Nat
  max_size : Nat
  deriving DecidableEq, Repr

/-- Used bytes of the young generation: those of eden and of from-space (to-space holds
objects only during a scavenge). -/
def PSYoungGen.used_in_bytes (g : PSYoungGen) : Nat :=
  g.eden_space.used_in_bytes + g.from_space.used_in_bytes

/-- The old generation: one object space, its reserved region and its object start
array (the addresses registered as block starts). -/
structure PSOldGen where
  object_space : MutableSpace
  reserved : MemRegion
  virtual_space : PSVirtualSpace
  start_array : List Nat
  capacity_in_bytes : Nat
  max_gen_size : Nat
  deriving DecidableEq, Repr

/-- Used bytes of the old generation. -/
def PSOldGen.used_in_bytes (g : PSOldGen) : Nat := g.object_space.used_in_bytes

/-- The permanent generation. -/
structure PSPermGen where
  object_space : MutableSpace
  reserved : MemRegion
  capacity_in_bytes : Nat
  deriving DecidableEq, Repr

/-- Used bytes of the permanent generation. -/
def PSPermGen.used_in_bytes (g : PSPermGen) : Nat := g.object_space.used_in_bytes

/-- The cause of a collection; the driver only tells `_java_lang_system_gc` apart. -/
inductive GCCause where
  | _java_lang_system_gc
  | other (code : Nat)
  deriving DecidableEq, Repr

/-- The kinds of `CollectedHeap`. -/
inductive HeapKind where
  | ParallelScavengeHeap
  | other (code : Nat)
  deriving DecidableEq, Repr

/-- State of the `GC_locker`: how many threads are inside a JNI critical section and
whether a collection has been requested meanwhile. -/
structure GC_locker where
  jni_lock_count : Nat
  needs_gc : Bool
  deriving DecidableEq, Repr

/-- What the adaptive size policy exposes to the driver. -/
structure PSAdaptiveSizePolicy where
  avg_promoted_padded_average : Nat
  bytes_absorbed_from_eden : Nat
  calculated_old_free_size_in_bytes : Nat
  deriving DecidableEq, Repr

/-- The state the full collector runs on: the heap, the ambient VM facts the driver
reads, and the static fields of `PSMarkSweep` / `MarkSweep`. -/
structure VM where
  at_safepoint : Bool
  ref_processor_is_null : Bool
  heap_kind : HeapKind
  gc_cause : GCCause
  gc_locker : GC_locker
  total_collections : Nat
  total_full_collections : Nat
  young_gen : PSYoungGen
  old_gen : PSOldGen
  perm_gen : PSPermGen
  barrier_set_is_ModRef : Bool
  /-- The card table: for each card index, whether the card is dirty. -/
  card_dirty : Nat → Bool
  size_policy : PSAdaptiveSizePolicy
  /-- The size in words of the object starting at an address: `oop(p)->size()`. -/
  obj_size : Nat → Nat
  derived_pointer_table_active : Bool
  os_javaTimeNanos : Int
  _total_invocations : Nat
  _time_of_last_gc : Int
  _preserved_marks : Nat
  _preserved_count : Nat
  _preserved_count_max : Nat
  _marking_stack : List Nat
  _objarray_stack : List Nat
  _preserved_mark_stack : List Nat
  _preserved_oop_stack : List Nat
  _revisit_klass_stack : List Nat
  _revisit_mdo_stack : List Nat

/-- Bytes in use in the heap as a whole. -/
def VM.used (vm : VM) : Nat := vm.young_gen.used_in_bytes + vm.old_gen.used_in_bytes

/-- Build parameters and the VM flags read by the driver. -/
structure Flags where
  /-- The build defines `ASSERT`: `assert` is compiled in. -/
  ASSERT : Bool
  /-- The build defines `PRODUCT`: `NOT_PRODUCT(...)` code is compiled out. -/
  PRODUCT : Bool
  /-- The build defines `COMPILER2`. -/
  COMPILER2 : Bool
  /-- The build defines `TRACESPINNING`. -/
  TRACESPINNING : Bool
  VerifyBeforeGC : Bool
  VerifyAfterGC : Bool
  VerifyObjectStartArray : Bool
  VerifyGCStartAt : Nat
  ZapUnusedHeapArea : Bool
  TraceGen1Time : Bool
  PrintGC : Bool
  PrintGCDetails : Bool
  UseAdaptiveSizePolicy : Bool
  UseAdaptiveGCBoundary : Bool
  UseAdaptiveGenerationSizePolicyAtMajorCollection : Bool
  UseAdaptiveSizePolicyWithSystemGC : Bool
  UsePerfData : Bool
  /-- Bytes per heap word, `HeapWordSize`. -/
  HeapWordSize : Nat
  /-- The value of `sizeof(PreservedMark)`. -/
  sizeof_PreservedMark : Nat
  /-- The value of `CollectedHeap::min_fill_size()`, in words. -/
  min_fill_size : Nat
  /-- The flag `ParallelGCThreads`. -/
  ParallelGCThreads : Nat
  deriving DecidableEq, Repr

/-! ## Calls, traces and the environment -/

/-- The closures handed to root and table iterators. -/
inductive Closure where
  | mark_and_push
  | follow_stack
  | is_alive
  | adjust_root_pointer
  | adjust_pointer
  deriving DecidableEq, Repr

/-- Every operation the driver invokes, by name, with the arguments that are computed
by the driver. The seven collector steps of `invoke_no_policy` come first. -/
inductive Call where
  | allocate_stacks
  | mark_sweep_phase1 (clear_all_softrefs : Bool)
  | mark_sweep_phase2
  | mark_sweep_phase3
  | mark_sweep_phase4
  | restore_marks
  | deallocate_stacks
  | absorb_live_data_from_eden
  | GC_locker_check_active_before_gc
  | ClearedAllSoftRefs_enter (clear_all_softrefs : Bool)
  | ClearedAllSoftRefs_leave (clear_all_softrefs : Bool)
  | increment_total_collections (full : Bool)
  | record_gen_tops_before_GC
  | print_heap_before_gc
  | accumulate_statistics_all_tlabs
  | ensure_parsability (retire_tlabs : Bool)
  | Universe_verify (allow_dirty : Bool)
  | old_gen_verify_object_start_array
  | perm_gen_verify_object_start_array
  | pre_full_gc_dump
  | accumulated_time_start
  | accumulated_time_stop
  | major_collection_begin
  | CodeCache_gc_prologue
  | Threads_gc_prologue
  | BiasedLocking_preserve_marks
  | DerivedPointerTable_clear
  | ref_processor_enable_discovery
  | ref_processor_setup_policy (clear_all_softrefs : Bool)
  | DerivedPointerTable_set_active (value : Bool)
  | to_space_mangle_unused_area_complete
  | Universe_update_heap_info_at_gc
  | modBS_clear (mr : MemRegion)
  | modBS_invalidate (mr : MemRegion)
  | BiasedLocking_restore_marks
  | Threads_gc_epilogue
  | CodeCache_gc_epilogue
  | JvmtiExport_gc_epilogue
  | DerivedPointerTable_update_pointers
  | ref_processor_enqueue_discovered_references
  | reset_millis_since_last_gc
  | major_collection_end (old_used : Nat) (cause : GCCause)
  | compute_generation_free_space (young_live eden_live old_live perm_live
      cur_eden max_old_gen_size max_eden_size : Nat) (cause : GCCause)
  | resize_old_gen (desired_free_space : Nat)
  | gc_policy_counters_update_counters
  | gc_policy_counters_update_old_capacity (size : Nat)
  | gc_policy_counters_update_young_capacity (size : Nat)
  | resize_all_tlabs
  | perm_gen_compute_new_size (used_before_collection : Nat)
  | young_gen_print_used_change (prev_used : Nat)
  | old_gen_print_used_change (prev_used : Nat)
  | print_heap_change (prev_used : Nat)
  | perm_gen_print_used_change (prev_used : Nat)
  | MemoryService_track_memory_usage
  | heap_update_counters
  | old_space_check_mangled_unused_area_complete
  | perm_space_check_mangled_unused_area_complete
  | ref_processor_verify_no_references_recorded
  | print_heap_after_gc
  | post_full_gc_dump
  | ParallelTaskTerminator_print_termination_counts
  | fill_with_objects (start words : Nat)
  | virtual_space_expand_into (bytes : Nat)
  | young_gen_reset_after_change
  | old_space_set_top (value : Nat)
  | old_space_set_end (value : Nat)
  | old_gen_reset_after_change
  | start_array_allocate_block (p : Nat)
  | set_bytes_absorbed_from_eden (bytes : Nat)
  | ParStrongRootsScope_enter
  | ParStrongRootsScope_leave
  | Universe_oops_do (cl : Closure)
  | JNIHandles_oops_do (cl : Closure)
  | Threads_oops_do (cl : Closure) (with_code_blobs : Bool)
  | ObjectSynchronizer_oops_do (cl : Closure)
  | FlatProfiler_oops_do (cl : Closure)
  | Management_oops_do (cl : Closure)
  | JvmtiExport_oops_do (cl : Closure)
  | SystemDictionary_always_strong_oops_do (cl : Closure)
  | SystemDictionary_oops_do (cl : Closure)
  | follow_stack
  | ref_processor_process_discovered_references
  | SystemDictionary_do_unloading
  | CodeCache_do_unloading (unloading_occurred : Bool)
  | follow_weak_klass_links
  | follow_mdo_weak_refs
  | StringTable_unlink
  | SymbolTable_unlink
  | set_destination_decorator_tenured
  | PSOldGen_precompact
  | old_gen_object_mark_sweep_precompact
  | young_gen_precompact
  | set_destination_decorator_perm_gen
  | perm_gen_precompact
  | JNIHandles_weak_oops_do (cl : Closure)
  | CodeCache_oops_do (cl : Closure)
  | StringTable_oops_do (cl : Closure)
  | ref_processor_weak_oops_do (cl : Closure)
  | PSScavenge_reference_processor_weak_oops_do (cl : Closure)
  | adjust_marks
  | young_gen_adjust_pointers
  | old_gen_adjust_pointers
  | perm_gen_adjust_pointers
  | perm_gen_compact
  | old_gen_compact
  | young_gen_compact

/-- The seven collector steps that `invoke_no_policy` performs between taking the
usage snapshot and updating the card table. -/
def Call.isStep : Call → Bool
  | Call.allocate_stacks => true
  | Call.mark_sweep_phase1 _ => true
  | Call.mark_sweep_phase2 => true
  | Call.mark_sweep_phase3 => true
  | Call.mark_sweep_phase4 => true
  | Call.restore_marks => true
  | Call.deallocate_stacks => true
  | _ => false

/-- The calls by which the course of a collection is followed: the seven collector
steps, the three `compact` calls of phase 4, the saving and restoring of the
biased-locking marks, and the two updates of the card table. -/
def Call.isLandmark : Call → Bool
  | Call.perm_gen_compact => true
  | Call.old_gen_compact => true
  | Call.young_gen_compact => true
  | Call.BiasedLocking_preserve_marks => true
  | Call.BiasedLocking_restore_marks => true
  | Call.modBS_clear _ => true
  | Call.modBS_invalidate _ => true
  | c => c.isStep

/-- The two updates of the card table. -/
def Call.isCardTableUpdate : Call → Bool
  | Call.modBS_clear _ => true
  | Call.modBS_invalidate _ => true
  | _ => false

/-- The calls that save, lay out, and restore preserved marks, with the start of phase 1
and the calls of phase 4. -/
def Call.isMarkLifecycle : Call → Bool
  | Call.BiasedLocking_preserve_marks => true
  | Call.allocate_stacks => true
  | Call.mark_sweep_phase1 _ => true
  | Call.mark_sweep_phase4 => true
  | Call.perm_gen_compact => true
  | Call.old_gen_compact => true
  | Call.young_gen_compact => true
  | Call.restore_marks => true
  | Call.deallocate_stacks => true
  | Call.BiasedLocking_restore_marks => true
  | _ => false

/-- The state of a run: the VM state and the calls made so far, oldest first. -/
structure World where
  vm : VM
  trace : List Call

/-- The collector steps performed so far. -/
def World.steps (w : World) : List Call := w.trace.filter Call.isStep

/-- The collaborators of the driver, whose code is not part of these sources: what
each call does to the VM state and, for the calls whose result the driver reads, what
it answers. The GC locker check reads and updates the locker only. -/
structure Env where
  check_active_before_gc : GC_locker → Bool × GC_locker
  effect : Call → VM → VM
  answer : Call → VM → Bool

/-- Record a call. -/
def World.log (c : Call) (w : World) : World := { w with trace := w.trace ++ [c] }

/-- Entering a function of this file: the call is recorded. -/
def enter (c : Call) : M World Unit := M.modify (World.log c)

/-- Calling a collaborator: the call is recorded and its effect applied. -/
def call (env : Env) (c : Call) : M World Unit :=
  M.modify (fun w => { vm := env.effect c w.vm, trace := w.trace ++ [c] })

/-- Calling a collaborator that answers a boolean. -/
def ask (env : Env) (c : Call) : M World Bool := fun w =>
  Outcome.ok (env.answer c w.vm) { vm := env.effect c w.vm, trace := w.trace ++ [c] }

/-- Reading the VM state. -/
def get {α : Type} (f : VM → α) : M World α := M.read (fun w => f w.vm)

/-- Writing the VM state. -/
def set (f : VM → VM) : M World Unit := M.modify (fun w => { w with vm := f w.vm })

/-- An `assert` over the VM state. -/
def check (flg : Flags) (cond : VM → Bool) (msg : String) : M World Unit :=
  M.assert flg.ASSERT (fun w => cond w.vm) msg

/-- The assertion `heap->kind() == CollectedHeap::ParallelScavengeHeap`. -/
def check_heap_kind (flg : Flags) : M World Unit :=
  check flg (fun vm => decide (vm.heap_kind = HeapKind.ParallelScavengeHeap)) "Sanity"

/-- The call `GC_locker::check_active_before_gc()`. -/
def GC_locker_check_active_before_gc (env : Env) : M World Bool := fun w =>
  Outcome.ok (env.check_active_before_gc w.vm.gc_locker).1
    { vm := { w.vm with gc_locker := (env.check_active_before_gc w.vm.gc_locker).2 },
      trace := w.trace ++ [Call.GC_locker_check_active_before_gc] }

/-! ## `psMarkSweep.cpp` -/

namespace PSMarkSweep

/-- The constant `NANOSECS_PER_MILLISEC`. -/
def NANOSECS_PER_MILLISEC : Int := 1000000

/-- `PSMarkSweep::allocate_stacks` (psMarkSweep.cpp:485-499). -/
def allocate_stacks (flg : Flags) : M World Unit := do
  enter Call.allocate_stacks
  check_heap_kind flg
  let to_space ← get (fun vm => vm.young_gen.to_space)
  set (fun vm => { vm with _preserved_marks := to_space.top })
  set (fun vm => { vm with _preserved_count := 0 })
  -- We want to calculate the size in bytes first.
  set (fun vm => { vm with _preserved_count_max := pointer_delta to_space.end_ to_space.top 1 })
  -- Now divide by the size of a PreservedMark
  set (fun vm => { vm with
    _preserved_count_max := vm._preserved_count_max / flg.sizeof_PreservedMark })

/-- `PSMarkSweep::deallocate_stacks` (psMarkSweep.cpp:502-509). -/
def deallocate_stacks : M World Unit := do
  enter Call.deallocate_stacks
  set (fun vm => { vm with _preserved_mark_stack := [] })
  set (fun vm => { vm with _preserved_oop_stack := [] })
  set (fun vm => { vm with _marking_stack := [] })
  set (fun vm => { vm with _objarray_stack := [] })
  set (fun vm => { vm with _revisit_klass_stack := [] })
  set (fun vm => { vm with _revisit_mdo_stack := [] })

/-- The assertion `_marking_stack.is_empty()`. -/
def check_marking_stack_empty (flg : Flags) (msg : String) : M World Unit :=
  check flg (fun vm => vm._marking_stack.isEmpty) msg

/-- `PSMarkSweep::mark_sweep_phase1` (psMarkSweep.cpp:514-573). -/
def mark_sweep_phase1 (flg : Flags) (env : Env) (clear_all_softrefs : Bool) : M World Unit := do
  enter (Call.mark_sweep_phase1 clear_all_softrefs)
  check_heap_kind flg
  call env Call.ParStrongRootsScope_enter
  call env (Call.Universe_oops_do Closure.mark_and_push)
  call env (Call.JNIHandles_oops_do Closure.mark_and_push)
  call env (Call.Threads_oops_do Closure.mark_and_push true)
  call env (Call.ObjectSynchronizer_oops_do Closure.mark_and_push)
  call env (Call.FlatProfiler_oops_do Closure.mark_and_push)
  call env (Call.Management_oops_do Closure.mark_and_push)
  call env (Call.JvmtiExport_oops_do Closure.mark_and_push)
  call env (Call.SystemDictionary_always_strong_oops_do Closure.mark_and_push)
  call env Call.ParStrongRootsScope_leave
  call env Call.follow_stack
  call env (Call.ref_processor_setup_policy clear_all_softrefs)
  call env Call.ref_processor_process_discovered_references
  let purged_class ← ask env Call.SystemDictionary_do_unloading
  call env (Call.CodeCache_do_unloading purged_class)
  call env Call.follow_stack
  call env Call.follow_weak_klass_links
  check_marking_stack_empty flg "just drained"
  call env Call.follow_mdo_weak_refs
  check_marking_stack_empty flg "just drained"
  call env Call.StringTable_unlink
  call env Call.SymbolTable_unlink
  check_marking_stack_empty flg "stack should be empty by now"

/-- Modelled from the spec: `PSOldGen::precompact` (psOldGen.cpp is not part of these
sources). By the comment at its call site in phase 2, "This will also compact the young
gen spaces": the old generation's object space is precompacted and then the young
generation's spaces. -/
def PSOldGen_precompact (env : Env) : M World Unit := do
  enter Call.PSOldGen_precompact
  call env Call.old_gen_object_mark_sweep_precompact
  call env Call.young_gen_precompact

/-- `PSMarkSweep::mark_sweep_phase2` (psMarkSweep.cpp:579-612). -/
def mark_sweep_phase2 (flg : Flags) (env : Env) : M World Unit := do
  enter Call.mark_sweep_phase2
  check_heap_kind flg
  -- Begin compacting into the old gen
  call env Call.set_destination_decorator_tenured
  -- This will also compact the young gen spaces.
  PSOldGen_precompact env
  -- Compact the perm gen into the perm gen
  call env Call.set_destination_decorator_perm_gen
  call env Call.perm_gen_precompact

/-- `PSMarkSweep::mark_sweep_phase3` (psMarkSweep.cpp:625-664). -/
def mark_sweep_phase3 (flg : Flags) (env : Env) : M World Unit := do
  enter Call.mark_sweep_phase3
  check_heap_kind flg
  call env (Call.Universe_oops_do Closure.adjust_root_pointer)
  call env (Call.JNIHandles_oops_do Closure.adjust_root_pointer)
  call env (Call.Threads_oops_do Closure.adjust_root_pointer false)
  call env (Call.ObjectSynchronizer_oops_do Closure.adjust_root_pointer)
  call env (Call.FlatProfiler_oops_do Closure.adjust_root_pointer)
  call env (Call.Management_oops_do Closure.adjust_root_pointer)
  call env (Call.JvmtiExport_oops_do Closure.adjust_root_pointer)
  call env (Call.SystemDictionary_oops_do Closure.adjust_root_pointer)
  call env (Call.JNIHandles_weak_oops_do Closure.adjust_root_pointer)
  call env (Call.CodeCache_oops_do Closure.adjust_pointer)
  call env (Call.StringTable_oops_do Closure.adjust_root_pointer)
  call env (Call.ref_processor_weak_oops_do Closure.adjust_root_pointer)
  call env (Call.PSScavenge_reference_processor_weak_oops_do Closure.adjust_root_pointer)
  call env Call.adjust_marks
  call env Call.young_gen_adjust_pointers
  call env Call.old_gen_adjust_pointers
  call env Call.perm_gen_adjust_pointers

/-- `PSMarkSweep::mark_sweep_phase4` (psMarkSweep.cpp:669-690). -/
def mark_sweep_phase4 (flg : Flags) (env : Env) : M World Unit := do
  enter Call.mark_sweep_phase4
  check_heap_kind flg
  call env Call.perm_gen_compact
  call env Call.old_gen_compact
  call env Call.young_gen_compact

/-- `PSMarkSweep::millis_since_last_gc` (psMarkSweep.cpp:692-703). -/
def millis_since_last_gc (vm : VM) : Int :=
  let now := Int.tdiv vm.os_javaTimeNanos NANOSECS_PER_MILLISEC
  let ret_val := now - vm._time_of_last_gc
  if ret_val < 0 then 0 else ret_val

/-- `PSMarkSweep::reset_millis_since_last_gc` (psMarkSweep.cpp:705-709). -/
def reset_millis_since_last_gc : M World Unit := do
  enter Call.reset_millis_since_last_gc
  set (fun vm => { vm with
    _time_of_last_gc := Int.tdiv vm.os_javaTimeNanos NANOSECS_PER_MILLISEC })

/-- The `ObjectStartArray::allocate_block(p)` of the old generation: `p` is registered
as the start of a block. -/
def start_array_allocate_block (p : Nat) : M World Unit := do
  enter (Call.start_array_allocate_block p)
  set (fun vm => { vm with old_gen := { vm.old_gen with start_array := p :: vm.old_gen.start_array } })

/-- The loop `for (HeapWord* p = unused_start; p < new_top; p += oop(p)->size())
start_array->allocate_block(p);` (psMarkSweep.cpp:472-474). The loop is unrolled at
most `fuel` times; an iteration that does not advance `p` never ends, which halts the
run with `Fault.nontermination`, as does running out of fuel. -/
def register_blocks (flg : Flags) (new_top : Nat) : Nat → Nat → M World Unit
  | 0, p => if p < new_top then M.halt Fault.nontermination else M.pure ()
  | fuel + 1, p =>
    if p < new_top then do
      start_array_allocate_block p
      let size ← get (fun vm => vm.obj_size p)
      if size * flg.HeapWordSize = 0 then M.halt Fault.nontermination
      else register_blocks flg new_top fuel (p + size * flg.HeapWordSize)
    else M.pure ()

/-- `PSMarkSweep::absorb_live_data_from_eden` (psMarkSweep.cpp:397-483). -/
def absorb_live_data_from_eden (flg : Flags) (env : Env) : M World Bool := do
  enter Call.absorb_live_data_from_eden
  let eden_space ← get (fun vm => vm.young_gen.eden_space)
  check flg (fun _ => !eden_space.is_empty) "eden must be non-empty"
  check flg (fun vm => decide (vm.young_gen.virtual_space.alignment =
    vm.old_gen.virtual_space.alignment)) "alignments do not match"
  if !(flg.UseAdaptiveSizePolicy && flg.UseAdaptiveGCBoundary) then M.pure false else do
  -- Both generations must be completely committed.
  let young_uncommitted ← get (fun vm => vm.young_gen.virtual_space.uncommitted_size)
  if young_uncommitted != 0 then M.pure false else do
  let old_uncommitted ← get (fun vm => vm.old_gen.virtual_space.uncommitted_size)
  if old_uncommitted != 0 then M.pure false else do
  -- Figure out how much to take from eden.
  let alignment ← get (fun vm => vm.old_gen.virtual_space.alignment)
  let eden_used := eden_space.used_in_bytes
  let promoted ← get (fun vm => vm.size_policy.avg_promoted_padded_average)
  let absorb_size := align_size_up (eden_used + promoted) alignment
  let eden_capacity := eden_space.capacity_in_bytes
  if absorb_size ≥ eden_capacity then M.pure false else do -- Must leave some space in eden.
  let young_capacity ← get (fun vm => vm.young_gen.capacity_in_bytes)
  let new_young_size := size_t_sub young_capacity absorb_size
  let min_gen_size ← get (fun vm => vm.young_gen.min_gen_size)
  if new_young_size < min_gen_size then M.pure false else do -- Respect young gen minimum size.
  -- Fill the unused part of the old gen.
  let old_space ← get (fun vm => vm.old_gen.object_space)
  let unused_start := old_space.top
  let unused_words := pointer_delta old_space.end_ unused_start flg.HeapWordSize
  -- `if (unused_words > 0) { if (unused_words < min_fill_size()) return false; fill }`
  if unused_words > 0 && unused_words < flg.min_fill_size then
    M.pure false -- If the old gen cannot be filled, must give up.
  else do
  M.when (decide (unused_words > 0)) (call env (Call.fill_with_objects unused_start unused_words))
  -- Take the live data from eden and set both top and end in the old gen to eden top.
  let new_top ← get (fun vm => vm.young_gen.eden_space.top)
  call env (Call.virtual_space_expand_into absorb_size)
  call env Call.young_gen_reset_after_change
  enter (Call.old_space_set_top new_top)
  set (fun vm => { vm with old_gen := { vm.old_gen with
    object_space := { vm.old_gen.object_space with top := new_top } } })
  enter (Call.old_space_set_end new_top)
  set (fun vm => { vm with old_gen := { vm.old_gen with
    object_space := { vm.old_gen.object_space with end_ := new_top } } })
  call env Call.old_gen_reset_after_change
  -- Update the object start array for the filler object and the data from eden.
  register_blocks flg new_top (new_top - unused_start) unused_start
  enter (Call.set_bytes_absorbed_from_eden absorb_size)
  set (fun vm => { vm with size_policy := { vm.size_policy with
    bytes_absorbed_from_eden := absorb_size } })
  M.pure true

/-- The bytes `absorb_live_data_from_eden` means to take from eden
(psMarkSweep.cpp:420-423). -/
def absorb_size (vm : VM) : Nat :=
  align_size_up (vm.young_gen.eden_space.used_in_bytes +
    vm.size_policy.avg_promoted_padded_average) vm.old_gen.virtual_space.alignment

/-- The words between the top and the end of the old space (psMarkSweep.cpp:449-450). -/
def unused_words (flg : Flags) (vm : VM) : Nat :=
  pointer_delta vm.old_gen.object_space.end_ vm.old_gen.object_space.top flg.HeapWordSize

/-- The tests `absorb_live_data_from_eden` makes before it changes anything
(psMarkSweep.cpp:405-455), as the code computes them: true when none of them makes the
function return false. -/
def absorb_goes_ahead (flg : Flags) (vm : VM) : Bool :=
  (flg.UseAdaptiveSizePolicy && flg.UseAdaptiveGCBoundary) &&
  decide (vm.young_gen.virtual_space.uncommitted_size = 0) &&
  decide (vm.old_gen.virtual_space.uncommitted_size = 0) &&
  decide (absorb_size vm < vm.young_gen.eden_space.capacity_in_bytes) &&
  decide (vm.young_gen.min_gen_size ≤
    size_t_sub vm.young_gen.capacity_in_bytes (absorb_size vm)) &&
  !(decide (unused_words flg vm > 0) && decide (unused_words flg vm < flg.min_fill_size))

/-- The conditions under which eden's live data is absorbed, in the words of the
specification: both adaptive flags are set, both virtual spaces are fully committed,
the size to absorb is strictly less than eden's capacity, young capacity minus that size
is at least the young generation's minimum size, and the unused tail of the old space
is empty or at least `min_fill_size` words. -/
def AbsorbConditions (flg : Flags) (vm : VM) : Prop :=
  flg.UseAdaptiveSizePolicy = true ∧ flg.UseAdaptiveGCBoundary = true ∧
  vm.young_gen.virtual_space.uncommitted_size = 0 ∧
  vm.old_gen.virtual_space.uncommitted_size = 0 ∧
  absorb_size vm < vm.young_gen.eden_space.capacity_in_bytes ∧
  vm.young_gen.min_gen_size ≤ vm.young_gen.capacity_in_bytes - absorb_size vm ∧
  (unused_words flg vm = 0 ∨ flg.min_fill_size ≤ unused_words flg vm)

/-- The second half of `absorb_live_data_from_eden` (psMarkSweep.cpp:456-482), entered
when none of the tests made it return false: the old generation takes eden's live
data. -/
def absorb_take (flg : Flags) (env : Env) (absorb_size unused_start unused_words : Nat) :
    M World Bool := do
  M.when (decide (unused_words > 0)) (call env (Call.fill_with_objects unused_start unused_words))
  -- Take the live data from eden and set both top and end in the old gen to eden top.
  let new_top ← get (fun vm => vm.young_gen.eden_space.top)
  call env (Call.virtual_space_expand_into absorb_size)
  call env Call.young_gen_reset_after_change
  enter (Call.old_space_set_top new_top)
  set (fun vm => { vm with old_gen := { vm.old_gen with
    object_space := { vm.old_gen.object_space with top := new_top } } })
  enter (Call.old_space_set_end new_top)
  set (fun vm => { vm with old_gen := { vm.old_gen with
    object_space := { vm.old_gen.object_space with end_ := new_top } } })
  call env Call.old_gen_reset_after_change
  -- Update the object start array for the filler object and the data from eden.
  register_blocks flg new_top (new_top - unused_start) unused_start
  enter (Call.set_bytes_absorbed_from_eden absorb_size)
  set (fun vm => { vm with size_policy := { vm.size_policy with
    bytes_absorbed_from_eden := absorb_size } })
  M.pure true

/-- The VM state after the filler objects have been written into the old space, if the
old space had an unused tail. -/
def vm_filled (env : Env) (unused_start unused_words : Nat) (vm : VM) : VM :=
  if unused_words > 0 then env.effect (Call.fill_with_objects unused_start unused_words) vm
  else vm

/-- The VM state in which the registration of blocks starts (psMarkSweep.cpp:456-468):
the old space has been filled, the old virtual space expanded into the young one, and
top and end of the old space set to eden's top. -/
def vm_before_registering (env : Env) (absorb_size unused_start unused_words : Nat)
    (vm : VM) : VM :=
  env.effect Call.old_gen_reset_after_change
    { env.effect Call.young_gen_reset_after_change
        (env.effect (Call.virtual_space_expand_into absorb_size)
          (vm_filled env unused_start unused_words vm)) with
      old_gen :=
        { (env.effect Call.young_gen_reset_after_change
            (env.effect (Call.virtual_space_expand_into absorb_size)
              (vm_filled env unused_start unused_words vm))).old_gen with
          object_space :=
            { (env.effect Call.young_gen_reset_after_change
                (env.effect (Call.virtual_space_expand_into absorb_size)
                  (vm_filled env unused_start unused_words vm))).old_gen.object_space with
              top := (vm_filled env unused_start unused_words vm).young_gen.eden_space.top,
              end_ := (vm_filled env unused_start unused_words vm).young_gen.eden_space.top } } }

/-- The start addresses of the objects laid out one after the other from `p` up to
`new_top`, the object at an address `a` being `size a` words of `hws` bytes long; none
if an object of size zero is met (or the fuel runs out). -/
def block_starts (size : Nat → Nat) (hws new_top : Nat) : Nat → Nat → Option (List Nat)
  | 0, p => if p < new_top then none else some []
  | fuel + 1, p =>
    if p < new_top then
      if size p * hws = 0 then none
      else (block_starts size hws new_top fuel (p + size p * hws)).map (fun l => p :: l)
    else some []

/-- Registering a list of block starts, first to last. -/
def World.register (l : List Nat) (w : World) : World :=
  { vm := { w.vm with old_gen := { w.vm.old_gen with
      start_array := l.reverse ++ w.vm.old_gen.start_array } },
    trace := w.trace ++ l.map Call.start_array_allocate_block }

/-- The part of `PSMarkSweep::invoke_no_policy` that follows the GC locker check
(psMarkSweep.cpp:114-394): the collection itself. -/
def invoke_no_policy_collection (flg : Flags) (env : Env) (clear_all_softrefs : Bool) :
    M World Bool := do
  let gc_cause ← get (fun vm => vm.gc_cause)
  check_heap_kind flg
  -- The scope of casr should end after code that can change
  -- CollectorPolicy::_should_clear_all_soft_refs.
  call env (Call.ClearedAllSoftRefs_enter clear_all_softrefs)
  -- Increment the invocation count
  call env (Call.increment_total_collections true)
  -- Save information needed to minimize mangling
  call env Call.record_gen_tops_before_GC
  -- We need to track unique mark sweep invocations as well.
  set (fun vm => { vm with _total_invocations := (vm._total_invocations + 1) % 2 ^ 32 })
  call env Call.print_heap_before_gc
  -- Fill in TLABs
  call env Call.accumulate_statistics_all_tlabs
  call env (Call.ensure_parsability true)
  let collections ← get (fun vm => vm.total_collections)
  M.when (flg.VerifyBeforeGC && decide (collections ≥ flg.VerifyGCStartAt))
    (call env (Call.Universe_verify true))
  -- Verify object start arrays
  M.when (flg.VerifyObjectStartArray && flg.VerifyBeforeGC) (do
    call env Call.old_gen_verify_object_start_array
    call env Call.perm_gen_verify_object_start_array)
  call env Call.pre_full_gc_dump
  M.when flg.TraceGen1Time (call env Call.accumulated_time_start)
  -- Let the size policy know we're starting
  call env Call.major_collection_begin
  call env Call.CodeCache_gc_prologue
  call env Call.Threads_gc_prologue
  call env Call.BiasedLocking_preserve_marks
  -- Capture heap size before collection for printing.
  let prev_used ← get (fun vm => vm.used)
  -- Capture perm gen size before collection for sizing.
  let perm_gen_prev_used ← get (fun vm => vm.perm_gen.used_in_bytes)
  -- For PrintGCDetails
  let old_gen_prev_used ← get (fun vm => vm.old_gen.used_in_bytes)
  let young_gen_prev_used ← get (fun vm => vm.young_gen.used_in_bytes)
  allocate_stacks flg
  M.when flg.COMPILER2 (call env Call.DerivedPointerTable_clear)
  call env Call.ref_processor_enable_discovery
  call env (Call.ref_processor_setup_policy clear_all_softrefs)
  mark_sweep_phase1 flg env clear_all_softrefs
  mark_sweep_phase2 flg env
  -- Don't add any more derived pointers during phase3
  M.when flg.COMPILER2 (check flg (fun vm => vm.derived_pointer_table_active) "Sanity")
  M.when flg.COMPILER2 (call env (Call.DerivedPointerTable_set_active false))
  mark_sweep_phase3 flg env
  mark_sweep_phase4 flg env
  call env Call.restore_marks
  deallocate_stacks
  M.when flg.ZapUnusedHeapArea (call env Call.to_space_mangle_unused_area_complete)
  let eden_is_empty ← get (fun vm => vm.young_gen.eden_space.is_empty)
  let eden_empty ← (if eden_is_empty then M.pure true else absorb_live_data_from_eden flg env)
  -- Update heap occupancy information which is used as
  -- input to soft ref clearing policy at the next gc.
  call env Call.Universe_update_heap_info_at_gc
  let survivors_empty ← get (fun vm =>
    vm.young_gen.from_space.is_empty && vm.young_gen.to_space.is_empty)
  let young_gen_empty := eden_empty && survivors_empty
  let is_ModRef ← get (fun vm => vm.barrier_set_is_ModRef)
  M.when is_ModRef (do
    let old_mr ← get (fun vm => vm.old_gen.reserved)
    let perm_mr ← get (fun vm => vm.perm_gen.reserved)
    check flg (fun _ => decide (perm_mr.end_ ≤ old_mr.start)) "Generations out of order"
    if young_gen_empty then
      call env (Call.modBS_clear (MemRegion.mk perm_mr.start old_mr.end_))
    else
      call env (Call.modBS_invalidate (MemRegion.mk perm_mr.start old_mr.end_)))
  call env Call.BiasedLocking_restore_marks
  call env Call.Threads_gc_epilogue
  call env Call.CodeCache_gc_epilogue
  call env Call.JvmtiExport_gc_epilogue
  M.when flg.COMPILER2 (call env Call.DerivedPointerTable_update_pointers)
  call env Call.ref_processor_enqueue_discovered_references
  -- Update time of last GC
  reset_millis_since_last_gc
  -- Let the size policy know we're done
  let old_used ← get (fun vm => vm.old_gen.used_in_bytes)
  call env (Call.major_collection_end old_used gc_cause)
  M.when flg.UseAdaptiveSizePolicy
    (M.when (flg.UseAdaptiveGenerationSizePolicyAtMajorCollection &&
        (decide (gc_cause ≠ GCCause._java_lang_system_gc) ||
          flg.UseAdaptiveSizePolicyWithSystemGC)) (do
      -- Calculate optimal free space amounts
      check flg (fun vm => decide (vm.young_gen.max_size >
        vm.young_gen.from_space.capacity_in_bytes + vm.young_gen.to_space.capacity_in_bytes))
        "Sizes of space in young gen are out-of-bounds"
      let young ← get (fun vm => vm.young_gen)
      let max_eden_size := size_t_sub (size_t_sub young.max_size
        young.from_space.capacity_in_bytes) young.to_space.capacity_in_bytes
      let old_live ← get (fun vm => vm.old_gen.used_in_bytes)
      let perm_live ← get (fun vm => vm.perm_gen.used_in_bytes)
      let max_old_gen_size ← get (fun vm => vm.old_gen.max_gen_size)
      call env (Call.compute_generation_free_space young.used_in_bytes
        young.eden_space.used_in_bytes old_live perm_live
        young.eden_space.capacity_in_bytes max_old_gen_size max_eden_size gc_cause)
      let desired ← get (fun vm => vm.size_policy.calculated_old_free_size_in_bytes)
      call env (Call.resize_old_gen desired)))
  M.when flg.UsePerfData (do
    call env Call.gc_policy_counters_update_counters
    let old_capacity ← get (fun vm => vm.old_gen.capacity_in_bytes)
    call env (Call.gc_policy_counters_update_old_capacity old_capacity)
    let young_capacity ← get (fun vm => vm.young_gen.capacity_in_bytes)
    call env (Call.gc_policy_counters_update_young_capacity young_capacity))
  call env Call.resize_all_tlabs
  -- We collected the perm gen, so we'll resize it here.
  call env (Call.perm_gen_compute_new_size perm_gen_prev_used)
  M.when flg.TraceGen1Time (call env Call.accumulated_time_stop)
  M.when flg.PrintGC (do
    M.when flg.PrintGCDetails (do
      call env (Call.young_gen_print_used_change young_gen_prev_used)
      call env (Call.old_gen_print_used_change old_gen_prev_used))
    call env (Call.print_heap_change prev_used)
    M.when flg.PrintGCDetails (call env (Call.perm_gen_print_used_change perm_gen_prev_used)))
  -- Track memory usage and detect low memory
  call env Call.MemoryService_track_memory_usage
  call env Call.heap_update_counters
  let collections_after ← get (fun vm => vm.total_collections)
  M.when (flg.VerifyAfterGC && decide (collections_after ≥ flg.VerifyGCStartAt))
    (call env (Call.Universe_verify false))
  -- Re-verify object start arrays
  M.when (flg.VerifyObjectStartArray && flg.VerifyAfterGC) (do
    call env Call.old_gen_verify_object_start_array
    call env Call.perm_gen_verify_object_start_array)
  M.when flg.ZapUnusedHeapArea (do
    call env Call.old_space_check_mangled_unused_area_complete
    call env Call.perm_space_check_mangled_unused_area_complete)
  M.when (!flg.PRODUCT) (call env Call.ref_processor_verify_no_references_recorded)
  call env Call.print_heap_after_gc
  call env Call.post_full_gc_dump
  M.when flg.TRACESPINNING (call env Call.ParallelTaskTerminator_print_termination_counts)
  call env (Call.ClearedAllSoftRefs_leave clear_all_softrefs)
  M.pure true

/-- The values `invoke_no_policy` captures before the phases, for sizing and printing. -/
structure Snapshot where
  gc_cause : GCCause
  prev_used : Nat
  perm_gen_prev_used : Nat
  old_gen_prev_used : Nat
  young_gen_prev_used : Nat
  deriving DecidableEq, Repr

/-- The first part of the collection (psMarkSweep.cpp:116-232): the prologue, the four
phases, `restore_marks` and `deallocate_stacks`. -/
def collection_through_phases (flg : Flags) (env : Env) (clear_all_softrefs : Bool) :
    M World Snapshot := do
  let gc_cause ← get (fun vm => vm.gc_cause)
  check_heap_kind flg
  -- The scope of casr should end after code that can change
  -- CollectorPolicy::_should_clear_all_soft_refs.
  call env (Call.ClearedAllSoftRefs_enter clear_all_softrefs)
  -- Increment the invocation count
  call env (Call.increment_total_collections true)
  -- Save information needed to minimize mangling
  call env Call.record_gen_tops_before_GC
  -- We need to track unique mark sweep invocations as well.
  set (fun vm => { vm with _total_invocations := (vm._total_invocations + 1) % 2 ^ 32 })
  call env Call.print_heap_before_gc
  -- Fill in TLABs
  call env Call.accumulate_statistics_all_tlabs
  call env (Call.ensure_parsability true)
  let collections ← get (fun vm => vm.total_collections)
  M.when (flg.VerifyBeforeGC && decide (collections ≥ flg.VerifyGCStartAt))
    (call env (Call.Universe_verify true))
  -- Verify object start arrays
  M.when (flg.VerifyObjectStartArray && flg.VerifyBeforeGC) (do
    call env Call.old_gen_verify_object_start_array
    call env Call.perm_gen_verify_object_start_array)
  call env Call.pre_full_gc_dump
  M.when flg.TraceGen1Time (call env Call.accumulated_time_start)
  -- Let the size policy know we're starting
  call env Call.major_collection_begin
  call env Call.CodeCache_gc_prologue
  call env Call.Threads_gc_prologue
  call env Call.BiasedLocking_preserve_marks
  -- Capture heap size before collection for printing.
  let prev_used ← get (fun vm => vm.used)
  -- Capture perm gen size before collection for sizing.
  let perm_gen_prev_used ← get (fun vm => vm.perm_gen.used_in_bytes)
  -- For PrintGCDetails
  let old_gen_prev_used ← get (fun vm => vm.old_gen.used_in_bytes)
  let young_gen_prev_used ← get (fun vm => vm.young_gen.used_in_bytes)
  allocate_stacks flg
  M.when flg.COMPILER2 (call env Call.DerivedPointerTable_clear)
  call env Call.ref_processor_enable_discovery
  call env (Call.ref_processor_setup_policy clear_all_softrefs)
  mark_sweep_phase1 flg env clear_all_softrefs
  mark_sweep_phase2 flg env
  -- Don't add any more derived pointers during phase3
  M.when flg.COMPILER2 (check flg (fun vm => vm.derived_pointer_table_active) "Sanity")
  M.when flg.COMPILER2 (call env (Call.DerivedPointerTable_set_active false))
  mark_sweep_phase3 flg env
  mark_sweep_phase4 flg env
  call env Call.restore_marks
  deallocate_stacks
  M.when flg.ZapUnusedHeapArea (call env Call.to_space_mangle_unused_area_complete)
  M.pure (Snapshot.mk gc_cause prev_used perm_gen_prev_used old_gen_prev_used young_gen_prev_used)

/-- The second part of the collection (psMarkSweep.cpp:234-245): whether the young
generation is empty after the collection. -/
def young_gen_emptiness (flg : Flags) (env : Env) : M World Bool := do
  let eden_is_empty ← get (fun vm => vm.young_gen.eden_space.is_empty)
  let eden_empty ← (if eden_is_empty then M.pure true else absorb_live_data_from_eden flg env)
  -- Update heap occupancy information which is used as
  -- input to soft ref clearing policy at the next gc.
  call env Call.Universe_update_heap_info_at_gc
  let survivors_empty ← get (fun vm =>
    vm.young_gen.from_space.is_empty && vm.young_gen.to_space.is_empty)
  M.pure (eden_empty && survivors_empty)

/-- The update applied to the card table for a given emptiness of the young generation:
`clear` or `invalidate` of the region from perm's reserved start to old's reserved end. -/
def card_table_call (young_gen_empty : Bool) (vm : VM) : Call :=
  if young_gen_empty then
    Call.modBS_clear (MemRegion.mk vm.perm_gen.reserved.start vm.old_gen.reserved.end_)
  else
    Call.modBS_invalidate (MemRegion.mk vm.perm_gen.reserved.start vm.old_gen.reserved.end_)

/-- The third part of the collection (psMarkSweep.cpp:247-259): the card table is
cleared or invalidated. -/
def update_card_table (flg : Flags) (env : Env) (young_gen_empty : Bool) : M World Unit := do
  let is_ModRef ← get (fun vm => vm.barrier_set_is_ModRef)
  M.when is_ModRef (do
    let old_mr ← get (fun vm => vm.old_gen.reserved)
    let perm_mr ← get (fun vm => vm.perm_gen.reserved)
    check flg (fun _ => decide (perm_mr.end_ ≤ old_mr.start)) "Generations out of order"
    if young_gen_empty then
      call env (Call.modBS_clear (MemRegion.mk perm_mr.start old_mr.end_))
    else
      call env (Call.modBS_invalidate (MemRegion.mk perm_mr.start old_mr.end_)))

/-- The last part of the collection (psMarkSweep.cpp:261-394): the epilogue. -/
def collection_epilogue (flg : Flags) (env : Env) (clear_all_softrefs : Bool)
    (snap : Snapshot) : M World Bool := do
  call env Call.BiasedLocking_restore_marks
  call env Call.Threads_gc_epilogue
  call env Call.CodeCache_gc_epilogue
  call env Call.JvmtiExport_gc_epilogue
  M.when flg.COMPILER2 (call env Call.DerivedPointerTable_update_pointers)
  call env Call.ref_processor_enqueue_discovered_references
  -- Update time of last GC
  reset_millis_since_last_gc
  -- Let the size policy know we're done
  let old_used ← get (fun vm => vm.old_gen.used_in_bytes)
  call env (Call.major_collection_end old_used snap.gc_cause)
  M.when flg.UseAdaptiveSizePolicy
    (M.when (flg.UseAdaptiveGenerationSizePolicyAtMajorCollection &&
        (decide (snap.gc_cause ≠ GCCause._java_lang_system_gc) ||
          flg.UseAdaptiveSizePolicyWithSystemGC)) (do
      -- Calculate optimal free space amounts
      check flg (fun vm => decide (vm.young_gen.max_size >
        vm.young_gen.from_space.capacity_in_bytes + vm.young_gen.to_space.capacity_in_bytes))
        "Sizes of space in young gen are out-of-bounds"
      let young ← get (fun vm => vm.young_gen)
      let max_eden_size := size_t_sub (size_t_sub young.max_size
        young.from_space.capacity_in_bytes) young.to_space.capacity_in_bytes
      let old_live ← get (fun vm => vm.old_gen.used_in_bytes)
      let perm_live ← get (fun vm => vm.perm_gen.used_in_bytes)
      let max_old_gen_size ← get (fun vm => vm.old_gen.max_gen_size)
      call env (Call.compute_generation_free_space young.used_in_bytes
        young.eden_space.used_in_bytes old_live perm_live
        young.eden_space.capacity_in_bytes max_old_gen_size max_eden_size snap.gc_cause)
      let desired ← get (fun vm => vm.size_policy.calculated_old_free_size_in_bytes)
      call env (Call.resize_old_gen desired)))
  M.when flg.UsePerfData (do
    call env Call.gc_policy_counters_update_counters
    let old_capacity ← get (fun vm => vm.old_gen.capacity_in_bytes)
    call env (Call.gc_policy_counters_update_old_capacity old_capacity)
    let young_capacity ← get (fun vm => vm.young_gen.capacity_in_bytes)
    call env (Call.gc_policy_counters_update_young_capacity young_capacity))
  call env Call.resize_all_tlabs
  -- We collected the perm gen, so we'll resize it here.
  call env (Call.perm_gen_compute_new_size snap.perm_gen_prev_used)
  M.when flg.TraceGen1Time (call env Call.accumulated_time_stop)
  M.when flg.PrintGC (do
    M.when flg.PrintGCDetails (do
      call env (Call.young_gen_print_used_change snap.young_gen_prev_used)
      call env (Call.old_gen_print_used_change snap.old_gen_prev_used))
    call env (Call.print_heap_change snap.prev_used)
    M.when flg.PrintGCDetails
      (call env (Call.perm_gen_print_used_change snap.perm_gen_prev_used)))
  -- Track memory usage and detect low memory
  call env Call.MemoryService_track_memory_usage
  call env Call.heap_update_counters
  let collections_after ← get (fun vm => vm.total_collections)
  M.when (flg.VerifyAfterGC && decide (collections_after ≥ flg.VerifyGCStartAt))
    (call env (Call.Universe_verify false))
  -- Re-verify object start arrays
  M.when (flg.VerifyObjectStartArray && flg.VerifyAfterGC) (do
    call env Call.old_gen_verify_object_start_array
    call env Call.perm_gen_verify_object_start_array)
  M.when flg.ZapUnusedHeapArea (do
    call env Call.old_space_check_mangled_unused_area_complete
    call env Call.perm_space_check_mangled_unused_area_complete)
  M.when (!flg.PRODUCT) (call env Call.ref_processor_verify_no_references_recorded)
  call env Call.print_heap_after_gc
  call env Call.post_full_gc_dump
  M.when flg.TRACESPINNING (call env Call.ParallelTaskTerminator_print_termination_counts)
  call env (Call.ClearedAllSoftRefs_leave clear_all_softrefs)
  M.pure true

/-- `PSMarkSweep::invoke_no_policy` (psMarkSweep.cpp:106-395). -/
def invoke_no_policy (flg : Flags) (env : Env) (clear_all_softrefs : Bool) : M World Bool := do
  check flg (fun vm => vm.at_safepoint) "must be at a safepoint"
  check flg (fun vm => !vm.ref_processor_is_null) "Sanity"
  let active ← GC_locker_check_active_before_gc env
  if active then M.pure false
  else invoke_no_policy_collection flg env clear_all_softrefs

end PSMarkSweep

/-! ## `parOopClosures.inline.hpp` -/

namespace ParNew

/-- The memory the scan closures work on. A reference slot holds the address of its
referent, 0 for null (the closures are templates over `oop*` and `narrowOop*`; the slot
content here is the decoded reference). -/
structure Heap where
  /-- The content of the reference slot at an address: `*p`. -/
  slot : Nat → Nat
  /-- The mark word of the object at an address. -/
  mark : Nat → Nat
  /-- The klass of the object at an address. -/
  klass : Nat → Nat
  /-- The card table: for each card index, whether the card is dirty. -/
  card_dirty : Nat → Bool
  /-- The next free address of the copying destination (to-space). -/
  to_space_top : Nat
  /-- The work queue of the scanning thread. -/
  work_queue : List Nat

/-- The collaborators the closures call. -/
inductive Call where
  | copy_to_survivor_space (obj size mark : Nat)
  | trim_queues (max_size : Nat)
  | write_ref_field_gc_par (p obj : Nat)
  deriving DecidableEq, Repr

/-- A relocation of an object. -/
def Call.isCopy : Call → Bool
  | Call.copy_to_survivor_space _ _ _ => true
  | _ => false

/-- A trim of the work queue. -/
def Call.isTrim : Call → Bool
  | Call.trim_queues _ => true
  | _ => false

/-- A card-marking call. -/
def Call.isCardMark : Call → Bool
  | Call.write_ref_field_gc_par _ _ => true
  | _ => false

/-- The state of a scan: the memory and the calls made so far, oldest first. -/
structure State where
  heap : Heap
  trace : List Call

/-- The parts of the scavenger that are not in this file.
* `is_marked` is `markOopDesc::is_marked()`: the mark word holds a forwarding pointer.
* `decode_pointer` decodes the forwarding address held by a mark word;
  `ParNewGeneration::real_forwardee(obj)` is the decoded mark of `obj`.
* `size_given_klass` is `oopDesc::size_given_klass`.
* `copy_to_survivor_space` returns the new address of the object and the memory after
  the copy; `trim_queues` drains the work queue down to a bound.
* `block_start` is `Space::block_start` of the space containing an address.
* `card_size` is the number of bytes covered by one card. -/
structure Env where
  is_marked : Nat → Bool
  decode_pointer : Nat → Nat
  size_given_klass : Heap → Nat → Nat → Nat
  copy_to_survivor_space : Heap → Nat → Nat → Nat → Nat × Heap
  trim_queues : Nat → Heap → Heap
  block_start : Heap → Nat → Nat
  card_size : Nat

/-- The fields of a `ParScanClosure` (and of the `OopsInGenClosure` it extends) and the
regions its assertions consult. `ParScanWeakRefClosure` has `_g` and `_boundary` only. -/
structure ParScanClosure where
  /-- The end of the young generation `_g`: `_boundary`. -/
  _boundary : Nat
  /-- The value of `gen_boundary()`: the start of the generation being scanned. -/
  gen_boundary : Nat
  /-- The reserved region of `_g->to()`. -/
  to_reserved : MemRegion
  /-- The reserved region of `generation()`. -/
  generation_reserved : MemRegion
  /-- The level of `generation()`. -/
  generation_level : Nat
  /-- The reserved region of `Universe::heap()`. -/
  heap_reserved : MemRegion
  deriving DecidableEq, Repr

/-- `oopDesc::is_null(v)`. -/
def is_null (v : Nat) : Bool := decide (v = 0)

/-- Writing a slot. -/
def Heap.store (h : Heap) (p value : Nat) : Heap :=
  { h with slot := Function.update h.slot p value }

/-- `oopDesc::load_heap_oop(p)` and `load_decode_heap_oop_not_null(p)`. -/
def load_heap_oop (p : Nat) : M State Nat := M.read (fun s => s.heap.slot p)

/-- `oopDesc::encode_store_heap_oop_not_null(p, v)`. -/
def encode_store_heap_oop_not_null (p v : Nat) : M State Unit :=
  M.modify (fun s => { s with heap := s.heap.store p v })

/-- Reading `obj->klass()`; reading a header of the null object halts the VM. -/
def klass_of (obj : Nat) : M State Nat :=
  if obj = 0 then M.halt Fault.null_dereference else M.read (fun s => s.heap.klass obj)

/-- Reading `obj->mark()`; reading a header of the null object halts the VM. -/
def mark_of (obj : Nat) : M State Nat :=
  if obj = 0 then M.halt Fault.null_dereference else M.read (fun s => s.heap.mark obj)

/-- `ParNewGeneration::real_forwardee(obj)`: the forwarding address in the mark of `obj`. -/
def real_forwardee (env : Env) (obj : Nat) : M State Nat :=
  M.read (fun s => env.decode_pointer (s.heap.mark obj))

/-- The call `_g->copy_to_survivor_space(_par_scan_state, obj, obj_sz, m)`. -/
def copy_to_survivor_space (env : Env) (obj obj_sz m : Nat) : M State Nat := fun s =>
  Outcome.ok (env.copy_to_survivor_space s.heap obj obj_sz m).1
    { heap := (env.copy_to_survivor_space s.heap obj obj_sz m).2,
      trace := s.trace ++ [Call.copy_to_survivor_space obj obj_sz m] }

/-- The call `_par_scan_state->trim_queues(max_size)`. -/
def trim_queues (env : Env) (max_size : Nat) : M State Unit :=
  M.modify (fun s => { heap := env.trim_queues max_size s.heap,
                       trace := s.trace ++ [Call.trim_queues max_size] })

/-- Modelled from the spec: `CardTableRS::write_ref_field_gc_par(p, obj)` (cardTableRS.cpp
is not part of these sources), "mark the card covering `p` dirty". -/
def write_ref_field_gc_par (env : Env) (p obj : Nat) : M State Unit :=
  M.modify (fun s =>
    { heap := { s.heap with card_dirty := Function.update s.heap.card_dirty (p / env.card_size) true },
      trace := s.trace ++ [Call.write_ref_field_gc_par p obj] })

/-- `ParScanWeakRefClosure::do_oop_work` (parOopClosures.inline.hpp:32-52). -/
def ParScanWeakRefClosure.do_oop_work (flg : Flags) (env : Env) (cl : ParScanClosure) (p : Nat) :
    M State Unit := do
  M.assert flg.ASSERT (fun s => !is_null (s.heap.slot p)) "null weak reference?"
  let obj ← load_heap_oop p
  -- weak references are sometimes scanned twice; must check
  -- that to-space doesn't already contain this object
  if obj < cl._boundary ∧ cl.to_reserved.contains obj = false then do
    -- we need to ensure that it is copied
    let objK ← klass_of obj
    let m ← mark_of obj
    let new_obj ← (if env.is_marked m = true then -- Contains forwarding pointer.
        real_forwardee env obj
      else do
        let obj_sz ← M.read (fun s => env.size_given_klass s.heap obj objK)
        copy_to_survivor_space env obj obj_sz m)
    encode_store_heap_oop_not_null p new_obj
  else M.pure ()

/-- `ParScanClosure::par_do_barrier` (parOopClosures.inline.hpp:57-65). -/
def ParScanClosure.par_do_barrier (flg : Flags) (env : Env) (cl : ParScanClosure) (p : Nat) :
    M State Unit := do
  M.assert flg.ASSERT (fun _ => cl.generation_reserved.contains p) "expected ref in generation"
  M.assert flg.ASSERT (fun s => !is_null (s.heap.slot p)) "expected non-null object"
  let obj ← load_heap_oop p
  -- If p points to a younger generation, mark the card.
  if obj < cl.gen_boundary then write_ref_field_gc_par env p obj else M.pure ()

/-- The block under `#ifndef PRODUCT` of `ParScanClosure::do_oop_work`
(parOopClosures.inline.hpp:82-98): an object to be copied that is already inside
to-space means a field was scanned twice, and the VM halts. -/
def ParScanClosure.check_not_scanned_twice (flg : Flags) (env : Env) (cl : ParScanClosure)
    (p obj : Nat) : M State Unit :=
  if flg.PRODUCT = false ∧ cl.to_reserved.contains obj = true then do
    let enclosing ← M.read (fun s => env.block_start s.heap p)
    M.assert flg.ASSERT (fun _ => decide (enclosing < p)) "Error"
    M.halt Fault.should_not_reach_here
  else M.pure ()

/-- The condition asserted on entry to `ParScanClosure::do_oop_work`
(parOopClosures.inline.hpp:72-74). -/
def entry_condition (cl : ParScanClosure) (p : Nat) (gc_barrier : Bool) : Bool :=
  (!cl.heap_reserved.contains p || cl.generation_reserved.contains p) &&
    (decide (cl.generation_level = 0) || gc_barrier)

/-- `ParScanClosure::do_oop_work` (parOopClosures.inline.hpp:70-135). -/
def ParScanClosure.do_oop_work (flg : Flags) (env : Env) (cl : ParScanClosure) (p : Nat)
    (gc_barrier root_scan : Bool) : M State Unit := do
  M.assert flg.ASSERT (fun _ => entry_condition cl p gc_barrier)
    "The gen must be right, and we must be doing the barrier in older generations."
  let heap_oop ← load_heap_oop p
  if heap_oop ≠ 0 then do
    let obj := heap_oop
    if obj < cl._boundary then do
      ParScanClosure.check_not_scanned_twice flg env cl p obj
      -- OK, we need to ensure that it is copied.
      -- We read the klass and mark in this order, so that we can reliably
      -- get the size of the object
      let objK ← klass_of obj
      let m ← mark_of obj
      (if env.is_marked m = true then do
        let new_obj ← real_forwardee env obj
        encode_store_heap_oop_not_null p new_obj
      else do
        let obj_sz ← M.read (fun s => env.size_given_klass s.heap obj objK)
        let new_obj ← copy_to_survivor_space env obj obj_sz m
        encode_store_heap_oop_not_null p new_obj
        -- This may have pushed an object. If we have a root category with a lot of
        -- roots, can't let the queue get too full:
        M.when root_scan (trim_queues env (10 * flg.ParallelGCThreads)))
      -- Now call parent closure
      M.when gc_barrier (ParScanClosure.par_do_barrier flg env cl p)
    else M.pure ()
  else M.pure ()

/-- `ParScanWithBarrierClosure::do_oop_nv`. -/
def ParScanWithBarrierClosure.do_oop_nv (flg : Flags) (env : Env) (cl : ParScanClosure)
    (p : Nat) : M State Unit :=
  ParScanClosure.do_oop_work flg env cl p true false

/-- `ParScanWithoutBarrierClosure::do_oop_nv`. -/
def ParScanWithoutBarrierClosure.do_oop_nv (flg : Flags) (env : Env) (cl : ParScanClosure)
    (p : Nat) : M State Unit :=
  ParScanClosure.do_oop_work flg env cl p false false

end ParNew

/-! ## Judgements about runs of the driver -/

/-- The judgement `Emits f P bad m L R`: started in a state whose object sizes satisfy
`P`, the run `m` either returns a value satisfying `R`, in a state whose object sizes
satisfy `P`, having added to the trace exactly the calls `L` among those selected by
`f`; or it halts with a fault in `bad`. -/
def Emits {α : Type} (f : Call → Bool) (P : (Nat → Nat) → Prop) (bad : Fault → Prop)
    (m : M World α) (L : List Call) (R : α → Prop) : Prop :=
  ∀ w, P w.vm.obj_size →
    (∃ a w', m w = Outcome.ok a w' ∧ P w'.vm.obj_size ∧ R a ∧
        w'.trace.filter f = w.trace.filter f ++ L) ∨
    (∃ e w', m w = Outcome.fatal e w' ∧ bad e)

/-- What the collaborators and the build must satisfy for `Emits` to be derived: the
collaborators preserve `P`, a failed assertion is in `bad` when assertions are compiled
in, and either a loop that never ends is in `bad` or `P` makes every object at least
one byte long. -/
structure Setting (flg : Flags) (env : Env) (P : (Nat → Nat) → Prop) (bad : Fault → Prop) :
    Prop where
  effect_preserves : ∀ c vm, P vm.obj_size → P (env.effect c vm).obj_size
  assertion_bad : flg.ASSERT = true → ∀ msg, bad (Fault.assertion msg)
  loops_end : bad Fault.nontermination ∨
    (0 < flg.HeapWordSize ∧ ∀ sz, P sz → ∀ p, 0 < sz p)

/-- Conditions under which a run of the collection is sure to return: assertions are
compiled out, a heap word has at least one byte, and every object has a positive size,
before the run and after each call to a collaborator. -/
def SureToReturn (flg : Flags) (env : Env) (w : World) : Prop :=
  flg.ASSERT = false ∧ 0 < flg.HeapWordSize ∧ (∀ p, 0 < w.vm.obj_size p) ∧
    ∀ c vm, (∀ p, 0 < vm.obj_size p) → ∀ p, 0 < (env.effect c vm).obj_size p

/-! ## A small concrete heap, used to instantiate the theorems -/

namespace Sample

/-- A fastdebug build (assertions on, not a product build) with the adaptive boundary
switched on. -/
def flags : Flags :=
  { ASSERT := true, PRODUCT := false, COMPILER2 := true, TRACESPINNING := false,
    VerifyBeforeGC := false, VerifyAfterGC := false, VerifyObjectStartArray := false,
    VerifyGCStartAt := 0, ZapUnusedHeapArea := false, TraceGen1Time := false,
    PrintGC := true, PrintGCDetails := false, UseAdaptiveSizePolicy := true,
    UseAdaptiveGCBoundary := true, UseAdaptiveGenerationSizePolicyAtMajorCollection := true,
    UseAdaptiveSizePolicyWithSystemGC := false, UsePerfData := false,
    HeapWordSize := 8, sizeof_PreservedMark := 16, min_fill_size := 2,
    ParallelGCThreads := 4 }

/-- Perm at [0, 1000), old at [1000, 2000) and full, young from 2000 on with two
two-word objects in eden and empty survivors. -/
def vm : VM :=
  { at_safepoint := true, ref_processor_is_null := false,
    heap_kind := HeapKind.ParallelScavengeHeap, gc_cause := GCCause.other 0,
    gc_locker := { jni_lock_count := 0, needs_gc := false },
    total_collections := 3, total_full_collections := 1,
    young_gen :=
      { eden_space := { bottom := 2000, top := 2032, end_ := 3000 },
        from_space := { bottom := 3000, top := 3000, end_ := 3200 },
        to_space := { bottom := 3200, top := 3200, end_ := 3400 },
        virtual_space := { alignment := 8, uncommitted_size := 0 },
        capacity_in_bytes := 1200, min_gen_size := 400, max_size := 1400 },
    old_gen :=
      { object_space := { bottom := 1000, top := 2000, end_ := 2000 },
        reserved := { start := 1000, end_ := 2000 },
        virtual_space := { alignment := 8, uncommitted_size := 0 },
        start_array := [], capacity_in_bytes := 1000, max_gen_size := 1000 },
    perm_gen :=
      { object_space := { bottom := 0, top := 160, end_ := 1000 },
        reserved := { start := 0, end_ := 1000 }, capacity_in_bytes := 1000 },
    barrier_set_is_ModRef := true, card_dirty := fun _ => false,
    size_policy := { avg_promoted_padded_average := 8, bytes_absorbed_from_eden := 0,
                     calculated_old_free_size_in_bytes := 0 },
    obj_size := fun _ => 2, derived_pointer_table_active := true, os_javaTimeNanos := 5000000,
    _total_invocations := 1, _time_of_last_gc := 0, _preserved_marks := 0,
    _preserved_count := 0, _preserved_count_max := 0, _marking_stack := [],
    _objarray_stack := [], _preserved_mark_stack := [], _preserved_oop_stack := [],
    _revisit_klass_stack := [], _revisit_mdo_stack := [] }

/-- Collaborators that leave the VM state alone; the GC locker is active when a thread
is inside a critical section, and then remembers that a collection is needed. -/
def env : Env :=
  { check_active_before_gc := fun l =>
      (decide (0 < l.jni_lock_count),
        { l with needs_gc := l.needs_gc || decide (0 < l.jni_lock_count) }),
    effect := fun _ vm => vm,
    answer := fun _ _ => false }

/-- The sample heap with no call made yet. -/
def world : World := { vm := vm, trace := [] }

/-- A product build: no assertions, no non-product code. -/
def product_flags : Flags := { flags with ASSERT := false, PRODUCT := true }

/-- The sample heap with the generations out of order: perm's reserved region ends at
1500, above the start of old's at 1000. -/
def misordered_world : World :=
  { vm := { vm with perm_gen := { vm.perm_gen with reserved := { start := 0, end_ := 1500 } } },
    trace := [] }

/-- The sample heap with part of the young generation's virtual space not committed. -/
def uncommitted_world : World :=
  { vm := { vm with young_gen := { vm.young_gen with
      virtual_space := { alignment := 8, uncommitted_size := 64 } } },
    trace := [] }

/-- Collaborators as in `env`, but expanding the old virtual space moves the end of the
old generation's reserved region up, and `old_gen->reset_after_change()` sets the end of
the old space to the end of that region. -/
def resizing_env : Env :=
  { env with
    effect := fun c vm =>
      match c with
      | Call.virtual_space_expand_into bytes =>
        { vm with old_gen := { vm.old_gen with
            reserved := { start := vm.old_gen.reserved.start,
                          end_ := vm.old_gen.reserved.end_ + bytes } } }
      | Call.old_gen_reset_after_change =>
        { vm with old_gen := { vm.old_gen with
            object_space := { vm.old_gen.object_space with end_ := vm.old_gen.reserved.end_ } } }
      | _ => vm }

/-- The sample heap with 64 bytes of data in to-space, at [3200, 3264). -/
def used_to_space_world : World :=
  { vm := { vm with young_gen := { vm.young_gen with
      to_space := { bottom := 3200, top := 3264, end_ := 3400 } } },
    trace := [] }

/-- The sample heap while one thread is inside a JNI critical section. -/
def locked_world : World :=
  { vm := { vm with gc_locker := { jni_lock_count := 1, needs_gc := false } }, trace := [] }

/-- A young generation at [0, 1000) with to-space at [800, 1000); the generation being
scanned is [1000, 9000). -/
def closure : ParNew.ParScanClosure :=
  { _boundary := 1000, gen_boundary := 1000,
    to_reserved := { start := 800, end_ := 1000 },
    generation_reserved := { start := 1000, end_ := 9000 },
    generation_level := 1,
    heap_reserved := { start := 0, end_ := 9000 } }

/-- Mark words whose two low bits are both set hold a forwarding pointer, the address
being the word with these bits cleared. Copying allocates at the to-space top (kept
inside to-space), leaves the forwarding pointer in the old copy, and returns the new
address. -/
def scan_env : ParNew.Env :=
  { is_marked := fun m => m % 4 == 3,
    decode_pointer := fun m => m - m % 4,
    size_given_klass := fun _ _ _ => 2,
    copy_to_survivor_space := fun h obj sz _ =>
      (800 + 8 * (h.to_space_top / 8 % 25),
        { h with mark := Function.update h.mark obj (800 + 8 * (h.to_space_top / 8 % 25) + 3),
                 to_space_top := 800 + 8 * (h.to_space_top / 8 % 25) + 8 * sz }),
    trim_queues := fun _ h => { h with work_queue := [] },
    block_start := fun _ p => p - 8,
    card_size := 512 }

/-- Slots 5000 and 5008 (in the old generation) both hold a reference to the object at
104, which is in eden and not forwarded; slot 5016 holds a reference to the object at
200, which has been forwarded to 808 in to-space; slot 5024 is null and slot 5032 holds
a reference to an old object. -/
def scan_heap : ParNew.Heap :=
  { slot := fun a =>
      if a = 5000 then 104 else if a = 5008 then 104 else if a = 5016 then 200
      else if a = 5032 then 4000 else 0,
    mark := fun a => if a = 200 then 811 else 1,
    klass := fun _ => 16,
    card_dirty := fun _ => false,
    to_space_top := 816,
    work_queue := [104] }

/-- The sample memory before any call. -/
def scan_state : ParNew.State := { heap := scan_heap, trace := [] }

end Sample

set_option linter.unreachableTactic false
set_option linter.unusedTactic false

/-! ## Reasoning about runs of the driver -/

section EmitsRules

variable {α β : Type} {f : Call → Bool} {P : (Nat → Nat) → Prop} {bad : Fault → Prop}

theorem emits_pure (a : α) (R : α → Prop) (h : R a) :
    Emits f P bad (M.pure a : M World α) [] R := by
  intro w hP
  exact Or.inl ⟨a, w, rfl, hP, h, by simp⟩

theorem emits_weaken {m : M World α} {L : List Call} {R R' : α → Prop}
    (h : Emits f P bad m L R) (hR : ∀ a, R a → R' a) : Emits f P bad m L R' := by
  intro w hP
  rcases h w hP with ⟨a, w1, e1, hP1, hR1, ht1⟩ | ⟨e, w1, e1, hb⟩
  · exact Or.inl ⟨a, w1, e1, hP1, hR _ hR1, ht1⟩
  · exact Or.inr ⟨e, w1, e1, hb⟩

theorem emits_bind {m : M World α} {k : α → M World β} {K L : List Call}
    {Q : α → Prop} {R : β → Prop}
    (hm : Emits f P bad m K Q) (hk : ∀ a, Q a → Emits f P bad (k a) L R) :
    Emits f P bad (m >>= k) (K ++ L) R := by
  intro w hP
  show (∃ a w', M.bind m k w = Outcome.ok a w' ∧ _) ∨ (∃ e w', M.bind m k w = _ ∧ _)
  rcases hm w hP with ⟨a, w1, e1, hP1, hR1, ht1⟩ | ⟨e, w1, e1, hb⟩
  · rcases hk a hR1 w1 hP1 with ⟨b, w2, e2, hP2, hR2, ht2⟩ | ⟨e, w2, e2, hb⟩
    · refine Or.inl ⟨b, w2, ?_, hP2, hR2, ?_⟩
      · simp [M.bind, e1, e2]
      · rw [ht2, ht1, List.append_assoc]
    · refine Or.inr ⟨e, w2, ?_, hb⟩
      simp [M.bind, e1, e2]
  · refine Or.inr ⟨e, w1, ?_, hb⟩
    simp [M.bind, e1]

/-- Sequencing after a run that emits nothing. -/
theorem emits_bind_nil {m : M World α} {k : α → M World β} {L : List Call}
    {R : β → Prop}
    (hm : Emits f P bad m [] (fun _ => True)) (hk : ∀ a, Emits f P bad (k a) L R) :
    Emits f P bad (m >>= k) L R := by
  have h := emits_bind hm (fun a _ => hk a)
  simpa using h

/-- Sequencing after a run that emits one call. -/
theorem emits_bind_cons {m : M World α} {k : α → M World β} {c : Call} {L : List Call}
    {R : β → Prop}
    (hm : Emits f P bad m [c] (fun _ => True)) (hk : ∀ a, Emits f P bad (k a) L R) :
    Emits f P bad (m >>= k) (c :: L) R := by
  have h := emits_bind hm (fun a _ => hk a)
  simpa using h

theorem emits_ite {c : Prop} [Decidable c] {m1 m2 : M World α} {L : List Call}
    {R : α → Prop} (h1 : Emits f P bad m1 L R) (h2 : Emits f P bad m2 L R) :
    Emits f P bad (if c then m1 else m2) L R := by
  split
  · exact h1
  · exact h2

theorem emits_when {b : Bool} {m : M World Unit}
    (h : Emits f P bad m [] (fun _ => True)) :
    Emits f P bad (M.when b m) [] (fun _ => True) := by
  unfold M.when
  exact emits_ite h (emits_pure () _ trivial)

theorem emits_get {γ : Type} (g : VM → γ) :
    Emits f P bad (get g) [] (fun _ => True) := by
  intro w hP
  exact Or.inl ⟨g w.vm, w, rfl, hP, trivial, by simp⟩

theorem emits_set (g : VM → VM) (hg : ∀ vm, (g vm).obj_size = vm.obj_size) :
    Emits f P bad (set g) [] (fun _ => True) := by
  intro w hP
  refine Or.inl ⟨(), { w with vm := g w.vm }, rfl, ?_, trivial, by simp⟩
  simpa [hg] using hP

theorem emits_enter_nil (c : Call) (hc : f c = false) :
    Emits f P bad (enter c) [] (fun _ => True) := by
  intro w hP
  exact Or.inl ⟨(), w.log c, rfl, hP, trivial, by simp [World.log, List.filter_append, hc]⟩

theorem emits_enter_cons (c : Call) (hc : f c = true) :
    Emits f P bad (enter c) [c] (fun _ => True) := by
  intro w hP
  exact Or.inl ⟨(), w.log c, rfl, hP, trivial, by simp [World.log, List.filter_append, hc]⟩

end EmitsRules

section EmitsSetting

variable {flg : Flags} {env : Env} {f : Call → Bool} {P : (Nat → Nat) → Prop}
  {bad : Fault → Prop}

theorem emits_call_nil (S : Setting flg env P bad) (c : Call) (hc : f c = false) :
    Emits f P bad (call env c) [] (fun _ => True) := by
  intro w hP
  exact Or.inl ⟨(), _, rfl, S.effect_preserves c w.vm hP, trivial,
    by simp [List.filter_append, hc]⟩

theorem emits_call_cons (S : Setting flg env P bad) (c : Call) (hc : f c = true) :
    Emits f P bad (call env c) [c] (fun _ => True) := by
  intro w hP
  exact Or.inl ⟨(), _, rfl, S.effect_preserves c w.vm hP, trivial,
    by simp [List.filter_append, hc]⟩

theorem emits_ask_nil (S : Setting flg env P bad) (c : Call) (hc : f c = false) :
    Emits f P bad (ask env c) [] (fun _ => True) := by
  intro w hP
  exact Or.inl ⟨_, _, rfl, S.effect_preserves c w.vm hP, trivial,
    by simp [List.filter_append, hc]⟩

theorem emits_check (S : Setting flg env P bad) (cond : VM → Bool) (msg : String) :
    Emits f P bad (check flg cond msg) [] (fun _ => True) := by
  intro w hP
  by_cases h : (flg.ASSERT && !cond w.vm) = true
  · refine Or.inr ⟨Fault.assertion msg, w, ?_, S.assertion_bad ?_ msg⟩
    · simp only [check, M.assert, h, if_true]
    · simp only [Bool.and_eq_true] at h
      exact h.1
  · refine Or.inl ⟨(), w, ?_, hP, trivial, by simp⟩
    simp only [check, M.assert, h]
    rfl

theorem emits_check_heap_kind (S : Setting flg env P bad) :
    Emits f P bad (check_heap_kind flg) [] (fun _ => True) :=
  emits_check S _ _

theorem emits_halt {α : Type} (e : Fault) (he : bad e) (L : List Call) (R : α → Prop) :
    Emits f P bad (M.halt e : M World α) L R := by
  intro w _
  exact Or.inr ⟨e, w, rfl, he⟩

/-- Reading an object's size: unless a loop that never ends is an accepted fault, the
size is at least one byte. -/
theorem emits_get_size (S : Setting flg env P bad) (p : Nat) :
    Emits f P bad (get (fun vm => vm.obj_size p)) []
      (fun v => bad Fault.nontermination ∨ 0 < v * flg.HeapWordSize) := by
  intro w hP
  refine Or.inl ⟨w.vm.obj_size p, w, rfl, hP, ?_, by simp⟩
  rcases S.loops_end with h | ⟨hw, h⟩
  · exact Or.inl h
  · exact Or.inr (Nat.mul_pos (h _ hP p) hw)

theorem emits_allocate_stacks (S : Setting flg env P bad) :
    Emits Call.isStep P bad (PSMarkSweep.allocate_stacks flg) [Call.allocate_stacks]
      (fun _ => True) := by
  unfold PSMarkSweep.allocate_stacks
  refine emits_bind_cons (emits_enter_cons _ rfl) (fun _ => ?_)
  repeat' (first
    | exact emits_pure _ _ trivial
    | exact emits_call_nil S _ rfl
    | exact emits_ask_nil S _ rfl
    | exact emits_get _
    | exact emits_set _ (fun _ => rfl)
    | exact emits_check S _ _
    | exact emits_check_heap_kind S
    | exact emits_enter_nil _ rfl
    | apply emits_when
    | refine emits_bind_nil ?_ (fun _ => ?_))

theorem emits_deallocate_stacks :
    Emits Call.isStep P bad PSMarkSweep.deallocate_stacks [Call.deallocate_stacks]
      (fun _ => True) := by
  unfold PSMarkSweep.deallocate_stacks
  refine emits_bind_cons (emits_enter_cons _ rfl) (fun _ => ?_)
  repeat' (first
    | exact emits_set _ (fun _ => rfl)
    | refine emits_bind_nil ?_ (fun _ => ?_))

theorem emits_mark_sweep_phase1 (S : Setting flg env P bad) (c : Bool) :
    Emits Call.isStep P bad (PSMarkSweep.mark_sweep_phase1 flg env c)
      [Call.mark_sweep_phase1 c] (fun _ => True) := by
  unfold PSMarkSweep.mark_sweep_phase1 PSMarkSweep.check_marking_stack_empty
  refine emits_bind_cons (emits_enter_cons _ rfl) (fun _ => ?_)
  repeat' (first
    | exact emits_pure _ _ trivial
    | exact emits_call_nil S _ rfl
    | exact emits_ask_nil S _ rfl
    | exact emits_get _
    | exact emits_set _ (fun _ => rfl)
    | exact emits_check S _ _
    | exact emits_check_heap_kind S
    | exact emits_enter_nil _ rfl
    | apply emits_when
    | refine emits_bind_nil ?_ (fun _ => ?_))

theorem emits_mark_sweep_phase2 (S : Setting flg env P bad) :
    Emits Call.isStep P bad (PSMarkSweep.mark_sweep_phase2 flg env)
      [Call.mark_sweep_phase2] (fun _ => True) := by
  unfold PSMarkSweep.mark_sweep_phase2 PSMarkSweep.PSOldGen_precompact
  refine emits_bind_cons (emits_enter_cons _ rfl) (fun _ => ?_)
  repeat' (first
    | exact emits_pure _ _ trivial
    | exact emits_call_nil S _ rfl
    | exact emits_ask_nil S _ rfl
    | exact emits_get _
    | exact emits_set _ (fun _ => rfl)
    | exact emits_check S _ _
    | exact emits_check_heap_kind S
    | exact emits_enter_nil _ rfl
    | apply emits_when
    | refine emits_bind_nil ?_ (fun _ => ?_))

theorem emits_mark_sweep_phase3 (S : Setting flg env P bad) :
    Emits Call.isStep P bad (PSMarkSweep.mark_sweep_phase3 flg env)
      [Call.mark_sweep_phase3] (fun _ => True) := by
  unfold PSMarkSweep.mark_sweep_phase3
  refine emits_bind_cons (emits_enter_cons _ rfl) (fun _ => ?_)
  repeat' (first
    | exact emits_pure _ _ trivial
    | exact emits_call_nil S _ rfl
    | exact emits_ask_nil S _ rfl
    | exact emits_get _
    | exact emits_set _ (fun _ => rfl)
    | exact emits_check S _ _
    | exact emits_check_heap_kind S
    | exact emits_enter_nil _ rfl
    | apply emits_when
    | refine emits_bind_nil ?_ (fun _ => ?_))

theorem emits_mark_sweep_phase4 (S : Setting flg env P bad) :
    Emits Call.isStep P bad (PSMarkSweep.mark_sweep_phase4 flg env)
      [Call.mark_sweep_phase4] (fun _ => True) := by
  unfold PSMarkSweep.mark_sweep_phase4
  refine emits_bind_cons (emits_enter_cons _ rfl) (fun _ => ?_)
  repeat' (first
    | exact emits_pure _ _ trivial
    | exact emits_call_nil S _ rfl
    | exact emits_ask_nil S _ rfl
    | exact emits_get _
    | exact emits_set _ (fun _ => rfl)
    | exact emits_check S _ _
    | exact emits_check_heap_kind S
    | exact emits_enter_nil _ rfl
    | apply emits_when
    | refine emits_bind_nil ?_ (fun _ => ?_))

theorem emits_reset_millis_since_last_gc :
    Emits Call.isStep P bad PSMarkSweep.reset_millis_since_last_gc [] (fun _ => True) := by
  unfold PSMarkSweep.reset_millis_since_last_gc
  exact emits_bind_nil (emits_enter_nil _ rfl) (fun _ => emits_set _ (fun _ => rfl))

theorem emits_start_array_allocate_block (p : Nat) :
    Emits Call.isStep P bad (PSMarkSweep.start_array_allocate_block p) [] (fun _ => True) := by
  unfold PSMarkSweep.start_array_allocate_block
  exact emits_bind_nil (emits_enter_nil _ rfl) (fun _ => emits_set _ (fun _ => rfl))

theorem emits_register_blocks (S : Setting flg env P bad) (new_top : Nat) :
    ∀ fuel p, new_top - p ≤ fuel →
      Emits Call.isStep P bad (PSMarkSweep.register_blocks flg new_top fuel p) []
        (fun _ => True) := by
  intro fuel
  induction fuel with
  | zero =>
    intro p hp
    have h : ¬ p < new_top := by omega
    simp only [PSMarkSweep.register_blocks, h, if_false]
    exact emits_pure _ _ trivial
  | succ n ih =>
    intro p hp
    simp only [PSMarkSweep.register_blocks]
    split
    · refine emits_bind_nil (emits_start_array_allocate_block p) (fun _ => ?_)
      have hb := emits_bind (emits_get_size S p) (L := [])
        (R := fun _ => True) (f := Call.isStep)
        (k := fun size => if size * flg.HeapWordSize = 0 then M.halt Fault.nontermination
          else PSMarkSweep.register_blocks flg new_top n (p + size * flg.HeapWordSize))
        (by
          intro size hsize
          show Emits _ _ _ (if size * flg.HeapWordSize = 0 then _ else _) _ _
          split
          · rcases hsize with hbad | hpos
            · exact emits_halt _ hbad _ _
            · omega
          · exact ih _ (by omega))
      simpa using hb
    · exact emits_pure _ _ trivial

theorem emits_absorb_live_data_from_eden (S : Setting flg env P bad) :
    Emits Call.isStep P bad (PSMarkSweep.absorb_live_data_from_eden flg env) []
      (fun _ => True) := by
  unfold PSMarkSweep.absorb_live_data_from_eden
  repeat' (first
    | exact emits_pure _ _ trivial
    | exact emits_call_nil S _ rfl
    | exact emits_get _
    | exact emits_set _ (fun _ => rfl)
    | exact emits_check S _ _
    | exact emits_enter_nil _ rfl
    | exact emits_register_blocks S _ _ _ (Nat.le_refl _)
    | apply emits_when
    | apply emits_ite
    | refine emits_bind_nil ?_ (fun _ => ?_))

theorem emits_invoke_no_policy_collection (S : Setting flg env P bad) (c : Bool) :
    Emits Call.isStep P bad (PSMarkSweep.invoke_no_policy_collection flg env c)
      [Call.allocate_stacks, Call.mark_sweep_phase1 c, Call.mark_sweep_phase2,
        Call.mark_sweep_phase3, Call.mark_sweep_phase4, Call.restore_marks,
        Call.deallocate_stacks] (fun b => b = true) := by
  unfold PSMarkSweep.invoke_no_policy_collection
  refine emits_bind_nil (emits_get _) (fun _ => ?_)
  refine emits_bind_nil (emits_check_heap_kind S) (fun _ => ?_)
  refine emits_bind_nil (emits_call_nil S _ rfl) (fun _ => ?_)
  refine emits_bind_nil (emits_call_nil S _ rfl) (fun _ => ?_)
  refine emits_bind_nil (emits_call_nil S _ rfl) (fun _ => ?_)
  refine emits_bind_nil (emits_set _ (fun _ => rfl)) (fun _ => ?_)
  refine emits_bind_nil (emits_call_nil S _ rfl) (fun _ => ?_)
  refine emits_bind_nil (emits_call_nil S _ rfl) (fun _ => ?_)
  refine emits_bind_nil (emits_call_nil S _ rfl) (fun _ => ?_)
  refine emits_bind_nil (emits_get _) (fun _ => ?_)
  refine emits_bind_nil (emits_when (by
    repeat' (first
      | exact emits_call_nil S _ rfl
      | exact emits_get _
      | exact emits_check S _ _
      | apply emits_when
      | apply emits_ite
      | refine emits_bind_nil ?_ (fun _ => ?_)))) (fun _ => ?_)
  refine emits_bind_nil (emits_when (by
    repeat' (first
      | exact emits_call_nil S _ rfl
      | exact emits_get _
      | exact emits_check S _ _
      | apply emits_when
      | apply emits_ite
      | refine emits_bind_nil ?_ (fun _ => ?_)))) (fun _ => ?_)
  refine emits_bind_nil (emits_call_nil S _ rfl) (fun _ => ?_)
  refine emits_bind_nil (emits_when (by
    repeat' (first
      | exact emits_call_nil S _ rfl
      | exact emits_get _
      | exact emits_check S _ _
      | apply emits_when
      | apply emits_ite
      | refine emits_bind_nil ?_ (fun _ => ?_)))) (fun _ => ?_)
  refine emits_bind_nil (emits_call_nil S _ rfl) (fun _ => ?_)
  refine emits_bind_nil (emits_call_nil S _ rfl) (fun _ => ?_)
  refine emits_bind_nil (emits_call_nil S _ rfl) (fun _ => ?_)
  refine emits_bind_nil (emits_call_nil S _ rfl) (fun _ => ?_)
  refine emits_bind_nil (emits_get _) (fun _ => ?_)
  refine emits_bind_nil (emits_get _) (fun _ => ?_)
  refine emits_bind_nil (emits_get _) (fun _ => ?_)
  refine emits_bind_nil (emits_get _) (fun _ => ?_)
  refine emits_bind_cons (emits_allocate_stacks S) (fun _ => ?_)
  refine emits_bind_nil (emits_when (by
    repeat' (first
      | exact emits_call_nil S _ rfl
      | exact emits_get _
      | exact emits_check S _ _
      | apply emits_when
      | apply emits_ite
      | refine emits_bind_nil ?_ (fun _ => ?_)))) (fun _ => ?_)
  refine emits_bind_nil (emits_call_nil S _ rfl) (fun _ => ?_)
  refine emits_bind_nil (emits_call_nil S _ rfl) (fun _ => ?_)
  refine emits_bind_cons (emits_mark_sweep_phase1 S c) (fun _ => ?_)
  refine emits_bind_cons (emits_mark_sweep_phase2 S) (fun _ => ?_)
  refine emits_bind_nil (emits_when (by
    repeat' (first
      | exact emits_call_nil S _ rfl
      | exact emits_get _
      | exact emits_check S _ _
      | apply emits_when
      | apply emits_ite
      | refine emits_bind_nil ?_ (fun _ => ?_)))) (fun _ => ?_)
  refine emits_bind_nil (emits_when (by
    repeat' (first
      | exact emits_call_nil S _ rfl
      | exact emits_get _
      | exact emits_check S _ _
      | apply emits_when
      | apply emits_ite
      | refine emits_bind_nil ?_ (fun _ => ?_)))) (fun _ => ?_)
  refine emits_bind_cons (emits_mark_sweep_phase3 S) (fun _ => ?_)
  refine emits_bind_cons (emits_mark_sweep_phase4 S) (fun _ => ?_)
  refine emits_bind_cons (emits_call_cons S Call.restore_marks rfl) (fun _ => ?_)
  refine emits_bind_cons (emits_deallocate_stacks) (fun _ => ?_)
  refine emits_bind_nil (emits_when (by
    repeat' (first
      | exact emits_call_nil S _ rfl
      | exact emits_get _
      | exact emits_check S _ _
      | apply emits_when
      | apply emits_ite
      | refine emits_bind_nil ?_ (fun _ => ?_)))) (fun _ => ?_)
  refine emits_bind_nil (emits_get _) (fun _ => ?_)
  refine emits_bind_nil ?_ (fun _ => ?_)
  · exact emits_ite (emits_pure _ _ trivial) (emits_absorb_live_data_from_eden S)
  refine emits_bind_nil (emits_call_nil S _ rfl) (fun _ => ?_)
  refine emits_bind_nil (emits_get _) (fun _ => ?_)
  refine emits_bind_nil (emits_get _) (fun _ => ?_)
  refine emits_bind_nil (emits_when (by
    repeat' (first
      | exact emits_call_nil S _ rfl
      | exact emits_get _
      | exact emits_check S _ _
      | apply emits_when
      | apply emits_ite
      | refine emits_bind_nil ?_ (fun _ => ?_)))) (fun _ => ?_)
  refine emits_bind_nil (emits_call_nil S _ rfl) (fun _ => ?_)
  refine emits_bind_nil (emits_call_nil S _ rfl) (fun _ => ?_)
  refine emits_bind_nil (emits_call_nil S _ rfl) (fun _ => ?_)
  refine emits_bind_nil (emits_call_nil S _ rfl) (fun _ => ?_)
  refine emits_bind_nil (emits_when (by
    repeat' (first
      | exact emits_call_nil S _ rfl
      | exact emits_get _
      | exact emits_check S _ _
      | apply emits_when
      | apply emits_ite
      | refine emits_bind_nil ?_ (fun _ => ?_)))) (fun _ => ?_)
  refine emits_bind_nil (emits_call_nil S _ rfl) (fun _ => ?_)
  refine emits_bind_nil emits_reset_millis_since_last_gc (fun _ => ?_)
  refine emits_bind_nil (emits_get _) (fun _ => ?_)
  refine emits_bind_nil (emits_call_nil S _ rfl) (fun _ => ?_)
  refine emits_bind_nil (emits_when (by
    repeat' (first
      | exact emits_call_nil S _ rfl
      | exact emits_get _
      | exact emits_check S _ _
      | apply emits_when
      | apply emits_ite
      | refine emits_bind_nil ?_ (fun _ => ?_)))) (fun _ => ?_)
  refine emits_bind_nil (emits_when (by
    repeat' (first
      | exact emits_call_nil S _ rfl
      | exact emits_get _
      | exact emits_check S _ _
      | apply emits_when
      | apply emits_ite
      | refine emits_bind_nil ?_ (fun _ => ?_)))) (fun _ => ?_)
  refine emits_bind_nil (emits_call_nil S _ rfl) (fun _ => ?_)
  refine emits_bind_nil (emits_call_nil S _ rfl) (fun _ => ?_)
  refine emits_bind_nil (emits_when (by
    repeat' (first
      | exact emits_call_nil S _ rfl
      | exact emits_get _
      | exact emits_check S _ _
      | apply emits_when
      | apply emits_ite
      | refine emits_bind_nil ?_ (fun _ => ?_)))) (fun _ => ?_)
  refine emits_bind_nil (emits_when (by
    repeat' (first
      | exact emits_call_nil S _ rfl
      | exact emits_get _
      | exact emits_check S _ _
      | apply emits_when
      | apply emits_ite
      | refine emits_bind_nil ?_ (fun _ => ?_)))) (fun _ => ?_)
  refine emits_bind_nil (emits_call_nil S _ rfl) (fun _ => ?_)
  refine emits_bind_nil (emits_call_nil S _ rfl) (fun _ => ?_)
  refine emits_bind_nil (emits_get _) (fun _ => ?_)
  refine emits_bind_nil (emits_when (by
    repeat' (first
      | exact emits_call_nil S _ rfl
      | exact emits_get _
      | exact emits_check S _ _
      | apply emits_when
      | apply emits_ite
      | refine emits_bind_nil ?_ (fun _ => ?_)))) (fun _ => ?_)
  refine emits_bind_nil (emits_when (by
    repeat' (first
      | exact emits_call_nil S _ rfl
      | exact emits_get _
      | exact emits_check S _ _
      | apply emits_when
      | apply emits_ite
      | refine emits_bind_nil ?_ (fun _ => ?_)))) (fun _ => ?_)
  refine emits_bind_nil (emits_when (by
    repeat' (first
      | exact emits_call_nil S _ rfl
      | exact emits_get _
      | exact emits_check S _ _
      | apply emits_when
      | apply emits_ite
      | refine emits_bind_nil ?_ (fun _ => ?_)))) (fun _ => ?_)
  refine emits_bind_nil (emits_when (by
    repeat' (first
      | exact emits_call_nil S _ rfl
      | exact emits_get _
      | exact emits_check S _ _
      | apply emits_when
      | apply emits_ite
      | refine emits_bind_nil ?_ (fun _ => ?_)))) (fun _ => ?_)
  refine emits_bind_nil (emits_call_nil S _ rfl) (fun _ => ?_)
  refine emits_bind_nil (emits_call_nil S _ rfl) (fun _ => ?_)
  refine emits_bind_nil (emits_when (by
    repeat' (first
      | exact emits_call_nil S _ rfl
      | exact emits_get _
      | exact emits_check S _ _
      | apply emits_when
      | apply emits_ite
      | refine emits_bind_nil ?_ (fun _ => ?_)))) (fun _ => ?_)
  refine emits_bind_nil (emits_call_nil S _ rfl) (fun _ => ?_)
  exact emits_pure _ _ rfl

end EmitsSetting

/-! ## The full collector: theorems -/

section PSMarkSweepTheorems

open PSMarkSweep

theorem check_passes (flg : Flags) (cond : VM → Bool) (msg : String) (w : World)
    (h : flg.ASSERT = false ∨ cond w.vm = true) : check flg cond msg w = Outcome.ok () w := by
  rcases h with h | h <;> simp [check, M.assert, h]

theorem check_heap_kind_passes (flg : Flags) (w : World)
    (h : flg.ASSERT = false ∨ w.vm.heap_kind = HeapKind.ParallelScavengeHeap) :
    check_heap_kind flg w = Outcome.ok () w := by
  apply check_passes
  rcases h with h | h
  · exact Or.inl h
  · exact Or.inr (by simp [h])

/-- C1. When `GC_locker::check_active_before_gc()` reports an active critical section
(and the entry assertions of `invoke_no_policy` hold, or the build has no assertions),
`PSMarkSweep::invoke_no_policy` returns false having made no call but that check: no
collector step is run, the collection counters, `_total_invocations`, the card table and
every generation's used bytes are as before, and so is all of the VM state outside the
GC locker. -/
theorem invoke_no_policy_gc_locker_active (flg : Flags) (env : Env) (clear_all_softrefs : Bool)
    (w : World)
    (hentry : flg.ASSERT = false ∨
      (w.vm.at_safepoint = true ∧ w.vm.ref_processor_is_null = false))
    (hactive : (env.check_active_before_gc w.vm.gc_locker).1 = true) :
    ∃ w', invoke_no_policy flg env clear_all_softrefs w = Outcome.ok false w' ∧
      w'.trace = w.trace ++ [Call.GC_locker_check_active_before_gc] ∧
      w'.steps = w.steps ∧
      w'.vm.total_collections = w.vm.total_collections ∧
      w'.vm.total_full_collections = w.vm.total_full_collections ∧
      w'.vm._total_invocations = w.vm._total_invocations ∧
      w'.vm.card_dirty = w.vm.card_dirty ∧
      w'.vm.young_gen.used_in_bytes = w.vm.young_gen.used_in_bytes ∧
      w'.vm.old_gen.used_in_bytes = w.vm.old_gen.used_in_bytes ∧
      w'.vm.perm_gen.used_in_bytes = w.vm.perm_gen.used_in_bytes ∧
      w'.vm = { w.vm with gc_locker := (env.check_active_before_gc w.vm.gc_locker).2 } := by
  have h1 : check flg (fun vm => vm.at_safepoint) "must be at a safepoint" w = Outcome.ok () w :=
    check_passes _ _ _ _ (hentry.imp id (fun h => h.1))
  have h2 : check flg (fun vm => !vm.ref_processor_is_null) "Sanity" w = Outcome.ok () w :=
    check_passes _ _ _ _ (hentry.imp id (fun h => by simp [h.2]))
  refine ⟨{ vm := { w.vm with gc_locker := (env.check_active_before_gc w.vm.gc_locker).2 },
            trace := w.trace ++ [Call.GC_locker_check_active_before_gc] }, ?_, rfl, ?_,
          rfl, rfl, rfl, rfl, rfl, rfl, rfl, rfl⟩
  · simp only [invoke_no_policy, bind, M.bind, h1, h2, GC_locker_check_active_before_gc,
      hactive, if_true, M.pure]
  · simp [World.steps, List.filter_append, Call.isStep]

theorem invoke_no_policy_gc_locker_active_witness :
    (Sample.env.check_active_before_gc Sample.locked_world.vm.gc_locker).1 = true ∧
    (invoke_no_policy Sample.flags Sample.env true Sample.locked_world).value? = some false ∧
    (invoke_no_policy Sample.flags Sample.env true Sample.locked_world).state.vm.gc_locker.needs_gc
      = true := by
  obtain ⟨w', h, _, _, _, _, _, _, _, _, _, hvm⟩ :=
    invoke_no_policy_gc_locker_active Sample.flags Sample.env true Sample.locked_world
      (Or.inr ⟨rfl, rfl⟩) rfl
  refine ⟨rfl, ?_, ?_⟩
  · rw [h]; rfl
  · rw [h]; simp only [Outcome.state, hvm]; rfl

theorem check_cases (flg : Flags) (cond : VM → Bool) (msg : String) (w : World) :
    check flg cond msg w = Outcome.ok () w ∨
      check flg cond msg w = Outcome.fatal (Fault.assertion msg) w := by
  unfold check M.assert
  split <;> simp

theorem setting_sure_to_return {flg : Flags} {env : Env} {w : World}
    (h : SureToReturn flg env w) :
    Setting flg env (fun sz => ∀ p, 0 < sz p) (fun _ => False) where
  effect_preserves := h.2.2.2
  assertion_bad := fun ha => by simp [h.1] at ha
  loops_end := Or.inr ⟨h.2.1, fun _ hsz => hsz⟩

theorem setting_any (flg : Flags) (env : Env) :
    Setting flg env (fun _ => True) (fun _ => True) where
  effect_preserves := fun _ _ _ => trivial
  assertion_bad := fun _ _ => trivial
  loops_end := Or.inl trivial

/-- C2. When the GC locker is not active, `PSMarkSweep::invoke_no_policy` returns true
and the collector steps it performs are exactly allocate_stacks, mark_sweep_phase1,
mark_sweep_phase2, mark_sweep_phase3, mark_sweep_phase4, restore_marks and
deallocate_stacks, each once and in that order, for all flag settings and both values of
`clear_all_softrefs`. The run returns in every case when assertions are compiled out and
objects have positive sizes (`SureToReturn`); otherwise the statement is for the runs
that do not halt the VM (no failed assertion, no endless block-registration loop). -/
theorem invoke_no_policy_runs_each_step_once (flg : Flags) (env : Env)
    (clear_all_softrefs : Bool) (w : World)
    (hinactive : (env.check_active_before_gc w.vm.gc_locker).1 = false)
    (hrun : SureToReturn flg env w ∨
      (invoke_no_policy flg env clear_all_softrefs w).fault? = none) :
    ∃ w', invoke_no_policy flg env clear_all_softrefs w = Outcome.ok true w' ∧
      w'.steps = w.steps ++
        [Call.allocate_stacks, Call.mark_sweep_phase1 clear_all_softrefs,
          Call.mark_sweep_phase2, Call.mark_sweep_phase3, Call.mark_sweep_phase4,
          Call.restore_marks, Call.deallocate_stacks] := by
  -- the entry assertions pass
  have h1 : check flg (fun vm => vm.at_safepoint) "must be at a safepoint" w = Outcome.ok () w := by
    rcases hrun with h | h
    · exact check_passes _ _ _ _ (Or.inl h.1)
    · rcases check_cases flg (fun vm => vm.at_safepoint) "must be at a safepoint" w with e | e
      · exact e
      · simp [invoke_no_policy, bind, M.bind, e, Outcome.fault?] at h
  have h2 : check flg (fun vm => !vm.ref_processor_is_null) "Sanity" w = Outcome.ok () w := by
    rcases hrun with h | h
    · exact check_passes _ _ _ _ (Or.inl h.1)
    · rcases check_cases flg (fun vm => !vm.ref_processor_is_null) "Sanity" w with e | e
      · exact e
      · simp [invoke_no_policy, bind, M.bind, h1, e, Outcome.fault?] at h
  -- so the run is the collection, started after the locker check
  obtain ⟨w1, hsz, htr, heq⟩ : ∃ w1 : World, w1.vm.obj_size = w.vm.obj_size ∧
      w1.trace = w.trace ++ [Call.GC_locker_check_active_before_gc] ∧
      invoke_no_policy flg env clear_all_softrefs w =
        invoke_no_policy_collection flg env clear_all_softrefs w1 := by
    refine ⟨{ vm := { w.vm with gc_locker := (env.check_active_before_gc w.vm.gc_locker).2 },
              trace := w.trace ++ [Call.GC_locker_check_active_before_gc] }, rfl, rfl, ?_⟩
    simp only [invoke_no_policy, bind, M.bind, h1, h2, GC_locker_check_active_before_gc,
      hinactive]
    rfl
  have hsteps : ∀ w' : World,
      w'.trace.filter Call.isStep = w1.trace.filter Call.isStep ++
          [Call.allocate_stacks, Call.mark_sweep_phase1 clear_all_softrefs,
            Call.mark_sweep_phase2, Call.mark_sweep_phase3, Call.mark_sweep_phase4,
            Call.restore_marks, Call.deallocate_stacks] →
      w'.steps = w.steps ++
        [Call.allocate_stacks, Call.mark_sweep_phase1 clear_all_softrefs,
          Call.mark_sweep_phase2, Call.mark_sweep_phase3, Call.mark_sweep_phase4,
          Call.restore_marks, Call.deallocate_stacks] := by
    intro w' h
    simpa [World.steps, htr, List.filter_append, Call.isStep] using h
  rw [heq] at hrun ⊢
  rcases hrun with h | h
  · rcases emits_invoke_no_policy_collection (setting_sure_to_return h) clear_all_softrefs w1
        (by rw [hsz]; exact h.2.2.1) with ⟨b, w', e, _, hb, ht⟩ | ⟨_, _, _, hbad⟩
    · subst hb
      exact ⟨w', e, hsteps w' ht⟩
    · exact hbad.elim
  · rcases emits_invoke_no_policy_collection (setting_any flg env) clear_all_softrefs w1 trivial
      with ⟨b, w', e, _, hb, ht⟩ | ⟨_, _, e, _⟩
    · subst hb
      exact ⟨w', e, hsteps w' ht⟩
    · simp [e, Outcome.fault?] at h

theorem invoke_no_policy_runs_each_step_once_witness :
    (Sample.env.check_active_before_gc Sample.world.vm.gc_locker).1 = false ∧
    (invoke_no_policy Sample.flags Sample.env true Sample.world).fault? = none ∧
    (invoke_no_policy Sample.flags Sample.env true Sample.world).value? = some true ∧
    (invoke_no_policy Sample.flags Sample.env true Sample.world).state.steps =
      [Call.allocate_stacks, Call.mark_sweep_phase1 true, Call.mark_sweep_phase2,
        Call.mark_sweep_phase3, Call.mark_sweep_phase4, Call.restore_marks,
        Call.deallocate_stacks] := by
  have hrun : (invoke_no_policy Sample.flags Sample.env true Sample.world).fault? = none := by
    decide
  obtain ⟨w', h, hs⟩ :=
    invoke_no_policy_runs_each_step_once Sample.flags Sample.env true Sample.world rfl
      (Or.inr hrun)
  refine ⟨rfl, hrun, ?_, ?_⟩
  · rw [h]; rfl
  · rw [h]; exact hs

/-- C3. In every execution of `mark_sweep_phase2` (with the heap-kind assertion holding
or compiled out) the calls made are, in order: the destination decorator is set to the
tenured generation, the old generation is precompacted, which precompacts the old object
space and then the young generation, the destination decorator is switched to the perm
generation, and `perm_gen->precompact()` is called. So the perm generation is visited
exactly once and last, after old and young, and the decorator is switched to it only
after the old/young precompaction. -/
theorem mark_sweep_phase2_visits_perm_last (flg : Flags) (env : Env) (w : World)
    (hkind : flg.ASSERT = false ∨ w.vm.heap_kind = HeapKind.ParallelScavengeHeap) :
    ∃ w', mark_sweep_phase2 flg env w = Outcome.ok () w' ∧
      w'.trace = w.trace ++
        [Call.mark_sweep_phase2, Call.set_destination_decorator_tenured,
          Call.PSOldGen_precompact, Call.old_gen_object_mark_sweep_precompact,
          Call.young_gen_precompact, Call.set_destination_decorator_perm_gen,
          Call.perm_gen_precompact] ∧
      w'.vm = env.effect Call.perm_gen_precompact
        (env.effect Call.set_destination_decorator_perm_gen
          (env.effect Call.young_gen_precompact
            (env.effect Call.old_gen_object_mark_sweep_precompact
              (env.effect Call.set_destination_decorator_tenured w.vm)))) := by
  have hk : check_heap_kind flg { vm := w.vm, trace := w.trace ++ [Call.mark_sweep_phase2] } =
      Outcome.ok () { vm := w.vm, trace := w.trace ++ [Call.mark_sweep_phase2] } :=
    check_heap_kind_passes flg _ hkind
  refine ⟨(mark_sweep_phase2 flg env w).state, ?_, ?_, ?_⟩ <;>
    simp [mark_sweep_phase2, PSOldGen_precompact, bind, M.bind, enter, call, M.modify, hk,
      Outcome.state, World.log]

theorem mark_sweep_phase2_visits_perm_last_witness :
    Sample.world.vm.heap_kind = HeapKind.ParallelScavengeHeap ∧
    (mark_sweep_phase2 Sample.flags Sample.env Sample.world).state.trace.length = 7 := by
  obtain ⟨w', h, ht, _⟩ :=
    mark_sweep_phase2_visits_perm_last Sample.flags Sample.env Sample.world (Or.inr rfl)
  refine ⟨rfl, ?_⟩
  rw [h]
  simp only [Outcome.state, ht]
  rfl

/-- C4. In every execution of `mark_sweep_phase4` (with the heap-kind assertion holding
or compiled out) the generations are compacted in the order perm, old, young: the calls
made are exactly `perm_gen->compact()`, `old_gen->compact()`, `young_gen->compact()`,
each once and in that order. -/
theorem mark_sweep_phase4_compacts_perm_old_young (flg : Flags) (env : Env) (w : World)
    (hkind : flg.ASSERT = false ∨ w.vm.heap_kind = HeapKind.ParallelScavengeHeap) :
    ∃ w', mark_sweep_phase4 flg env w = Outcome.ok () w' ∧
      w'.trace = w.trace ++
        [Call.mark_sweep_phase4, Call.perm_gen_compact, Call.old_gen_compact,
          Call.young_gen_compact] ∧
      w'.vm = env.effect Call.young_gen_compact
        (env.effect Call.old_gen_compact (env.effect Call.perm_gen_compact w.vm)) := by
  have hk : check_heap_kind flg { vm := w.vm, trace := w.trace ++ [Call.mark_sweep_phase4] } =
      Outcome.ok () { vm := w.vm, trace := w.trace ++ [Call.mark_sweep_phase4] } :=
    check_heap_kind_passes flg _ hkind
  refine ⟨(mark_sweep_phase4 flg env w).state, ?_, ?_, ?_⟩ <;>
    simp [mark_sweep_phase4, bind, M.bind, enter, call, M.modify, hk, Outcome.state, World.log]

theorem mark_sweep_phase4_compacts_perm_old_young_witness :
    Sample.world.vm.heap_kind = HeapKind.ParallelScavengeHeap ∧
    (mark_sweep_phase4 Sample.flags Sample.env Sample.world).state.trace.length = 4 := by
  obtain ⟨w', h, ht, _⟩ :=
    mark_sweep_phase4_compacts_perm_old_young Sample.flags Sample.env Sample.world (Or.inr rfl)
  refine ⟨rfl, ?_⟩
  rw [h]
  simp only [Outcome.state, ht]
  rfl

end PSMarkSweepTheorems

/-! ## The scan closures: theorems -/

section ParNewTheorems

open ParNew

theorem assert_passes {σ : Type} (dbg : Bool) (cond : σ → Bool) (msg : String) (s : σ)
    (h : dbg = false ∨ cond s = true) : M.assert dbg cond msg s = Outcome.ok () s := by
  rcases h with h | h <;> simp [M.assert, h]

theorem assert_cases {σ : Type} (dbg : Bool) (cond : σ → Bool) (msg : String) (s : σ) :
    (M.assert dbg cond msg s = Outcome.ok () s ∧ (dbg = false ∨ cond s = true)) ∨
      (M.assert dbg cond msg s = Outcome.fatal (Fault.assertion msg) s ∧ dbg = true ∧
        cond s = false) := by
  unfold M.assert
  cases dbg <;> cases h : cond s <;> simp

theorem check_not_scanned_twice_passes (flg : Flags) (env : ParNew.Env) (cl : ParScanClosure)
    (p obj : Nat) (s : State)
    (h : flg.PRODUCT = true ∨ cl.to_reserved.contains obj = false) :
    ParScanClosure.check_not_scanned_twice flg env cl p obj s = Outcome.ok () s := by
  unfold ParScanClosure.check_not_scanned_twice
  rcases h with h | h <;> simp [h, M.pure]

theorem check_not_scanned_twice_halts (flg : Flags) (env : ParNew.Env) (cl : ParScanClosure)
    (p obj : Nat) (s : State)
    (h : flg.PRODUCT = false ∧ cl.to_reserved.contains obj = true) :
    ∃ e, ParScanClosure.check_not_scanned_twice flg env cl p obj s = Outcome.fatal e s := by
  unfold ParScanClosure.check_not_scanned_twice
  rcases assert_cases flg.ASSERT (fun _ : State => decide (env.block_start s.heap p < p))
    "Error" s with ⟨e, _⟩ | ⟨e, _⟩
  · exact ⟨Fault.should_not_reach_here, by simp [h, bind, M.bind, M.read, e, M.halt]⟩
  · exact ⟨Fault.assertion "Error", by simp [h, bind, M.bind, M.read, e]⟩

/-- The scan of a slot that refers to a young object whose mark is not a forwarding
pointer: the object is copied, the slot updated, the queue trimmed for a root, and the
barrier step follows. -/
theorem scan_unforwarded_eq (flg : Flags) (env : ParNew.Env) (cl : ParScanClosure)
    (p : Nat) (gc_barrier root_scan : Bool) (s : State)
    (hentry : flg.ASSERT = false ∨ ParNew.entry_condition cl p gc_barrier = true)
    (hnonnull : s.heap.slot p ≠ 0) (hyoung : s.heap.slot p < cl._boundary)
    (htwice : flg.PRODUCT = true ∨ cl.to_reserved.contains (s.heap.slot p) = false)
    (hmark : env.is_marked (s.heap.mark (s.heap.slot p)) = false) :
    ParScanClosure.do_oop_work flg env cl p gc_barrier root_scan s =
      M.when gc_barrier (ParScanClosure.par_do_barrier flg env cl p)
        { heap := (if root_scan = true then env.trim_queues (10 * flg.ParallelGCThreads) else id)
            ((env.copy_to_survivor_space s.heap (s.heap.slot p)
                (env.size_given_klass s.heap (s.heap.slot p) (s.heap.klass (s.heap.slot p)))
                (s.heap.mark (s.heap.slot p))).2.store p
              (env.copy_to_survivor_space s.heap (s.heap.slot p)
                (env.size_given_klass s.heap (s.heap.slot p) (s.heap.klass (s.heap.slot p)))
                (s.heap.mark (s.heap.slot p))).1),
          trace := s.trace ++
            Call.copy_to_survivor_space (s.heap.slot p)
                (env.size_given_klass s.heap (s.heap.slot p) (s.heap.klass (s.heap.slot p)))
                (s.heap.mark (s.heap.slot p)) ::
              (if root_scan = true then [Call.trim_queues (10 * flg.ParallelGCThreads)]
                else []) } := by
  have ha := assert_passes flg.ASSERT (fun _ : State => ParNew.entry_condition cl p gc_barrier)
    "The gen must be right, and we must be doing the barrier in older generations." s hentry
  have hc := check_not_scanned_twice_passes flg env cl p (s.heap.slot p) s htwice
  cases root_scan <;>
    simp [ParScanClosure.do_oop_work, bind, M.bind, ha, hc, load_heap_oop, M.read, hnonnull,
      hyoung, klass_of, mark_of, hmark, ParNew.copy_to_survivor_space,
      encode_store_heap_oop_not_null, M.modify, M.when, ParNew.trim_queues, M.pure]

/-- The scan of a slot that refers to a young object whose mark is a forwarding pointer:
the slot is set to the forwarding address and the barrier step follows. -/
theorem scan_forwarded_eq (flg : Flags) (env : ParNew.Env) (cl : ParScanClosure)
    (p : Nat) (gc_barrier root_scan : Bool) (s : State)
    (hentry : flg.ASSERT = false ∨ ParNew.entry_condition cl p gc_barrier = true)
    (hnonnull : s.heap.slot p ≠ 0) (hyoung : s.heap.slot p < cl._boundary)
    (htwice : flg.PRODUCT = true ∨ cl.to_reserved.contains (s.heap.slot p) = false)
    (hmark : env.is_marked (s.heap.mark (s.heap.slot p)) = true) :
    ParScanClosure.do_oop_work flg env cl p gc_barrier root_scan s =
      M.when gc_barrier (ParScanClosure.par_do_barrier flg env cl p)
        { heap := s.heap.store p (env.decode_pointer (s.heap.mark (s.heap.slot p))),
          trace := s.trace } := by
  have ha := assert_passes flg.ASSERT (fun _ : State => ParNew.entry_condition cl p gc_barrier)
    "The gen must be right, and we must be doing the barrier in older generations." s hentry
  have hc := check_not_scanned_twice_passes flg env cl p (s.heap.slot p) s htwice
  simp [ParScanClosure.do_oop_work, bind, M.bind, ha, hc, load_heap_oop, M.read, hnonnull,
    hyoung, klass_of, mark_of, hmark, ParNew.real_forwardee,
    encode_store_heap_oop_not_null, M.modify]

/-- A scan that returns passed its entry assertion. -/
theorem do_oop_work_entry_of_ok (flg : Flags) (env : ParNew.Env) (cl : ParScanClosure)
    (p : Nat) (gc_barrier root_scan : Bool) (s s' : State)
    (h : ParScanClosure.do_oop_work flg env cl p gc_barrier root_scan s = Outcome.ok () s') :
    flg.ASSERT = false ∨ ParNew.entry_condition cl p gc_barrier = true := by
  rcases assert_cases flg.ASSERT (fun _ : State => ParNew.entry_condition cl p gc_barrier)
    "The gen must be right, and we must be doing the barrier in older generations." s
    with ⟨_, h'⟩ | ⟨e, _⟩
  · exact h'
  · simp [ParScanClosure.do_oop_work, bind, M.bind, e] at h

/-- A scan of a reference to a young object that returns did not find the object in
to-space, unless the build is a product build. -/
theorem do_oop_work_not_twice_of_ok (flg : Flags) (env : ParNew.Env) (cl : ParScanClosure)
    (p : Nat) (gc_barrier root_scan : Bool) (s s' : State)
    (h : ParScanClosure.do_oop_work flg env cl p gc_barrier root_scan s = Outcome.ok () s')
    (hnonnull : s.heap.slot p ≠ 0) (hyoung : s.heap.slot p < cl._boundary) :
    flg.PRODUCT = true ∨ cl.to_reserved.contains (s.heap.slot p) = false := by
  have hentry := do_oop_work_entry_of_ok flg env cl p gc_barrier root_scan s s' h
  have ha := assert_passes flg.ASSERT (fun _ : State => ParNew.entry_condition cl p gc_barrier)
    "The gen must be right, and we must be doing the barrier in older generations." s hentry
  by_contra hcon
  have hcon' : flg.PRODUCT = false ∧ cl.to_reserved.contains (s.heap.slot p) = true := by
    cases hp : flg.PRODUCT <;> cases hc : cl.to_reserved.contains (s.heap.slot p) <;>
      simp [hp, hc] at hcon ⊢
  obtain ⟨e, he⟩ := check_not_scanned_twice_halts flg env cl p (s.heap.slot p) s hcon'
  simp [ParScanClosure.do_oop_work, bind, M.bind, ha, load_heap_oop, M.read, hnonnull, hyoung,
    he] at h

/-- What the barrier step does when it returns: slots and headers are untouched, and
`write_ref_field_gc_par` is called, dirtying the card of `p`, exactly when the barrier
is requested and the referent of `p` lies below the generation boundary. -/
theorem par_do_barrier_ok (flg : Flags) (env : ParNew.Env) (cl : ParScanClosure)
    (p : Nat) (g : Bool) (s s' : State)
    (h : M.when g (ParScanClosure.par_do_barrier flg env cl p) s = Outcome.ok () s') :
    s'.heap.slot = s.heap.slot ∧ s'.heap.mark = s.heap.mark ∧
    s'.trace = s.trace ++
      (if g = true ∧ s.heap.slot p < cl.gen_boundary then
        [Call.write_ref_field_gc_par p (s.heap.slot p)] else []) ∧
    (g = true → s.heap.slot p < cl.gen_boundary →
      s'.heap.card_dirty (p / env.card_size) = true) ∧
    (¬ (g = true ∧ s.heap.slot p < cl.gen_boundary) → s' = s) := by
  cases g
  · simp only [M.when, Bool.false_eq_true, if_false, M.pure, Outcome.ok.injEq, true_and] at h
    subst h
    simp
  · rcases assert_cases flg.ASSERT (fun _ : State => cl.generation_reserved.contains p)
      "expected ref in generation" s with ⟨e1, _⟩ | ⟨e1, _⟩
    · rcases assert_cases flg.ASSERT (fun s : State => !is_null (s.heap.slot p))
        "expected non-null object" s with ⟨e2, _⟩ | ⟨e2, _⟩
      · by_cases hb : s.heap.slot p < cl.gen_boundary
        · simp [M.when, ParScanClosure.par_do_barrier, bind, M.bind, e1, e2, load_heap_oop,
            M.read, hb, ParNew.write_ref_field_gc_par, M.modify] at h
          subst h
          simp [hb]
        · simp [M.when, ParScanClosure.par_do_barrier, bind, M.bind, e1, e2, load_heap_oop,
            M.read, hb, M.pure] at h
          subst h
          simp [hb]
      · simp [M.when, ParScanClosure.par_do_barrier, bind, M.bind, e1, e2] at h
    · simp [M.when, ParScanClosure.par_do_barrier, bind, M.bind, e1] at h

/-- The barrier step, when its assertions hold or are compiled out. -/
theorem par_do_barrier_eval (flg : Flags) (env : ParNew.Env) (cl : ParScanClosure)
    (p : Nat) (g : Bool) (s : State)
    (hassert : g = true → flg.ASSERT = false ∨
      (cl.generation_reserved.contains p = true ∧ s.heap.slot p ≠ 0)) :
    M.when g (ParScanClosure.par_do_barrier flg env cl p) s =
      Outcome.ok ()
        (if g = true ∧ s.heap.slot p < cl.gen_boundary then
          { heap := { s.heap with
              card_dirty := Function.update s.heap.card_dirty (p / env.card_size) true },
            trace := s.trace ++ [Call.write_ref_field_gc_par p (s.heap.slot p)] }
        else s) := by
  cases g
  · simp [M.when, M.pure]
  · have h := hassert rfl
    have e1 := assert_passes flg.ASSERT (fun _ : State => cl.generation_reserved.contains p)
      "expected ref in generation" s (h.imp id (fun h => h.1))
    have e2 := assert_passes flg.ASSERT (fun s : State => !is_null (s.heap.slot p))
      "expected non-null object" s (h.imp id (fun h => by simp [is_null, h.2]))
    by_cases hb : s.heap.slot p < cl.gen_boundary
    · simp [M.when, ParScanClosure.par_do_barrier, bind, M.bind, e1, e2, load_heap_oop,
        M.read, hb, ParNew.write_ref_field_gc_par, M.modify]
    · simp [M.when, ParScanClosure.par_do_barrier, bind, M.bind, e1, e2, load_heap_oop,
        M.read, hb, M.pure]

/-- Whatever its outcome, the barrier step adds to the trace only card-marking calls. -/
theorem par_do_barrier_trace (flg : Flags) (env : ParNew.Env) (cl : ParScanClosure)
    (p : Nat) (g : Bool) (s : State) (f : ParNew.Call → Bool)
    (hf : ∀ a b, f (Call.write_ref_field_gc_par a b) = false) :
    (M.when g (ParScanClosure.par_do_barrier flg env cl p) s).state.trace.filter f =
      s.trace.filter f := by
  cases g
  · simp [M.when, M.pure, Outcome.state]
  · rcases assert_cases flg.ASSERT (fun _ : State => cl.generation_reserved.contains p)
      "expected ref in generation" s with ⟨e1, _⟩ | ⟨e1, _⟩
    · rcases assert_cases flg.ASSERT (fun s : State => !is_null (s.heap.slot p))
        "expected non-null object" s with ⟨e2, _⟩ | ⟨e2, _⟩
      · by_cases hb : s.heap.slot p < cl.gen_boundary
        · simp [M.when, ParScanClosure.par_do_barrier, bind, M.bind, e1, e2, load_heap_oop,
            M.read, hb, ParNew.write_ref_field_gc_par, M.modify, Outcome.state,
            List.filter_append, hf]
        · simp [M.when, ParScanClosure.par_do_barrier, bind, M.bind, e1, e2, load_heap_oop,
            M.read, hb, M.pure, Outcome.state]
      · simp [M.when, ParScanClosure.par_do_barrier, bind, M.bind, e1, e2, Outcome.state]
    · simp [M.when, ParScanClosure.par_do_barrier, bind, M.bind, e1, Outcome.state]

/-- C5. For a slot `p` holding a non-null reference to an object below `_boundary`
whose mark word is not a forwarding pointer (the entry assertion holding or compiled
out, and the object outside to-space unless the build is a product build),
`ParScanClosure::do_oop_work` calls `copy_to_survivor_space` with the object, the size
given by the klass read off the object and the mark word read, stores the address
returned into `*p`, trims the queue with bound `10 * ParallelGCThreads` exactly when
`root_scan` is set, and goes on to the barrier step. In every outcome the object is
copied exactly once and the queue is trimmed once if `root_scan` and never otherwise. -/
theorem do_oop_work_copies_unforwarded (flg : Flags) (env : ParNew.Env) (cl : ParScanClosure)
    (p : Nat) (gc_barrier root_scan : Bool) (s : State)
    (hentry : flg.ASSERT = false ∨ ParNew.entry_condition cl p gc_barrier = true)
    (hnonnull : s.heap.slot p ≠ 0) (hyoung : s.heap.slot p < cl._boundary)
    (htwice : flg.PRODUCT = true ∨ cl.to_reserved.contains (s.heap.slot p) = false)
    (hmark : env.is_marked (s.heap.mark (s.heap.slot p)) = false) :
    ∃ obj_sz new_obj copied,
      obj_sz = env.size_given_klass s.heap (s.heap.slot p) (s.heap.klass (s.heap.slot p)) ∧
      (new_obj, copied) =
        env.copy_to_survivor_space s.heap (s.heap.slot p) obj_sz (s.heap.mark (s.heap.slot p)) ∧
      ParScanClosure.do_oop_work flg env cl p gc_barrier root_scan s =
        M.when gc_barrier (ParScanClosure.par_do_barrier flg env cl p)
          { heap := (if root_scan = true then env.trim_queues (10 * flg.ParallelGCThreads)
              else id) (copied.store p new_obj),
            trace := s.trace ++
              Call.copy_to_survivor_space (s.heap.slot p) obj_sz (s.heap.mark (s.heap.slot p)) ::
                (if root_scan = true then [Call.trim_queues (10 * flg.ParallelGCThreads)]
                  else []) } ∧
      (ParScanClosure.do_oop_work flg env cl p gc_barrier root_scan s).state.trace.filter
          Call.isCopy = s.trace.filter Call.isCopy ++
        [Call.copy_to_survivor_space (s.heap.slot p) obj_sz (s.heap.mark (s.heap.slot p))] ∧
      (ParScanClosure.do_oop_work flg env cl p gc_barrier root_scan s).state.trace.filter
          Call.isTrim = s.trace.filter Call.isTrim ++
        (if root_scan = true then [Call.trim_queues (10 * flg.ParallelGCThreads)] else []) ∧
      (root_scan = false → ∀ s',
        ParScanClosure.do_oop_work flg env cl p gc_barrier root_scan s = Outcome.ok () s' →
          s'.heap.slot p = new_obj) := by
  have heq := scan_unforwarded_eq flg env cl p gc_barrier root_scan s hentry hnonnull
    hyoung htwice hmark
  refine ⟨_, _, _, rfl, rfl, heq, ?_, ?_, ?_⟩
  · rw [heq, par_do_barrier_trace _ _ _ _ _ _ _ (fun _ _ => rfl)]
    cases root_scan <;> simp [List.filter_append, List.filter_cons, Call.isCopy]
  · rw [heq, par_do_barrier_trace _ _ _ _ _ _ _ (fun _ _ => rfl)]
    cases root_scan <;> simp [List.filter_append, List.filter_cons, Call.isTrim]
  · intro hr s' hs'
    rw [heq] at hs'
    have hb := par_do_barrier_ok flg env cl p gc_barrier _ s' hs'
    rw [hb.1]
    simp [hr, Heap.store]

theorem do_oop_work_copies_unforwarded_witness :
    Sample.scan_state.heap.slot 5000 = 104 ∧
    (ParScanClosure.do_oop_work Sample.flags Sample.scan_env Sample.closure 5000 true true
      Sample.scan_state).state.trace.filter Call.isCopy =
        [Call.copy_to_survivor_space 104 2 1] ∧
    (ParScanClosure.do_oop_work Sample.flags Sample.scan_env Sample.closure 5000 true true
      Sample.scan_state).state.trace.filter Call.isTrim = [Call.trim_queues 40] := by
  obtain ⟨sz, new_obj, copied, hsz, _, _, hc, ht, _⟩ :=
    do_oop_work_copies_unforwarded Sample.flags Sample.scan_env Sample.closure 5000 true true
      Sample.scan_state (Or.inr (by decide)) (by decide) (by decide) (Or.inr (by decide))
      (by decide)
  subst hsz
  exact ⟨rfl, hc, ht⟩

/-- C6, refuted as stated: in the sample, slot 5016 holds a reference to the young
object at 200 whose mark is a forwarding pointer to 808; the scan with `gc_barrier`
returns and has dirtied card 9, the card covering the slot, which was clean. -/
theorem forwarded_scan_dirties_card :
    Sample.scan_state.heap.slot 5016 = 200 ∧
    200 < Sample.closure._boundary ∧
    Sample.scan_env.is_marked (Sample.scan_state.heap.mark 200) = true ∧
    Sample.scan_state.heap.card_dirty 9 = false ∧
    (ParScanClosure.do_oop_work Sample.flags Sample.scan_env Sample.closure 5016 true false
      Sample.scan_state).fault? = none ∧
    (ParScanClosure.do_oop_work Sample.flags Sample.scan_env Sample.closure 5016 true false
      Sample.scan_state).state.heap.slot 5016 = 808 ∧
    (ParScanClosure.do_oop_work Sample.flags Sample.scan_env Sample.closure 5016 true false
      Sample.scan_state).state.heap.card_dirty 9 = true := by
  decide

/-- C6, amended. For a slot `p` holding a non-null reference to an object below
`_boundary` whose mark word is a forwarding pointer (assertions holding or compiled
out, the object outside to-space unless the build is a product build),
`ParScanClosure::do_oop_work` sets `*p` to the decoded forwarding address and returns:
nothing is copied, the queue is not trimmed, no other slot and no mark word changes.
No card changes when `gc_barrier` is false or the forwarding address is not below the
generation boundary; when `gc_barrier` is true and the forwarding address is below the
generation boundary, `write_ref_field_gc_par` is called and the card covering `p` is
dirtied. -/
theorem do_oop_work_forwarded (flg : Flags) (env : ParNew.Env) (cl : ParScanClosure)
    (p : Nat) (gc_barrier root_scan : Bool) (s : State)
    (hentry : flg.ASSERT = false ∨ ParNew.entry_condition cl p gc_barrier = true)
    (hnonnull : s.heap.slot p ≠ 0) (hyoung : s.heap.slot p < cl._boundary)
    (htwice : flg.PRODUCT = true ∨ cl.to_reserved.contains (s.heap.slot p) = false)
    (hmark : env.is_marked (s.heap.mark (s.heap.slot p)) = true)
    (hbarrier : gc_barrier = true → flg.ASSERT = false ∨
      (cl.generation_reserved.contains p = true ∧
        env.decode_pointer (s.heap.mark (s.heap.slot p)) ≠ 0)) :
    ParScanClosure.do_oop_work flg env cl p gc_barrier root_scan s =
      Outcome.ok ()
        (if gc_barrier = true ∧ env.decode_pointer (s.heap.mark (s.heap.slot p)) < cl.gen_boundary
        then
          { heap := { s.heap.store p (env.decode_pointer (s.heap.mark (s.heap.slot p))) with
              card_dirty := Function.update s.heap.card_dirty (p / env.card_size) true },
            trace := s.trace ++
              [Call.write_ref_field_gc_par p (env.decode_pointer (s.heap.mark (s.heap.slot p)))] }
        else
          { heap := s.heap.store p (env.decode_pointer (s.heap.mark (s.heap.slot p))),
            trace := s.trace }) := by
  rw [scan_forwarded_eq flg env cl p gc_barrier root_scan s hentry hnonnull hyoung
    htwice hmark]
  rw [par_do_barrier_eval]
  · simp [Heap.store]
  · intro hg
    simpa [Heap.store] using hbarrier hg

theorem do_oop_work_forwarded_witness :
    Sample.scan_state.heap.slot 5016 = 200 ∧
    (ParScanClosure.do_oop_work Sample.flags Sample.scan_env Sample.closure 5016 true true
      Sample.scan_state).state.trace = [Call.write_ref_field_gc_par 5016 808] ∧
    (ParScanClosure.do_oop_work Sample.flags Sample.scan_env Sample.closure 5016 true true
      Sample.scan_state).state.heap.slot 5016 = 808 := by
  have h := do_oop_work_forwarded Sample.flags Sample.scan_env Sample.closure 5016 true true
    Sample.scan_state (Or.inr (by decide)) (by decide) (by decide) (Or.inr (by decide))
    (by decide) (by decide)
  rw [h]
  exact ⟨rfl, rfl, by decide⟩

/-- The two ways a scan of a reference to a young object can go: it halts before
touching anything, or it reaches the barrier step having called no card-marking
collaborator. -/
theorem do_oop_work_young_cases (flg : Flags) (env : ParNew.Env) (cl : ParScanClosure)
    (p : Nat) (gc_barrier root_scan : Bool) (s : State)
    (hnonnull : s.heap.slot p ≠ 0) (hyoung : s.heap.slot p < cl._boundary) :
    (∃ e, ParScanClosure.do_oop_work flg env cl p gc_barrier root_scan s = Outcome.fatal e s) ∨
    (∃ s1, ParScanClosure.do_oop_work flg env cl p gc_barrier root_scan s =
        M.when gc_barrier (ParScanClosure.par_do_barrier flg env cl p) s1 ∧
      s1.trace.filter Call.isCardMark = s.trace.filter Call.isCardMark) := by
  rcases assert_cases flg.ASSERT (fun _ : State => ParNew.entry_condition cl p gc_barrier)
    "The gen must be right, and we must be doing the barrier in older generations." s
    with ⟨_, hentry⟩ | ⟨e, _⟩
  · by_cases htwice : flg.PRODUCT = true ∨ cl.to_reserved.contains (s.heap.slot p) = false
    · cases hmark : env.is_marked (s.heap.mark (s.heap.slot p))
      · refine Or.inr ⟨_, scan_unforwarded_eq flg env cl p gc_barrier root_scan s hentry
          hnonnull hyoung htwice hmark, ?_⟩
        cases root_scan <;> simp [List.filter_append, List.filter_cons, Call.isCardMark]
      · exact Or.inr ⟨_, scan_forwarded_eq flg env cl p gc_barrier root_scan s hentry
          hnonnull hyoung htwice hmark, rfl⟩
    · have hcon : flg.PRODUCT = false ∧ cl.to_reserved.contains (s.heap.slot p) = true := by
        cases hp : flg.PRODUCT <;> cases hc : cl.to_reserved.contains (s.heap.slot p) <;>
          simp [hp, hc] at htwice ⊢
      obtain ⟨e, he⟩ := check_not_scanned_twice_halts flg env cl p (s.heap.slot p) s hcon
      have ha := assert_passes flg.ASSERT
        (fun _ : State => ParNew.entry_condition cl p gc_barrier)
        "The gen must be right, and we must be doing the barrier in older generations." s hentry
      refine Or.inl ⟨e, ?_⟩
      simp [ParScanClosure.do_oop_work, bind, M.bind, ha, load_heap_oop, M.read, hnonnull,
        hyoung, he]
  · refine Or.inl ⟨Fault.assertion
      "The gen must be right, and we must be doing the barrier in older generations.", ?_⟩
    simp [ParScanClosure.do_oop_work, bind, M.bind, e]

/-- A scan of a null slot or of a reference to an object that is not young halts on the
entry assertion or returns in the state it started in. -/
theorem do_oop_work_old_cases (flg : Flags) (env : ParNew.Env) (cl : ParScanClosure)
    (p : Nat) (gc_barrier root_scan : Bool) (s : State)
    (h : s.heap.slot p = 0 ∨ cl._boundary ≤ s.heap.slot p) :
    (∃ e, ParScanClosure.do_oop_work flg env cl p gc_barrier root_scan s = Outcome.fatal e s) ∨
    ParScanClosure.do_oop_work flg env cl p gc_barrier root_scan s = Outcome.ok () s := by
  rcases assert_cases flg.ASSERT (fun _ : State => ParNew.entry_condition cl p gc_barrier)
    "The gen must be right, and we must be doing the barrier in older generations." s
    with ⟨ha, _⟩ | ⟨e, _⟩
  · refine Or.inr ?_
    rcases h with h | h
    · simp [ParScanClosure.do_oop_work, bind, M.bind, ha, load_heap_oop, M.read, h, M.pure]
    · have h' : ¬ s.heap.slot p < cl._boundary := by omega
      simp [ParScanClosure.do_oop_work, bind, M.bind, ha, load_heap_oop, M.read, h', M.pure]
  · refine Or.inl ⟨Fault.assertion
      "The gen must be right, and we must be doing the barrier in older generations.", ?_⟩
    simp [ParScanClosure.do_oop_work, bind, M.bind, e]

/-- C7. For a slot whose content is null, or whose referent is not below `_boundary`,
`ParScanClosure::do_oop_work` returns in the state it was called in, for every value of
`gc_barrier` and `root_scan` (the entry assertion holding or compiled out): no slot, mark
word, card, copying destination or work queue changes, and no collaborator is called. -/
theorem do_oop_work_null_or_old_unchanged (flg : Flags) (env : ParNew.Env)
    (cl : ParScanClosure) (p : Nat) (gc_barrier root_scan : Bool) (s : State)
    (hentry : flg.ASSERT = false ∨ ParNew.entry_condition cl p gc_barrier = true)
    (h : s.heap.slot p = 0 ∨ cl._boundary ≤ s.heap.slot p) :
    ParScanClosure.do_oop_work flg env cl p gc_barrier root_scan s = Outcome.ok () s := by
  have ha := assert_passes flg.ASSERT (fun _ : State => ParNew.entry_condition cl p gc_barrier)
    "The gen must be right, and we must be doing the barrier in older generations." s hentry
  rcases h with h | h
  · simp [ParScanClosure.do_oop_work, bind, M.bind, ha, load_heap_oop, M.read, h, M.pure]
  · have h' : ¬ s.heap.slot p < cl._boundary := by omega
    simp [ParScanClosure.do_oop_work, bind, M.bind, ha, load_heap_oop, M.read, h', M.pure]

theorem do_oop_work_null_or_old_unchanged_witness :
    Sample.scan_state.heap.slot 5024 = 0 ∧
    (ParScanClosure.do_oop_work Sample.flags Sample.scan_env Sample.closure 5024 true true
      Sample.scan_state).fault? = none ∧
    (ParScanClosure.do_oop_work Sample.flags Sample.scan_env Sample.closure 5024 true true
      Sample.scan_state).state.trace = [] := by
  have h := do_oop_work_null_or_old_unchanged Sample.flags Sample.scan_env Sample.closure 5024
    true true Sample.scan_state (Or.inr (by decide)) (Or.inl rfl)
  rw [h]
  exact ⟨rfl, rfl, rfl⟩

/-- C8. For every scan `ParScanClosure::do_oop_work(p, gc_barrier, root_scan)`: when
`gc_barrier` is false the scan calls no card-marking collaborator, whatever its outcome;
when `gc_barrier` is true and the scan reaches the barrier step and returns (the slot
held a non-null reference to an object below `_boundary`), `write_ref_field_gc_par(p, obj)`
is called, once and with the referent that `*p` holds after the scan, if and only if
that referent lies below the generation boundary, and then the card covering `p` is
dirty; so a slot whose referent was promoted across the boundary gets no dirty card. -/
theorem do_oop_work_marks_card_iff_young (flg : Flags) (env : ParNew.Env) (cl : ParScanClosure)
    (p : Nat) (gc_barrier root_scan : Bool) (s : State) :
    (gc_barrier = false →
      (ParScanClosure.do_oop_work flg env cl p gc_barrier root_scan s).state.trace.filter
        Call.isCardMark = s.trace.filter Call.isCardMark) ∧
    (gc_barrier = true → s.heap.slot p ≠ 0 → s.heap.slot p < cl._boundary → ∀ s',
      ParScanClosure.do_oop_work flg env cl p gc_barrier root_scan s = Outcome.ok () s' →
        s'.trace.filter Call.isCardMark = s.trace.filter Call.isCardMark ++
          (if s'.heap.slot p < cl.gen_boundary then
            [Call.write_ref_field_gc_par p (s'.heap.slot p)] else []) ∧
        (s'.heap.slot p < cl.gen_boundary → s'.heap.card_dirty (p / env.card_size) = true)) := by
  constructor
  · intro hg
    subst hg
    by_cases h : s.heap.slot p = 0 ∨ cl._boundary ≤ s.heap.slot p
    · rcases do_oop_work_old_cases flg env cl p false root_scan s h with ⟨e, he⟩ | he <;>
        simp [he, Outcome.state]
    · have hnonnull : s.heap.slot p ≠ 0 := fun h0 => h (Or.inl h0)
      have hyoung : s.heap.slot p < cl._boundary := by
        by_contra hc
        exact h (Or.inr (by omega))
      rcases do_oop_work_young_cases flg env cl p false root_scan s hnonnull hyoung
        with ⟨e, he⟩ | ⟨s1, he, ht⟩
      · simp [he, Outcome.state]
      · simp [he, M.when, M.pure, Outcome.state, ht]
  · intro hg hnonnull hyoung s' hrun
    subst hg
    rcases do_oop_work_young_cases flg env cl p true root_scan s hnonnull hyoung
      with ⟨e, he⟩ | ⟨s1, he, ht⟩
    · rw [he] at hrun
      simp at hrun
    · rw [he] at hrun
      obtain ⟨hslot, _, htrace, hcard, _⟩ := par_do_barrier_ok flg env cl p true s1 s' hrun
      rw [hslot]
      refine ⟨?_, fun hb => hcard rfl hb⟩
      rw [htrace, List.filter_append, ht]
      by_cases hb : s1.heap.slot p < cl.gen_boundary <;> simp [hb, Call.isCardMark]

theorem do_oop_work_marks_card_iff_young_witness :
    (ParScanClosure.do_oop_work Sample.flags Sample.scan_env Sample.closure 5000 true false
      Sample.scan_state).state.heap.slot 5000 = 816 ∧
    (ParScanClosure.do_oop_work Sample.flags Sample.scan_env Sample.closure 5000 true false
      Sample.scan_state).state.trace.filter Call.isCardMark =
        [Call.write_ref_field_gc_par 5000 816] := by
  have hrun : ParScanClosure.do_oop_work Sample.flags Sample.scan_env Sample.closure 5000 true
      false Sample.scan_state = Outcome.ok ()
        (ParScanClosure.do_oop_work Sample.flags Sample.scan_env Sample.closure 5000 true false
          Sample.scan_state).state := by
    rfl
  have h := (do_oop_work_marks_card_iff_young Sample.flags Sample.scan_env Sample.closure 5000
    true false Sample.scan_state).2 rfl (by decide) (by decide) _ hrun
  have hs : (ParScanClosure.do_oop_work Sample.flags Sample.scan_env Sample.closure 5000 true
      false Sample.scan_state).state.heap.slot 5000 = 816 := by
    decide
  refine ⟨hs, ?_⟩
  rw [h.1, hs]
  rfl

/-- C9. Forwarding idempotence. Let two distinct slots `p` and `q` both refer to an
object `O` below `_boundary` that is not yet forwarded, let `copy_to_survivor_space`
install in the object it copies a forwarding pointer to the address it returns, and let
the collaborators write neither `p` nor `q` nor a mark word that holds a forwarding
pointer. Then scanning `p` and then `q` with `ParScanClosure::do_oop_work` copies `O`
exactly once, the second scan copying nothing and trimming nothing, and leaves `*p` and
`*q` equal to the address returned by that one copy. -/
theorem do_oop_work_forwarding_idempotent (flg : Flags) (env : ParNew.Env)
    (cl : ParScanClosure) (p q O : Nat) (gp rp gq rq : Bool) (s s1 s2 : State)
    (hpq : p ≠ q) (hp : s.heap.slot p = O) (hq : s.heap.slot q = O)
    (hO : O ≠ 0) (hyoung : O < cl._boundary)
    (hfresh : env.is_marked (s.heap.mark O) = false)
    (hinstall : ∀ h obj sz m,
      env.is_marked ((env.copy_to_survivor_space h obj sz m).2.mark obj) = true ∧
      env.decode_pointer ((env.copy_to_survivor_space h obj sz m).2.mark obj) =
        (env.copy_to_survivor_space h obj sz m).1)
    (hcopy_frame : ∀ h obj sz m, (env.copy_to_survivor_space h obj sz m).2.slot q = h.slot q)
    (htrim_frame : ∀ n h, (env.trim_queues n h).slot p = h.slot p ∧
      (env.trim_queues n h).slot q = h.slot q ∧
      (env.is_marked (h.mark O) = true → (env.trim_queues n h).mark O = h.mark O))
    (h1 : ParScanClosure.do_oop_work flg env cl p gp rp s = Outcome.ok () s1)
    (h2 : ParScanClosure.do_oop_work flg env cl q gq rq s1 = Outcome.ok () s2) :
    s2.heap.slot p =
      (env.copy_to_survivor_space s.heap O (env.size_given_klass s.heap O (s.heap.klass O))
        (s.heap.mark O)).1 ∧
    s2.heap.slot q =
      (env.copy_to_survivor_space s.heap O (env.size_given_klass s.heap O (s.heap.klass O))
        (s.heap.mark O)).1 ∧
    s2.trace.filter Call.isCopy = s.trace.filter Call.isCopy ++
      [Call.copy_to_survivor_space O (env.size_given_klass s.heap O (s.heap.klass O))
        (s.heap.mark O)] ∧
    s2.trace.filter Call.isCopy = s1.trace.filter Call.isCopy ∧
    s2.trace.filter Call.isTrim = s1.trace.filter Call.isTrim := by
  -- the first scan copies O
  have hnn1 : s.heap.slot p ≠ 0 := by rw [hp]; exact hO
  have hy1 : s.heap.slot p < cl._boundary := by rw [hp]; exact hyoung
  have hm1 : env.is_marked (s.heap.mark (s.heap.slot p)) = false := by rw [hp]; exact hfresh
  have heq1 := scan_unforwarded_eq flg env cl p gp rp s
    (do_oop_work_entry_of_ok flg env cl p gp rp s s1 h1) hnn1 hy1
    (do_oop_work_not_twice_of_ok flg env cl p gp rp s s1 h1 hnn1 hy1) hm1
  rw [hp] at heq1
  rw [heq1] at h1
  obtain ⟨hslot1, hmark1, htrace1, _, _⟩ := par_do_barrier_ok flg env cl p gp _ s1 h1
  obtain ⟨hins1, hins2⟩ := hinstall s.heap O (env.size_given_klass s.heap O (s.heap.klass O))
    (s.heap.mark O)
  have hcq := hcopy_frame s.heap O (env.size_given_klass s.heap O (s.heap.klass O))
    (s.heap.mark O)
  -- the state between the two scans
  have hs1p : s1.heap.slot p = (env.copy_to_survivor_space s.heap O
      (env.size_given_klass s.heap O (s.heap.klass O)) (s.heap.mark O)).1 := by
    rw [hslot1]
    cases rp
    · simp [Heap.store]
    · simp [(htrim_frame _ _).1, Heap.store]
  have hs1q : s1.heap.slot q = O := by
    rw [hslot1]
    cases rp
    · simp [Heap.store, Function.update_noteq hpq.symm, hcq, hq]
    · simp [(htrim_frame _ _).2.1, Heap.store, Function.update_noteq hpq.symm, hcq, hq]
  have hs1m : s1.heap.mark O = (env.copy_to_survivor_space s.heap O
      (env.size_given_klass s.heap O (s.heap.klass O)) (s.heap.mark O)).2.mark O := by
    rw [hmark1]
    cases rp
    · simp [Heap.store]
    · have := (htrim_frame (10 * flg.ParallelGCThreads)
        ((env.copy_to_survivor_space s.heap O (env.size_given_klass s.heap O (s.heap.klass O))
          (s.heap.mark O)).2.store p (env.copy_to_survivor_space s.heap O
            (env.size_given_klass s.heap O (s.heap.klass O)) (s.heap.mark O)).1)).2.2
        (by simpa [Heap.store] using hins1)
      simpa [Heap.store] using this
  have htr1 : s1.trace.filter Call.isCopy = s.trace.filter Call.isCopy ++
      [Call.copy_to_survivor_space O (env.size_given_klass s.heap O (s.heap.klass O))
        (s.heap.mark O)] := by
    rw [htrace1]
    simp only [List.filter_append]
    have hc : ∀ (c : Prop) [Decidable c] (a b : Nat),
        List.filter Call.isCopy (if c then [Call.write_ref_field_gc_par a b] else []) = [] := by
      intro c _ a b
      split <;> rfl
    rw [hc]
    cases rp <;> simp [List.filter_cons, Call.isCopy]
  -- the second scan decodes the forwarding pointer
  have hnn2 : s1.heap.slot q ≠ 0 := by rw [hs1q]; exact hO
  have hy2 : s1.heap.slot q < cl._boundary := by rw [hs1q]; exact hyoung
  have hm2 : env.is_marked (s1.heap.mark (s1.heap.slot q)) = true := by
    rw [hs1q, hs1m]; exact hins1
  have heq2 := scan_forwarded_eq flg env cl q gq rq s1
    (do_oop_work_entry_of_ok flg env cl q gq rq s1 s2 h2) hnn2 hy2
    (do_oop_work_not_twice_of_ok flg env cl q gq rq s1 s2 h2 hnn2 hy2) hm2
  rw [heq2] at h2
  obtain ⟨hslot2, _, htrace2, _, _⟩ := par_do_barrier_ok flg env cl q gq _ s2 h2
  have htr2 : ∀ f : ParNew.Call → Bool, (∀ a b, f (Call.write_ref_field_gc_par a b) = false) →
      s2.trace.filter f = s1.trace.filter f := by
    intro f hf
    rw [htrace2]
    simp only [List.filter_append]
    have hc : ∀ (c : Prop) [Decidable c] (a b : Nat),
        List.filter f (if c then [Call.write_ref_field_gc_par a b] else []) = [] := by
      intro c _ a b
      split <;> simp [hf]
    rw [hc]
    simp
  refine ⟨?_, ?_, ?_, htr2 _ (fun _ _ => rfl), htr2 _ (fun _ _ => rfl)⟩
  · rw [hslot2]
    simp [Heap.store, Function.update_noteq hpq, hs1p]
  · rw [hslot2]
    simp [Heap.store, hs1q, hs1m, hins2]
  · rw [htr2 _ (fun _ _ => rfl), htr1]

theorem do_oop_work_forwarding_idempotent_witness :
    Sample.scan_state.heap.slot 5000 = 104 ∧ Sample.scan_state.heap.slot 5008 = 104 ∧
    ((ParScanClosure.do_oop_work Sample.flags Sample.scan_env Sample.closure 5008 true false
      (ParScanClosure.do_oop_work Sample.flags Sample.scan_env Sample.closure 5000 true true
        Sample.scan_state).state).state.heap.slot 5000 = 816) ∧
    ((ParScanClosure.do_oop_work Sample.flags Sample.scan_env Sample.closure 5008 true false
      (ParScanClosure.do_oop_work Sample.flags Sample.scan_env Sample.closure 5000 true true
        Sample.scan_state).state).state.heap.slot 5008 = 816) := by
  have h := do_oop_work_forwarding_idempotent Sample.flags Sample.scan_env Sample.closure
    5000 5008 104 true true true false Sample.scan_state
    (ParScanClosure.do_oop_work Sample.flags Sample.scan_env Sample.closure 5000 true true
      Sample.scan_state).state
    (ParScanClosure.do_oop_work Sample.flags Sample.scan_env Sample.closure 5008 true false
      (ParScanClosure.do_oop_work Sample.flags Sample.scan_env Sample.closure 5000 true true
        Sample.scan_state).state).state
    (by decide) rfl rfl (by decide) (by decide) (by decide)
    (by
      intro h obj sz m
      simp only [Sample.scan_env, Function.update_same, beq_iff_eq]
      constructor <;> omega)
    (by intro h obj sz m; rfl)
    (by intro n h; exact ⟨rfl, rfl, fun _ => rfl⟩)
    rfl rfl
  exact ⟨rfl, rfl, h.1, h.2.1⟩

end ParNewTheorems

/-! ## The parts of the collection -/

set_option maxRecDepth 100000

section Parts

open PSMarkSweep

theorem M_pure_bind {σ α β : Type} (a : α) (k : α → M σ β) :
    (M.pure a >>= k) = k a := rfl

theorem M_bind_assoc {σ α β γ : Type} (m : M σ α) (k : α → M σ β) (g : β → M σ γ) :
    (m >>= k >>= g) = (m >>= fun a => k a >>= g) := by
  funext s
  show M.bind (M.bind m k) g s = M.bind m (fun a => M.bind (k a) g) s
  unfold M.bind
  cases m s <;> rfl

/-- The collection is its four parts in sequence. -/
theorem invoke_no_policy_collection_eq (flg : Flags) (env : Env) (c : Bool) :
    invoke_no_policy_collection flg env c =
      (collection_through_phases flg env c >>= fun snap =>
        young_gen_emptiness flg env >>= fun young_gen_empty =>
          update_card_table flg env young_gen_empty >>= fun _ =>
            collection_epilogue flg env c snap) := by
  simp only [invoke_no_policy_collection, collection_through_phases, young_gen_emptiness,
    update_card_table, collection_epilogue, M_bind_assoc, M_pure_bind]

section Landmarks

variable {flg : Flags} {env : Env} {P : (Nat → Nat) → Prop} {bad : Fault → Prop}

theorem emits_allocate_stacks_landmarks (S : Setting flg env P bad) :
    Emits Call.isLandmark P bad (PSMarkSweep.allocate_stacks flg) [Call.allocate_stacks]
      (fun _ => True) := by
  unfold PSMarkSweep.allocate_stacks
  refine emits_bind_cons (emits_enter_cons _ rfl) (fun _ => ?_)
  repeat' (first
    | exact emits_pure _ _ trivial
    | exact emits_call_nil S _ rfl
    | exact emits_ask_nil S _ rfl
    | exact emits_get _
    | exact emits_set _ (fun _ => rfl)
    | exact emits_check S _ _
    | exact emits_check_heap_kind S
    | exact emits_enter_nil _ rfl
    | apply emits_when
    | refine emits_bind_nil ?_ (fun _ => ?_))

theorem emits_deallocate_stacks_landmarks :
    Emits Call.isLandmark P bad PSMarkSweep.deallocate_stacks [Call.deallocate_stacks]
      (fun _ => True) := by
  unfold PSMarkSweep.deallocate_stacks
  refine emits_bind_cons (emits_enter_cons _ rfl) (fun _ => ?_)
  repeat' (first
    | exact emits_set _ (fun _ => rfl)
    | refine emits_bind_nil ?_ (fun _ => ?_))

theorem emits_mark_sweep_phase1_landmarks (S : Setting flg env P bad) (c : Bool) :
    Emits Call.isLandmark P bad (PSMarkSweep.mark_sweep_phase1 flg env c)
      [Call.mark_sweep_phase1 c] (fun _ => True) := by
  unfold PSMarkSweep.mark_sweep_phase1 PSMarkSweep.check_marking_stack_empty
  refine emits_bind_cons (emits_enter_cons _ rfl) (fun _ => ?_)
  repeat' (first
    | exact emits_pure _ _ trivial
    | exact emits_call_nil S _ rfl
    | exact emits_ask_nil S _ rfl
    | exact emits_get _
    | exact emits_set _ (fun _ => rfl)
    | exact emits_check S _ _
    | exact emits_check_heap_kind S
    | exact emits_enter_nil _ rfl
    | apply emits_when
    | refine emits_bind_nil ?_ (fun _ => ?_))

theorem emits_mark_sweep_phase2_landmarks (S : Setting flg env P bad) :
    Emits Call.isLandmark P bad (PSMarkSweep.mark_sweep_phase2 flg env)
      [Call.mark_sweep_phase2] (fun _ => True) := by
  unfold PSMarkSweep.mark_sweep_phase2 PSMarkSweep.PSOldGen_precompact
  refine emits_bind_cons (emits_enter_cons _ rfl) (fun _ => ?_)
  repeat' (first
    | exact emits_pure _ _ trivial
    | exact emits_call_nil S _ rfl
    | exact emits_ask_nil S _ rfl
    | exact emits_get _
    | exact emits_set _ (fun _ => rfl)
    | exact emits_check S _ _
    | exact emits_check_heap_kind S
    | exact emits_enter_nil _ rfl
    | apply emits_when
    | refine emits_bind_nil ?_ (fun _ => ?_))

theorem emits_mark_sweep_phase3_landmarks (S : Setting flg env P bad) :
    Emits Call.isLandmark P bad (PSMarkSweep.mark_sweep_phase3 flg env)
      [Call.mark_sweep_phase3] (fun _ => True) := by
  unfold PSMarkSweep.mark_sweep_phase3
  refine emits_bind_cons (emits_enter_cons _ rfl) (fun _ => ?_)
  repeat' (first
    | exact emits_pure _ _ trivial
    | exact emits_call_nil S _ rfl
    | exact emits_ask_nil S _ rfl
    | exact emits_get _
    | exact emits_set _ (fun _ => rfl)
    | exact emits_check S _ _
    | exact emits_check_heap_kind S
    | exact emits_enter_nil _ rfl
    | apply emits_when
    | refine emits_bind_nil ?_ (fun _ => ?_))

theorem emits_mark_sweep_phase4_landmarks (S : Setting flg env P bad) :
    Emits Call.isLandmark P bad (PSMarkSweep.mark_sweep_phase4 flg env)
      [Call.mark_sweep_phase4, Call.perm_gen_compact, Call.old_gen_compact,
        Call.young_gen_compact] (fun _ => True) := by
  unfold PSMarkSweep.mark_sweep_phase4
  refine emits_bind_cons (emits_enter_cons _ rfl) (fun _ => ?_)
  refine emits_bind_nil (emits_check_heap_kind S) (fun _ => ?_)
  refine emits_bind_cons (emits_call_cons S _ rfl) (fun _ => ?_)
  refine emits_bind_cons (emits_call_cons S _ rfl) (fun _ => ?_)
  exact emits_call_cons S _ rfl

theorem emits_reset_millis_since_last_gc_landmarks :
    Emits Call.isLandmark P bad PSMarkSweep.reset_millis_since_last_gc [] (fun _ => True) := by
  unfold PSMarkSweep.reset_millis_since_last_gc
  exact emits_bind_nil (emits_enter_nil _ rfl) (fun _ => emits_set _ (fun _ => rfl))

theorem emits_start_array_allocate_block_landmarks (p : Nat) :
    Emits Call.isLandmark P bad (PSMarkSweep.start_array_allocate_block p) [] (fun _ => True) := by
  unfold PSMarkSweep.start_array_allocate_block
  exact emits_bind_nil (emits_enter_nil _ rfl) (fun _ => emits_set _ (fun _ => rfl))

theorem emits_register_blocks_landmarks (S : Setting flg env P bad) (new_top : Nat) :
    ∀ fuel p, new_top - p ≤ fuel →
      Emits Call.isLandmark P bad (PSMarkSweep.register_blocks flg new_top fuel p) []
        (fun _ => True) := by
  intro fuel
  induction fuel with
  | zero =>
    intro p hp
    have h : ¬ p < new_top := by omega
    simp only [PSMarkSweep.register_blocks, h, if_false]
    exact emits_pure _ _ trivial
  | succ n ih =>
    intro p hp
    simp only [PSMarkSweep.register_blocks]
    split
    · refine emits_bind_nil (emits_start_array_allocate_block_landmarks p) (fun _ => ?_)
      have hb := emits_bind (emits_get_size S p) (L := [])
        (R := fun _ => True) (f := Call.isLandmark)
        (k := fun size => if size * flg.HeapWordSize = 0 then M.halt Fault.nontermination
          else PSMarkSweep.register_blocks flg new_top n (p + size * flg.HeapWordSize))
        (by
          intro size hsize
          show Emits _ _ _ (if size * flg.HeapWordSize = 0 then _ else _) _ _
          split
          · rcases hsize with hbad | hpos
            · exact emits_halt _ hbad _ _
            · omega
          · exact ih _ (by omega))
      simpa using hb
    · exact emits_pure _ _ trivial

theorem emits_absorb_live_data_from_eden_landmarks (S : Setting flg env P bad) :
    Emits Call.isLandmark P bad (PSMarkSweep.absorb_live_data_from_eden flg env) []
      (fun _ => True) := by
  unfold PSMarkSweep.absorb_live_data_from_eden
  repeat' (first
    | exact emits_pure _ _ trivial
    | exact emits_call_nil S _ rfl
    | exact emits_get _
    | exact emits_set _ (fun _ => rfl)
    | exact emits_check S _ _
    | exact emits_enter_nil _ rfl
    | exact emits_register_blocks_landmarks S _ _ _ (Nat.le_refl _)
    | apply emits_when
    | apply emits_ite
    | refine emits_bind_nil ?_ (fun _ => ?_))

/-- The landmarks of the first part of the collection. -/
theorem emits_collection_through_phases (S : Setting flg env P bad) (c : Bool) :
    Emits Call.isLandmark P bad (collection_through_phases flg env c)
      [Call.BiasedLocking_preserve_marks, Call.allocate_stacks, Call.mark_sweep_phase1 c,
        Call.mark_sweep_phase2, Call.mark_sweep_phase3, Call.mark_sweep_phase4,
        Call.perm_gen_compact, Call.old_gen_compact, Call.young_gen_compact,
        Call.restore_marks, Call.deallocate_stacks] (fun _ => True) := by
  unfold collection_through_phases
  refine emits_bind_nil (emits_get _) (fun _ => ?_)
  refine emits_bind_nil (emits_check_heap_kind S) (fun _ => ?_)
  refine emits_bind_nil (emits_call_nil S _ rfl) (fun _ => ?_)
  refine emits_bind_nil (emits_call_nil S _ rfl) (fun _ => ?_)
  refine emits_bind_nil (emits_call_nil S _ rfl) (fun _ => ?_)
  refine emits_bind_nil (emits_set _ (fun _ => rfl)) (fun _ => ?_)
  refine emits_bind_nil (emits_call_nil S _ rfl) (fun _ => ?_)
  refine emits_bind_nil (emits_call_nil S _ rfl) (fun _ => ?_)
  refine emits_bind_nil (emits_call_nil S _ rfl) (fun _ => ?_)
  refine emits_bind_nil (emits_get _) (fun _ => ?_)
  refine emits_bind_nil (emits_when (by
    repeat' (first
      | exact emits_call_nil S _ rfl
      | exact emits_get _
      | exact emits_check S _ _
      | apply emits_when
      | apply emits_ite
      | refine emits_bind_nil ?_ (fun _ => ?_)))) (fun _ => ?_)
  refine emits_bind_nil (emits_when (by
    repeat' (first
      | exact emits_call_nil S _ rfl
      | exact emits_get _
      | exact emits_check S _ _
      | apply emits_when
      | apply emits_ite
      | refine emits_bind_nil ?_ (fun _ => ?_)))) (fun _ => ?_)
  refine emits_bind_nil (emits_call_nil S _ rfl) (fun _ => ?_)
  refine emits_bind_nil (emits_when (by
    repeat' (first
      | exact emits_call_nil S _ rfl
      | exact emits_get _
      | exact emits_check S _ _
      | apply emits_when
      | apply emits_ite
      | refine emits_bind_nil ?_ (fun _ => ?_)))) (fun _ => ?_)
  refine emits_bind_nil (emits_call_nil S _ rfl) (fun _ => ?_)
  refine emits_bind_nil (emits_call_nil S _ rfl) (fun _ => ?_)
  refine emits_bind_nil (emits_call_nil S _ rfl) (fun _ => ?_)
  refine emits_bind_cons (emits_call_cons S _ rfl) (fun _ => ?_)
  refine emits_bind_nil (emits_get _) (fun _ => ?_)
  refine emits_bind_nil (emits_get _) (fun _ => ?_)
  refine emits_bind_nil (emits_get _) (fun _ => ?_)
  refine emits_bind_nil (emits_get _) (fun _ => ?_)
  refine emits_bind_cons (emits_allocate_stacks_landmarks S) (fun _ => ?_)
  refine emits_bind_nil (emits_when (by
    repeat' (first
      | exact emits_call_nil S _ rfl
      | exact emits_get _
      | exact emits_check S _ _
      | apply emits_when
      | apply emits_ite
      | refine emits_bind_nil ?_ (fun _ => ?_)))) (fun _ => ?_)
  refine emits_bind_nil (emits_call_nil S _ rfl) (fun _ => ?_)
  refine emits_bind_nil (emits_call_nil S _ rfl) (fun _ => ?_)
  refine emits_bind_cons (emits_mark_sweep_phase1_landmarks S c) (fun _ => ?_)
  refine emits_bind_cons (emits_mark_sweep_phase2_landmarks S) (fun _ => ?_)
  refine emits_bind_nil (emits_when (by
    repeat' (first
      | exact emits_call_nil S _ rfl
      | exact emits_get _
      | exact emits_check S _ _
      | apply emits_when
      | apply emits_ite
      | refine emits_bind_nil ?_ (fun _ => ?_)))) (fun _ => ?_)
  refine emits_bind_nil (emits_when (by
    repeat' (first
      | exact emits_call_nil S _ rfl
      | exact emits_get _
      | exact emits_check S _ _
      | apply emits_when
      | apply emits_ite
      | refine emits_bind_nil ?_ (fun _ => ?_)))) (fun _ => ?_)
  refine emits_bind_cons (emits_mark_sweep_phase3_landmarks S) (fun _ => ?_)
  refine emits_bind (emits_mark_sweep_phase4_landmarks S) (fun _ _ => ?_)
  refine emits_bind_cons (emits_call_cons S _ rfl) (fun _ => ?_)
  refine emits_bind_cons (emits_deallocate_stacks_landmarks) (fun _ => ?_)
  refine emits_bind_nil (emits_when (by
    repeat' (first
      | exact emits_call_nil S _ rfl
      | exact emits_get _
      | exact emits_check S _ _
      | apply emits_when
      | apply emits_ite
      | refine emits_bind_nil ?_ (fun _ => ?_)))) (fun _ => ?_)
  exact emits_pure _ _ trivial

/-- The second part of the collection has no landmark. -/
theorem emits_young_gen_emptiness (S : Setting flg env P bad) :
    Emits Call.isLandmark P bad (young_gen_emptiness flg env) [] (fun _ => True) := by
  unfold young_gen_emptiness
  refine emits_bind_nil (emits_get _) (fun _ => ?_)
  refine emits_bind_nil ?_ (fun _ => ?_)
  · exact emits_ite (emits_pure _ _ trivial) (emits_absorb_live_data_from_eden_landmarks S)
  refine emits_bind_nil (emits_call_nil S _ rfl) (fun _ => ?_)
  refine emits_bind_nil (emits_get _) (fun _ => ?_)
  exact emits_pure _ _ trivial

/-- The landmark of the last part of the collection, which returns true. -/
theorem emits_collection_epilogue (S : Setting flg env P bad) (c : Bool) (snap : Snapshot) :
    Emits Call.isLandmark P bad (collection_epilogue flg env c snap)
      [Call.BiasedLocking_restore_marks] (fun b => b = true) := by
  unfold collection_epilogue
  refine emits_bind_cons (emits_call_cons S _ rfl) (fun _ => ?_)
  refine emits_bind_nil (emits_call_nil S _ rfl) (fun _ => ?_)
  refine emits_bind_nil (emits_call_nil S _ rfl) (fun _ => ?_)
  refine emits_bind_nil (emits_call_nil S _ rfl) (fun _ => ?_)
  refine emits_bind_nil (emits_when (by
    repeat' (first
      | exact emits_call_nil S _ rfl
      | exact emits_get _
      | exact emits_check S _ _
      | apply emits_when
      | apply emits_ite
      | refine emits_bind_nil ?_ (fun _ => ?_)))) (fun _ => ?_)
  refine emits_bind_nil (emits_call_nil S _ rfl) (fun _ => ?_)
  refine emits_bind_nil emits_reset_millis_since_last_gc_landmarks (fun _ => ?_)
  refine emits_bind_nil (emits_get _) (fun _ => ?_)
  refine emits_bind_nil (emits_call_nil S _ rfl) (fun _ => ?_)
  refine emits_bind_nil (emits_when (by
    repeat' (first
      | exact emits_call_nil S _ rfl
      | exact emits_get _
      | exact emits_check S _ _
      | apply emits_when
      | apply emits_ite
      | refine emits_bind_nil ?_ (fun _ => ?_)))) (fun _ => ?_)
  refine emits_bind_nil (emits_when (by
    repeat' (first
      | exact emits_call_nil S _ rfl
      | exact emits_get _
      | exact emits_check S _ _
      | apply emits_when
      | apply emits_ite
      | refine emits_bind_nil ?_ (fun _ => ?_)))) (fun _ => ?_)
  refine emits_bind_nil (emits_call_nil S _ rfl) (fun _ => ?_)
  refine emits_bind_nil (emits_call_nil S _ rfl) (fun _ => ?_)
  refine emits_bind_nil (emits_when (by
    repeat' (first
      | exact emits_call_nil S _ rfl
      | exact emits_get _
      | exact emits_check S _ _
      | apply emits_when
      | apply emits_ite
      | refine emits_bind_nil ?_ (fun _ => ?_)))) (fun _ => ?_)
  refine emits_bind_nil (emits_when (by
    repeat' (first
      | exact emits_call_nil S _ rfl
      | exact emits_get _
      | exact emits_check S _ _
      | apply emits_when
      | apply emits_ite
      | refine emits_bind_nil ?_ (fun _ => ?_)))) (fun _ => ?_)
  refine emits_bind_nil (emits_call_nil S _ rfl) (fun _ => ?_)
  refine emits_bind_nil (emits_call_nil S _ rfl) (fun _ => ?_)
  refine emits_bind_nil (emits_get _) (fun _ => ?_)
  refine emits_bind_nil (emits_when (by
    repeat' (first
      | exact emits_call_nil S _ rfl
      | exact emits_get _
      | exact emits_check S _ _
      | apply emits_when
      | apply emits_ite
      | refine emits_bind_nil ?_ (fun _ => ?_)))) (fun _ => ?_)
  refine emits_bind_nil (emits_when (by
    repeat' (first
      | exact emits_call_nil S _ rfl
      | exact emits_get _
      | exact emits_check S _ _
      | apply emits_when
      | apply emits_ite
      | refine emits_bind_nil ?_ (fun _ => ?_)))) (fun _ => ?_)
  refine emits_bind_nil (emits_when (by
    repeat' (first
      | exact emits_call_nil S _ rfl
      | exact emits_get _
      | exact emits_check S _ _
      | apply emits_when
      | apply emits_ite
      | refine emits_bind_nil ?_ (fun _ => ?_)))) (fun _ => ?_)
  refine emits_bind_nil (emits_when (by
    repeat' (first
      | exact emits_call_nil S _ rfl
      | exact emits_get _
      | exact emits_check S _ _
      | apply emits_when
      | apply emits_ite
      | refine emits_bind_nil ?_ (fun _ => ?_)))) (fun _ => ?_)
  refine emits_bind_nil (emits_call_nil S _ rfl) (fun _ => ?_)
  refine emits_bind_nil (emits_call_nil S _ rfl) (fun _ => ?_)
  refine emits_bind_nil (emits_when (by
    repeat' (first
      | exact emits_call_nil S _ rfl
      | exact emits_get _
      | exact emits_check S _ _
      | apply emits_when
      | apply emits_ite
      | refine emits_bind_nil ?_ (fun _ => ?_)))) (fun _ => ?_)
  refine emits_bind_nil (emits_call_nil S _ rfl) (fun _ => ?_)
  exact emits_pure _ _ rfl

/-- A sequence that returns ran both of its parts to their return. -/
theorem bind_ok_inv {σ α β : Type} {m : M σ α} {k : α → M σ β} {s s' : σ} {b : β}
    (h : (m >>= k) s = Outcome.ok b s') :
    ∃ a s1, m s = Outcome.ok a s1 ∧ k a s1 = Outcome.ok b s' := by
  change M.bind m k s = Outcome.ok b s' at h
  unfold M.bind at h
  cases hm : m s with
  | ok a s1 => rw [hm] at h; exact ⟨a, s1, rfl, h⟩
  | fatal e s1 => rw [hm] at h; cases h

/-- What `Emits` says of a run that returned. -/
theorem emits_ok {α : Type} {f : Call → Bool} {m : M World α} {L : List Call}
    {R : α → Prop} (h : Emits f (fun _ => True) (fun _ => True) m L R) {w w' : World} {a : α}
    (hm : m w = Outcome.ok a w') : R a ∧ w'.trace.filter f = w.trace.filter f ++ L := by
  rcases h w trivial with ⟨a1, w1, e1, _, hR, ht⟩ | ⟨_, _, e1, _⟩
  · rw [hm] at e1
    cases e1
    exact ⟨hR, ht⟩
  · rw [hm] at e1
    cases e1

/-- The card table update that returns: nothing happens unless the barrier set is a
ModRef barrier set, and then the one call `card_table_call` is made, the generations
being in order or assertions compiled out. -/
theorem update_card_table_ok (e : Bool) (w w' : World)
    (h : update_card_table flg env e w = Outcome.ok () w') :
    w'.trace = w.trace ++
      (if w.vm.barrier_set_is_ModRef = true then [card_table_call e w.vm] else []) ∧
    w'.vm = (if w.vm.barrier_set_is_ModRef = true then env.effect (card_table_call e w.vm) w.vm
      else w.vm) ∧
    (w.vm.barrier_set_is_ModRef = true →
      flg.ASSERT = false ∨ w.vm.perm_gen.reserved.end_ ≤ w.vm.old_gen.reserved.start) := by
  cases hm : w.vm.barrier_set_is_ModRef
  · simp [update_card_table, bind, M.bind, get, M.read, hm, M.when, M.pure] at h
    subst h
    simp [hm]
  · rcases check_cases flg
      (fun _ => decide (w.vm.perm_gen.reserved.end_ ≤ w.vm.old_gen.reserved.start))
      "Generations out of order" w with hc | hc
    · have hcond : flg.ASSERT = false ∨
          w.vm.perm_gen.reserved.end_ ≤ w.vm.old_gen.reserved.start := by
        by_contra hcon
        have h1 : flg.ASSERT = true := by
          cases ha : flg.ASSERT
          · exact absurd (Or.inl ha) hcon
          · rfl
        have h2 : ¬ w.vm.perm_gen.reserved.end_ ≤ w.vm.old_gen.reserved.start :=
          fun hle => hcon (Or.inr hle)
        simp [check, M.assert, h1, h2] at hc
      cases e <;>
        simp [update_card_table, bind, M.bind, get, M.read, hm, M.when, hc, call, M.modify] at h <;>
        subst h <;> simp [hm, card_table_call, hcond]
    · cases e <;>
        simp [update_card_table, bind, M.bind, get, M.read, hm, M.when, hc] at h

/-- With assertions compiled in and a ModRef barrier set, the card table update halts
when perm's reserved end is above old's reserved start. -/
theorem update_card_table_halts (e : Bool) (w : World) (ha : flg.ASSERT = true)
    (hm : w.vm.barrier_set_is_ModRef = true)
    (hbad : w.vm.old_gen.reserved.start < w.vm.perm_gen.reserved.end_) :
    update_card_table flg env e w =
      Outcome.fatal (Fault.assertion "Generations out of order") w := by
  have hn : ¬ w.vm.perm_gen.reserved.end_ ≤ w.vm.old_gen.reserved.start := by omega
  simp [update_card_table, bind, M.bind, get, M.read, hm, M.when, check, M.assert, ha, hn]

/-- The emptiness of the young generation, as the collection computes it: eden is empty
after the phases or its live data has been absorbed, and both survivor spaces are empty
after the heap occupancy information has been updated. -/
theorem young_gen_emptiness_ok (e : Bool) (w w' : World)
    (h : young_gen_emptiness flg env w = Outcome.ok e w') :
    e = ((w.vm.young_gen.eden_space.is_empty ||
          decide ((absorb_live_data_from_eden flg env w).value? = some true)) &&
        (w'.vm.young_gen.from_space.is_empty && w'.vm.young_gen.to_space.is_empty)) := by
  cases he : w.vm.young_gen.eden_space.is_empty
  · cases ha : absorb_live_data_from_eden flg env w with
    | ok b w1 =>
      simp [young_gen_emptiness, bind, M.bind, get, M.read, he, ha, call, M.modify, M.pure] at h
      obtain ⟨h1, h2⟩ := h
      subst h2
      cases b <;> simp [Outcome.value?, ← h1]
    | fatal x w1 =>
      simp [young_gen_emptiness, bind, M.bind, get, M.read, he, ha] at h
  · simp [young_gen_emptiness, bind, M.bind, get, M.read, he, call, M.modify, M.pure] at h
    obtain ⟨h1, h2⟩ := h
    subst h2
    simp [← h1]

/-- The landmarks of a collection that returned: it returned true, and the landmark
calls it made are those of the phases, then the one update of the card table if the
barrier set is a ModRef barrier set, then `BiasedLocking::restore_marks`. -/
theorem collection_landmarks (c : Bool) (w w' : World) (b : Bool)
    (hrun : invoke_no_policy_collection flg env c w = Outcome.ok b w') :
    ∃ snap wA e wB,
      collection_through_phases flg env c w = Outcome.ok snap wA ∧
      young_gen_emptiness flg env wA = Outcome.ok e wB ∧
      b = true ∧
      w'.trace.filter Call.isLandmark = w.trace.filter Call.isLandmark ++
        [Call.BiasedLocking_preserve_marks, Call.allocate_stacks, Call.mark_sweep_phase1 c,
          Call.mark_sweep_phase2, Call.mark_sweep_phase3, Call.mark_sweep_phase4,
          Call.perm_gen_compact, Call.old_gen_compact, Call.young_gen_compact,
          Call.restore_marks, Call.deallocate_stacks] ++
        (if wB.vm.barrier_set_is_ModRef = true then [card_table_call e wB.vm] else []) ++
        [Call.BiasedLocking_restore_marks] := by
  rw [invoke_no_policy_collection_eq] at hrun
  obtain ⟨snap, wA, hA, h1⟩ := bind_ok_inv hrun
  obtain ⟨e, wB, hB, h2⟩ := bind_ok_inv h1
  obtain ⟨u, wC, hC, hD⟩ := bind_ok_inv h2
  have tA := (emits_ok (emits_collection_through_phases (setting_any flg env) c) hA).2
  have tB := (emits_ok (emits_young_gen_emptiness (setting_any flg env)) hB).2
  have tC := (update_card_table_ok e wB wC hC).1
  obtain ⟨hb, tD⟩ := emits_ok (emits_collection_epilogue (setting_any flg env) c snap) hD
  refine ⟨snap, wA, e, wB, hA, hB, hb, ?_⟩
  rw [tD, tC, List.filter_append, tB, tA]
  cases hm : wB.vm.barrier_set_is_ModRef <;> cases e <;>
    simp [card_table_call, Call.isLandmark]

end Landmarks

/-- A run of `invoke_no_policy` that returned true is a run of the collection after the
GC locker check. -/
theorem invoke_no_policy_true_inv (flg : Flags) (env : Env) (c : Bool) (w w' : World)
    (h : invoke_no_policy flg env c w = Outcome.ok true w') :
    ∃ w0 : World, w0.vm = { w.vm with gc_locker := (env.check_active_before_gc w.vm.gc_locker).2 } ∧
      w0.trace = w.trace ++ [Call.GC_locker_check_active_before_gc] ∧
      invoke_no_policy_collection flg env c w0 = Outcome.ok true w' := by
  unfold invoke_no_policy at h
  obtain ⟨_, w1, h1, h⟩ := bind_ok_inv h
  obtain ⟨_, w2, h2, h⟩ := bind_ok_inv h
  obtain ⟨active, w3, h3, h⟩ := bind_ok_inv h
  rcases check_cases flg (fun vm => vm.at_safepoint) "must be at a safepoint" w with e | e
  · rw [e] at h1
    cases h1
    rcases check_cases flg (fun vm => !vm.ref_processor_is_null) "Sanity" w with e | e
    · rw [e] at h2
      cases h2
      simp only [GC_locker_check_active_before_gc, Outcome.ok.injEq] at h3
      obtain ⟨ha, hw⟩ := h3
      subst hw
      cases active
      · exact ⟨_, rfl, rfl, by simpa using h⟩
      · simp [M.pure] at h
    · rw [e] at h2
      cases h2
  · rw [e] at h1
    cases h1

theorem filter_card_of_landmarks (l : List Call) :
    (l.filter Call.isLandmark).filter Call.isCardTableUpdate =
      l.filter Call.isCardTableUpdate := by
  rw [List.filter_filter]
  congr 1
  funext c
  cases c <;> rfl

theorem filter_lifecycle_of_landmarks (l : List Call) :
    (l.filter Call.isLandmark).filter Call.isMarkLifecycle =
      l.filter Call.isMarkLifecycle := by
  rw [List.filter_filter]
  congr 1
  funext c
  cases c <;> rfl

/-- C11. In every completed full collection (a run of `invoke_no_policy` that returns
true), let the young generation be found empty when eden is empty after the phases or
its live data has been absorbed into the old generation, and from-space and to-space
are both empty. If the barrier set is then a ModRef barrier set, the collection makes
exactly one update of the card table: `clear` if the young generation was found empty
and `invalidate` otherwise, over the region from perm's reserved start to old's
reserved end. With another barrier set it makes none. -/
theorem collection_updates_card_table_once (flg : Flags) (env : Env) (c : Bool)
    (w w' : World) (hrun : invoke_no_policy flg env c w = Outcome.ok true w') :
    ∃ (w0 : World) (snap : Snapshot) (wA : World) (young_gen_empty : Bool) (wB : World),
      w0.vm = { w.vm with gc_locker := (env.check_active_before_gc w.vm.gc_locker).2 } ∧
      collection_through_phases flg env c w0 = Outcome.ok snap wA ∧
      young_gen_emptiness flg env wA = Outcome.ok young_gen_empty wB ∧
      (young_gen_empty = true ↔
        (wA.vm.young_gen.eden_space.is_empty = true ∨
          (absorb_live_data_from_eden flg env wA).value? = some true) ∧
        wB.vm.young_gen.from_space.is_empty = true ∧
        wB.vm.young_gen.to_space.is_empty = true) ∧
      (wB.vm.barrier_set_is_ModRef = true →
        w'.trace.filter Call.isCardTableUpdate = w.trace.filter Call.isCardTableUpdate ++
          [if young_gen_empty = true then
            Call.modBS_clear
              (MemRegion.mk wB.vm.perm_gen.reserved.start wB.vm.old_gen.reserved.end_)
          else
            Call.modBS_invalidate
              (MemRegion.mk wB.vm.perm_gen.reserved.start wB.vm.old_gen.reserved.end_)]) ∧
      (wB.vm.barrier_set_is_ModRef = false →
        w'.trace.filter Call.isCardTableUpdate = w.trace.filter Call.isCardTableUpdate) := by
  obtain ⟨w0, hvm, htr, h0⟩ := invoke_no_policy_true_inv flg env c w w' hrun
  obtain ⟨snap, wA, e, wB, hA, hB, _, hL⟩ := collection_landmarks c w0 w' true h0
  have he := young_gen_emptiness_ok e wA wB hB
  have hcard := congrArg (List.filter Call.isCardTableUpdate) hL
  rw [filter_card_of_landmarks] at hcard
  have h0f : w0.trace.filter Call.isCardTableUpdate = w.trace.filter Call.isCardTableUpdate := by
    rw [htr]
    simp [List.filter_append, Call.isCardTableUpdate]
  have hA' : List.filter Call.isCardTableUpdate
      [Call.BiasedLocking_preserve_marks, Call.allocate_stacks, Call.mark_sweep_phase1 c,
        Call.mark_sweep_phase2, Call.mark_sweep_phase3, Call.mark_sweep_phase4,
        Call.perm_gen_compact, Call.old_gen_compact, Call.young_gen_compact,
        Call.restore_marks, Call.deallocate_stacks] = [] := rfl
  have hC' : ∀ (b : Bool) (vm : VM), List.filter Call.isCardTableUpdate [card_table_call b vm] =
      [card_table_call b vm] := by
    intro b vm
    cases b <;> rfl
  have hD' : List.filter Call.isCardTableUpdate [Call.BiasedLocking_restore_marks] = [] := rfl
  have key : w'.trace.filter Call.isCardTableUpdate = w.trace.filter Call.isCardTableUpdate ++
      (if wB.vm.barrier_set_is_ModRef = true then [card_table_call e wB.vm] else []) := by
    rw [hcard, List.filter_append, List.filter_append, List.filter_append,
      filter_card_of_landmarks, h0f, hA', hD']
    split <;> simp [hC']
  refine ⟨w0, snap, wA, e, wB, hvm, hA, hB, ?_, ?_, ?_⟩
  · rw [he]
    simp [and_assoc]
  · intro hm
    rw [key, if_pos hm]
    cases e <;> simp [card_table_call]
  · intro hm
    rw [key, hm]
    simp

theorem collection_updates_card_table_once_witness :
    (invoke_no_policy Sample.flags Sample.env true Sample.world).value? = some true ∧
    ((invoke_no_policy Sample.flags Sample.env true Sample.world).state.trace.filter
      Call.isCardTableUpdate).length ≤ 1 := by
  have hrun : invoke_no_policy Sample.flags Sample.env true Sample.world =
      Outcome.ok true (invoke_no_policy Sample.flags Sample.env true Sample.world).state := by
    rfl
  obtain ⟨w0, snap, wA, e, wB, _, _, _, _, h1, h2⟩ :=
    collection_updates_card_table_once Sample.flags Sample.env true Sample.world _ hrun
  refine ⟨by rw [hrun]; rfl, ?_⟩
  cases hm : wB.vm.barrier_set_is_ModRef
  · rw [h2 hm]
    exact Nat.zero_le 1
  · rw [h1 hm]
    exact Nat.le_refl 1

/-- The card table update when the generations are in order or assertions are compiled
out. -/
theorem update_card_table_eval (flg : Flags) (env : Env) (e : Bool) (w : World)
    (h : flg.ASSERT = false ∨ w.vm.barrier_set_is_ModRef = false ∨
      w.vm.perm_gen.reserved.end_ ≤ w.vm.old_gen.reserved.start) :
    update_card_table flg env e w =
      Outcome.ok ()
        (if w.vm.barrier_set_is_ModRef = true then
          World.mk (env.effect (card_table_call e w.vm) w.vm)
            (w.trace ++ [card_table_call e w.vm])
        else w) := by
  cases hm : w.vm.barrier_set_is_ModRef
  · simp [update_card_table, bind, M.bind, get, M.read, hm, M.when, M.pure]
  · have hc := check_passes flg
      (fun _ => decide (w.vm.perm_gen.reserved.end_ ≤ w.vm.old_gen.reserved.start))
      "Generations out of order" w (by
        rcases h with h | h | h
        · exact Or.inl h
        · rw [hm] at h; cases h
        · exact Or.inr (by simpa using h))
    cases e <;>
      simp [update_card_table, bind, M.bind, get, M.read, hm, M.when, hc, call, M.modify,
        card_table_call]

/-- C16, refuted as stated: in a product build the collection of the sample heap with
perm's reserved end (1500) above old's reserved start (1000) is not flagged:
`invoke_no_policy` returns true. -/
theorem misordered_generations_not_flagged :
    Sample.misordered_world.vm.old_gen.reserved.start <
      Sample.misordered_world.vm.perm_gen.reserved.end_ ∧
    (invoke_no_policy Sample.product_flags Sample.env true Sample.misordered_world).value? =
      some true ∧
    (invoke_no_policy Sample.product_flags Sample.env true Sample.misordered_world).fault? =
      none := by
  decide

/-- C16, amended. The order of the generations is checked only by the assertion
"Generations out of order", at the card table update that follows the phases: when the
first two parts of the collection have returned and perm's reserved end is above old's
reserved start, the collection halts on that assertion if assertions are compiled in
and the barrier set is a ModRef barrier set; with assertions compiled out or another
barrier set nothing is flagged, the card table update is made as usual and the
collection goes on with its epilogue. -/
theorem misordered_generations_flagged_by_assertion (flg : Flags) (env : Env) (c : Bool)
    (w : World) (snap : Snapshot) (wA : World) (e : Bool) (wB : World)
    (hA : collection_through_phases flg env c w = Outcome.ok snap wA)
    (hB : young_gen_emptiness flg env wA = Outcome.ok e wB)
    (hbad : wB.vm.old_gen.reserved.start < wB.vm.perm_gen.reserved.end_) :
    (flg.ASSERT = true → wB.vm.barrier_set_is_ModRef = true →
      invoke_no_policy_collection flg env c w =
        Outcome.fatal (Fault.assertion "Generations out of order") wB) ∧
    (flg.ASSERT = false ∨ wB.vm.barrier_set_is_ModRef = false →
      invoke_no_policy_collection flg env c w =
        collection_epilogue flg env c snap
          (if wB.vm.barrier_set_is_ModRef = true then
            World.mk (env.effect (card_table_call e wB.vm) wB.vm)
              (wB.trace ++ [card_table_call e wB.vm])
          else wB)) := by
  constructor
  · intro ha hm
    rw [invoke_no_policy_collection_eq]
    simp [bind, M.bind, hA, hB, update_card_table_halts e wB ha hm hbad]
  · intro h
    rw [invoke_no_policy_collection_eq]
    have hu := update_card_table_eval flg env e wB
      (by rcases h with h | h
          · exact Or.inl h
          · exact Or.inr (Or.inl h))
    simp [bind, M.bind, hA, hB, hu]

theorem misordered_generations_flagged_by_assertion_witness :
    Sample.flags.ASSERT = true ∧
    (invoke_no_policy_collection Sample.flags Sample.env true Sample.misordered_world).fault? =
      some (Fault.assertion "Generations out of order") := by
  have h := (misordered_generations_flagged_by_assertion Sample.flags Sample.env true
    Sample.misordered_world
    (Snapshot.mk (GCCause.other 0) 1032 160 1000 32)
    (collection_through_phases Sample.flags Sample.env true Sample.misordered_world).state
    true
    (young_gen_emptiness Sample.flags Sample.env
      (collection_through_phases Sample.flags Sample.env true
        Sample.misordered_world).state).state
    rfl rfl (by decide)).1 rfl rfl
  rw [h]
  exact ⟨rfl, rfl⟩

/-- C17, refuted as stated: in the collection of the sample heap, `restore_marks` is
called after `young_gen->compact()`, the last call of phase 4, and
`BiasedLocking::restore_marks` later still, after `deallocate_stacks`: the marks are
restored after phase 4 has completed, not before. -/
theorem marks_restored_after_phase4 :
    (invoke_no_policy Sample.flags Sample.env true Sample.world).value? = some true ∧
    (invoke_no_policy Sample.flags Sample.env true Sample.world).state.trace.filter
      Call.isMarkLifecycle =
        [Call.BiasedLocking_preserve_marks, Call.allocate_stacks, Call.mark_sweep_phase1 true,
          Call.mark_sweep_phase4, Call.perm_gen_compact, Call.old_gen_compact,
          Call.young_gen_compact, Call.restore_marks, Call.deallocate_stacks,
          Call.BiasedLocking_restore_marks] := by
  exact ⟨rfl, rfl⟩

/-- C17, amended. In every full collection that runs, `BiasedLocking::preserve_marks`
saves the biased-locking marks and `allocate_stacks` lays out the storage of the
preserved marks, in that order and before phase 1; the marks are restored after phase 4
has completed: `restore_marks` is called right after the three `compact` calls of
`mark_sweep_phase4` and before `deallocate_stacks`, and `BiasedLocking::restore_marks`
after `deallocate_stacks`. Each of these calls is made exactly once. -/
theorem preserved_marks_lifecycle (flg : Flags) (env : Env) (c : Bool) (w w' : World)
    (hrun : invoke_no_policy flg env c w = Outcome.ok true w') :
    w'.trace.filter Call.isMarkLifecycle = w.trace.filter Call.isMarkLifecycle ++
      [Call.BiasedLocking_preserve_marks, Call.allocate_stacks, Call.mark_sweep_phase1 c,
        Call.mark_sweep_phase4, Call.perm_gen_compact, Call.old_gen_compact,
        Call.young_gen_compact, Call.restore_marks, Call.deallocate_stacks,
        Call.BiasedLocking_restore_marks] := by
  obtain ⟨w0, _, htr, h0⟩ := invoke_no_policy_true_inv flg env c w w' hrun
  obtain ⟨snap, wA, e, wB, _, _, _, hL⟩ := collection_landmarks c w0 w' true h0
  have hlife := congrArg (List.filter Call.isMarkLifecycle) hL
  rw [filter_lifecycle_of_landmarks] at hlife
  have h0f : w0.trace.filter Call.isMarkLifecycle = w.trace.filter Call.isMarkLifecycle := by
    rw [htr]
    simp [List.filter_append, Call.isMarkLifecycle]
  have hA' : List.filter Call.isMarkLifecycle
      [Call.BiasedLocking_preserve_marks, Call.allocate_stacks, Call.mark_sweep_phase1 c,
        Call.mark_sweep_phase2, Call.mark_sweep_phase3, Call.mark_sweep_phase4,
        Call.perm_gen_compact, Call.old_gen_compact, Call.young_gen_compact,
        Call.restore_marks, Call.deallocate_stacks] =
      [Call.BiasedLocking_preserve_marks, Call.allocate_stacks, Call.mark_sweep_phase1 c,
        Call.mark_sweep_phase4, Call.perm_gen_compact, Call.old_gen_compact,
        Call.young_gen_compact, Call.restore_marks, Call.deallocate_stacks] := rfl
  have hC' : ∀ (b : Bool) (vm : VM),
      List.filter Call.isMarkLifecycle [card_table_call b vm] = [] := by
    intro b vm
    cases b <;> rfl
  have hD' : List.filter Call.isMarkLifecycle [Call.BiasedLocking_restore_marks] =
      [Call.BiasedLocking_restore_marks] := rfl
  rw [hlife, List.filter_append, List.filter_append, List.filter_append,
    filter_lifecycle_of_landmarks, h0f, hA', hD']
  split <;> simp [hC']

theorem preserved_marks_lifecycle_witness :
    (invoke_no_policy Sample.product_flags Sample.env false Sample.world).value? = some true ∧
    ((invoke_no_policy Sample.product_flags Sample.env false Sample.world).state.trace.filter
      Call.isMarkLifecycle).length = 10 := by
  have hrun : invoke_no_policy Sample.product_flags Sample.env false Sample.world =
      Outcome.ok true
        (invoke_no_policy Sample.product_flags Sample.env false Sample.world).state := by
    rfl
  have h := preserved_marks_lifecycle Sample.product_flags Sample.env false Sample.world _ hrun
  refine ⟨by rw [hrun]; rfl, ?_⟩
  rw [h]
  rfl

/-! ## Absorbing eden: theorems -/

theorem M_read_bind_apply {σ α β : Type} (g : σ → α) (k : α → M σ β) (s : σ) :
    (M.read g).bind k s = k (g s) s := rfl

theorem absorb_eq (flg : Flags) (env : Env) (w : World)
    (hassert : flg.ASSERT = false ∨ (w.vm.young_gen.eden_space.is_empty = false ∧
      w.vm.young_gen.virtual_space.alignment = w.vm.old_gen.virtual_space.alignment)) :
    absorb_live_data_from_eden flg env w =
      if absorb_goes_ahead flg w.vm = true then
        absorb_take flg env (absorb_size w.vm) w.vm.old_gen.object_space.top
          (unused_words flg w.vm) (w.log Call.absorb_live_data_from_eden)
      else Outcome.ok false (w.log Call.absorb_live_data_from_eden) := by
  have h1 := check_passes flg (fun _ => !w.vm.young_gen.eden_space.is_empty)
    "eden must be non-empty" (w.log Call.absorb_live_data_from_eden)
    (hassert.imp id (fun h => by simp [h.1]))
  have h2 := check_passes flg (fun vm => decide (vm.young_gen.virtual_space.alignment =
    vm.old_gen.virtual_space.alignment)) "alignments do not match"
    (w.log Call.absorb_live_data_from_eden)
    (hassert.imp id (fun h => by simp [World.log, h.2]))
  have e : (World.log Call.absorb_live_data_from_eden w).vm = w.vm := rfl
  unfold absorb_live_data_from_eden absorb_goes_ahead absorb_size unused_words
  simp only [bind, M.bind, enter, M.modify, get, M.read, e, h1, h2]
  cases hA : (flg.UseAdaptiveSizePolicy && flg.UseAdaptiveGCBoundary)
  · simp [M.pure]
  simp only [Bool.not_true, Bool.false_eq_true, if_false, Bool.true_and, ite_apply, M.bind,
    M.read, e]
  by_cases hB : w.vm.young_gen.virtual_space.uncommitted_size = 0
  swap
  · have hB1 : (w.vm.young_gen.virtual_space.uncommitted_size != 0) = true := by simpa using hB
    rw [if_pos hB1, decide_eq_false hB]
    rfl
  have hB1 : ¬ (w.vm.young_gen.virtual_space.uncommitted_size != 0) = true := by simpa using hB
  rw [if_neg hB1, decide_eq_true hB]
  simp only [Bool.true_and, ite_apply, M.bind, M.read, e]
  by_cases hC : w.vm.old_gen.virtual_space.uncommitted_size = 0
  swap
  · have hC1 : (w.vm.old_gen.virtual_space.uncommitted_size != 0) = true := by simpa using hC
    rw [if_pos hC1, decide_eq_false hC]
    rfl
  have hC1 : ¬ (w.vm.old_gen.virtual_space.uncommitted_size != 0) = true := by simpa using hC
  rw [if_neg hC1, decide_eq_true hC]
  simp only [Bool.true_and, ite_apply, M.bind, M.read, e]
  by_cases hD : align_size_up (w.vm.young_gen.eden_space.used_in_bytes +
      w.vm.size_policy.avg_promoted_padded_average) w.vm.old_gen.virtual_space.alignment ≥
      w.vm.young_gen.eden_space.capacity_in_bytes
  · rw [if_pos hD, decide_eq_false (Nat.not_lt.mpr hD)]
    rfl
  rw [if_neg hD, decide_eq_true (Nat.not_le.mp hD)]
  rw [M_read_bind_apply, M_read_bind_apply, ite_apply, e]
  by_cases hE : size_t_sub w.vm.young_gen.capacity_in_bytes
      (align_size_up (w.vm.young_gen.eden_space.used_in_bytes +
      w.vm.size_policy.avg_promoted_padded_average) w.vm.old_gen.virtual_space.alignment) <
      w.vm.young_gen.min_gen_size
  · rw [if_pos hE, decide_eq_false (Nat.not_le.mpr hE)]
    rfl
  rw [if_neg hE, decide_eq_true (Nat.not_lt.mp hE)]
  rw [M_read_bind_apply, ite_apply, e]
  cases hF : (decide (pointer_delta w.vm.old_gen.object_space.end_ w.vm.old_gen.object_space.top
      flg.HeapWordSize > 0) &&
      decide (pointer_delta w.vm.old_gen.object_space.end_ w.vm.old_gen.object_space.top
      flg.HeapWordSize < flg.min_fill_size))
  swap
  · rw [if_pos rfl]
    rfl
  rw [if_neg Bool.false_ne_true]
  rfl

theorem register_cons (p : Nat) (l : List Nat) (w : World) :
    World.register (p :: l) w =
      World.register l
        { vm := { w.vm with old_gen := { w.vm.old_gen with
            start_array := p :: w.vm.old_gen.start_array } },
          trace := w.trace ++ [Call.start_array_allocate_block p] } := by
  simp [World.register]

theorem register_blocks_eval (flg : Flags) (new_top : Nat) :
    ∀ (fuel p : Nat) (w : World),
      (∀ l, block_starts w.vm.obj_size flg.HeapWordSize new_top fuel p = some l →
        register_blocks flg new_top fuel p w = Outcome.ok () (World.register l w)) ∧
      (block_starts w.vm.obj_size flg.HeapWordSize new_top fuel p = none →
        ∃ w1, register_blocks flg new_top fuel p w = Outcome.fatal Fault.nontermination w1) := by
  intro fuel
  induction fuel with
  | zero =>
    intro p w
    by_cases hp : p < new_top
    · simp [block_starts, register_blocks, hp, M.halt]
    · simp [block_starts, register_blocks, hp, M.pure, World.register]
  | succ fuel ih =>
    intro p w
    by_cases hp : p < new_top
    swap
    · simp [block_starts, register_blocks, hp, M.pure, World.register]
    by_cases hz : w.vm.obj_size p * flg.HeapWordSize = 0
    · simp [block_starts, register_blocks, hp, hz, M.halt, bind, M.bind,
        start_array_allocate_block, enter, set, get, M.modify, M.read, World.log]
    · have ih1 := ih (p + w.vm.obj_size p * flg.HeapWordSize)
        { vm := { w.vm with old_gen := { w.vm.old_gen with
            start_array := p :: w.vm.old_gen.start_array } },
          trace := w.trace ++ [Call.start_array_allocate_block p] }
      have hrun : register_blocks flg new_top (fuel + 1) p w =
          register_blocks flg new_top fuel (p + w.vm.obj_size p * flg.HeapWordSize)
            { vm := { w.vm with old_gen := { w.vm.old_gen with
                start_array := p :: w.vm.old_gen.start_array } },
              trace := w.trace ++ [Call.start_array_allocate_block p] } := by
        simp [register_blocks, hp, hz, bind, M.bind,
          start_array_allocate_block, enter, set, get, M.modify, M.read, World.log]
      rw [hrun]
      constructor
      · intro l hl
        simp only [block_starts, hp, if_true, hz, if_false, Option.map_eq_some'] at hl
        obtain ⟨l1, hl1, rfl⟩ := hl
        rw [register_cons]
        exact ih1.1 l1 hl1
      · intro hn
        simp only [block_starts, hp, if_true, hz, if_false, Option.map_eq_none'] at hn
        exact ih1.2 hn

theorem block_starts_bounds (size : Nat → Nat) (hws new_top : Nat) :
    ∀ (fuel p : Nat) (l : List Nat), block_starts size hws new_top fuel p = some l →
      ∀ a ∈ l, p ≤ a ∧ a < new_top := by
  intro fuel
  induction fuel with
  | zero =>
    intro p l hl a ha
    by_cases hp : p < new_top
    · simp [block_starts, hp] at hl
    · simp only [block_starts, hp, if_false, Option.some.injEq] at hl
      subst hl
      simp at ha
  | succ fuel ih =>
    intro p l hl a ha
    by_cases hp : p < new_top
    swap
    · simp only [block_starts, hp, if_false, Option.some.injEq] at hl
      subst hl
      simp at ha
    by_cases hz : size p * hws = 0
    · simp [block_starts, hp, hz] at hl
    · simp only [block_starts, hp, if_true, hz, if_false, Option.map_eq_some'] at hl
      obtain ⟨l1, hl1, rfl⟩ := hl
      rcases List.mem_cons.mp ha with rfl | ha1
      · exact ⟨le_refl _, hp⟩
      · have := ih _ l1 hl1 a ha1
        exact ⟨by omega, this.2⟩

theorem block_starts_total (size : Nat → Nat) (hws new_top : Nat)
    (hsize : ∀ a, 0 < size a) (hhws : 0 < hws) :
    ∀ (fuel p : Nat), new_top - p ≤ fuel →
      ∃ l, block_starts size hws new_top fuel p = some l := by
  intro fuel
  induction fuel with
  | zero =>
    intro p hf
    have hp : ¬ p < new_top := by omega
    exact ⟨[], by simp [block_starts, hp]⟩
  | succ fuel ih =>
    intro p hf
    by_cases hp : p < new_top
    swap
    · exact ⟨[], by simp [block_starts, hp]⟩
    have hpos : 0 < size p * hws := Nat.mul_pos (hsize p) hhws
    have hz : ¬ size p * hws = 0 := by omega
    obtain ⟨l, hl⟩ := ih (p + size p * hws) (by omega)
    exact ⟨p :: l, by simp [block_starts, hp, hz, hl]⟩

theorem absorb_take_eq (flg : Flags) (env : Env) (a us uw : Nat) (w : World) :
    ∃ t, absorb_take flg env a us uw w =
      (register_blocks flg (vm_filled env us uw w.vm).young_gen.eden_space.top
        ((vm_filled env us uw w.vm).young_gen.eden_space.top - us) us).bind
        (fun _ => (enter (Call.set_bytes_absorbed_from_eden a)).bind
          (fun _ => (set (fun vm => { vm with size_policy := { vm.size_policy with
            bytes_absorbed_from_eden := a } })).bind (fun _ => M.pure true)))
        (World.mk (vm_before_registering env a us uw w.vm) t) := by
  by_cases hu : uw > 0
  · refine ⟨w.trace ++ [Call.fill_with_objects us uw, Call.virtual_space_expand_into a,
      Call.young_gen_reset_after_change,
      Call.old_space_set_top (vm_filled env us uw w.vm).young_gen.eden_space.top,
      Call.old_space_set_end (vm_filled env us uw w.vm).young_gen.eden_space.top,
      Call.old_gen_reset_after_change], ?_⟩
    simp only [vm_filled, hu, if_true, vm_before_registering]
    simp only [absorb_take, bind, M.bind, M.when, call, enter, set, get, M.modify, M.read,
      M.pure, hu, decide_True, if_true, World.log, List.append_assoc, List.singleton_append,
      List.cons_append, List.nil_append]
  · refine ⟨w.trace ++ [Call.virtual_space_expand_into a,
      Call.young_gen_reset_after_change,
      Call.old_space_set_top (vm_filled env us uw w.vm).young_gen.eden_space.top,
      Call.old_space_set_end (vm_filled env us uw w.vm).young_gen.eden_space.top,
      Call.old_gen_reset_after_change], ?_⟩
    simp only [vm_filled, hu, if_false, vm_before_registering]
    simp only [absorb_take, bind, M.bind, M.when, call, enter, set, get, M.modify, M.read,
      M.pure, hu, decide_False, if_false, World.log, List.append_assoc, List.singleton_append,
      List.cons_append, List.nil_append, Bool.false_eq_true]

theorem absorb_take_cases (flg : Flags) (env : Env) (a us uw : Nat) (w : World) :
    ∃ t,
      (∀ l, block_starts (vm_before_registering env a us uw w.vm).obj_size flg.HeapWordSize
          (vm_filled env us uw w.vm).young_gen.eden_space.top
          ((vm_filled env us uw w.vm).young_gen.eden_space.top - us) us = some l →
        absorb_take flg env a us uw w = Outcome.ok true
          { vm := { (World.register l
                (World.mk (vm_before_registering env a us uw w.vm) t)).vm with
              size_policy := { (vm_before_registering env a us uw w.vm).size_policy with
                bytes_absorbed_from_eden := a } },
            trace := (World.register l
                (World.mk (vm_before_registering env a us uw w.vm) t)).trace ++
              [Call.set_bytes_absorbed_from_eden a] }) ∧
      (block_starts (vm_before_registering env a us uw w.vm).obj_size flg.HeapWordSize
          (vm_filled env us uw w.vm).young_gen.eden_space.top
          ((vm_filled env us uw w.vm).young_gen.eden_space.top - us) us = none →
        ∃ w1, absorb_take flg env a us uw w = Outcome.fatal Fault.nontermination w1) := by
  obtain ⟨t, ht⟩ := absorb_take_eq flg env a us uw w
  have h := register_blocks_eval flg (vm_filled env us uw w.vm).young_gen.eden_space.top
    ((vm_filled env us uw w.vm).young_gen.eden_space.top - us) us
    (World.mk (vm_before_registering env a us uw w.vm) t)
  refine ⟨t, ?_, ?_⟩
  · intro l hl
    rw [ht]
    simp only [M.bind, h.1 l hl]
    rfl
  · intro hn
    obtain ⟨w1, hw1⟩ := h.2 hn
    refine ⟨w1, ?_⟩
    rw [ht]
    simp only [M.bind, hw1]

theorem size_t_sub_of_le {a b : Nat} (h : b ≤ a) (ha : a < 2 ^ size_t_bits) :
    size_t_sub a b = a - b := by
  unfold size_t_sub
  have hb : b % 2 ^ size_t_bits = b := Nat.mod_eq_of_lt (lt_of_le_of_lt h ha)
  rw [hb]
  have h2 : a + 2 ^ size_t_bits - b = (a - b) + 2 ^ size_t_bits := by omega
  rw [h2, Nat.add_mod_right]
  exact Nat.mod_eq_of_lt (lt_of_le_of_lt (Nat.sub_le a b) ha)

theorem absorb_goes_ahead_iff (flg : Flags) (vm : VM)
    (heden : vm.young_gen.eden_space.capacity_in_bytes ≤ vm.young_gen.capacity_in_bytes)
    (hbits : vm.young_gen.capacity_in_bytes < 2 ^ size_t_bits) :
    absorb_goes_ahead flg vm = true ↔ AbsorbConditions flg vm := by
  unfold absorb_goes_ahead AbsorbConditions
  by_cases hD : absorb_size vm < vm.young_gen.eden_space.capacity_in_bytes
  · have hsub := size_t_sub_of_le (le_trans (le_of_lt hD) heden) hbits
    rw [hsub]
    simp only [Bool.and_eq_true, decide_eq_true_eq, Bool.not_eq_true', Bool.and_eq_false_imp,
      decide_eq_false_iff_not, not_lt, and_assoc]
    constructor
    · rintro ⟨h1, h2, h3, h4, h5, h6, h7⟩
      refine ⟨h1, h2, h3, h4, h5, h6, ?_⟩
      by_cases h0 : unused_words flg vm = 0
      · exact Or.inl h0
      · exact Or.inr (h7 (Nat.pos_of_ne_zero h0))
    · rintro ⟨h1, h2, h3, h4, h5, h6, h7⟩
      refine ⟨h1, h2, h3, h4, h5, h6, ?_⟩
      intro hpos
      rcases h7 with h7 | h7
      · omega
      · exact h7
  · have hD1 := decide_eq_false hD
    constructor
    · intro h
      rw [hD1] at h
      simp at h
    · intro h
      exact absurd h.2.2.2.2.1 hD

theorem absorb_halts_on_assert (flg : Flags) (env : Env) (w : World)
    (h : ¬ (flg.ASSERT = false ∨ (w.vm.young_gen.eden_space.is_empty = false ∧
      w.vm.young_gen.virtual_space.alignment = w.vm.old_gen.virtual_space.alignment))) :
    ∃ e w1, absorb_live_data_from_eden flg env w = Outcome.fatal e w1 := by
  have hA : flg.ASSERT = true := by
    cases hf : flg.ASSERT
    · exact absurd (Or.inl hf) h
    · rfl
  have e : (World.log Call.absorb_live_data_from_eden w).vm = w.vm := rfl
  unfold absorb_live_data_from_eden
  simp only [bind, M.bind, enter, M.modify, get, M.read, e]
  cases hE : w.vm.young_gen.eden_space.is_empty
  · have hne : ¬ w.vm.young_gen.virtual_space.alignment = w.vm.old_gen.virtual_space.alignment :=
      fun hal => h (Or.inr ⟨hE, hal⟩)
    have h1 := check_passes flg (fun _ => !false) "eden must be non-empty"
      (w.log Call.absorb_live_data_from_eden) (Or.inr rfl)
    have h2 : check flg (fun vm => decide (vm.young_gen.virtual_space.alignment =
        vm.old_gen.virtual_space.alignment)) "alignments do not match"
        (w.log Call.absorb_live_data_from_eden) =
        Outcome.fatal (Fault.assertion "alignments do not match")
          (w.log Call.absorb_live_data_from_eden) := by
      simp [check, M.assert, hA, e, hne]
    simp only [h1, h2]
    exact ⟨_, _, rfl⟩
  · have h1 : check flg (fun _ => !true) "eden must be non-empty"
        (w.log Call.absorb_live_data_from_eden) =
        Outcome.fatal (Fault.assertion "eden must be non-empty")
          (w.log Call.absorb_live_data_from_eden) := by
      simp [check, M.assert, hA]
    simp only [h1]
    exact ⟨_, _, rfl⟩

theorem absorb_returns_true_of (flg : Flags) (env : Env) (w : World)
    (hassert : flg.ASSERT = false ∨ (w.vm.young_gen.eden_space.is_empty = false ∧
      w.vm.young_gen.virtual_space.alignment = w.vm.old_gen.virtual_space.alignment))
    (hgo : absorb_goes_ahead flg w.vm = true) (hhws : 0 < flg.HeapWordSize)
    (hsize : ∀ p, 0 < (vm_before_registering env (absorb_size w.vm)
      w.vm.old_gen.object_space.top (unused_words flg w.vm) w.vm).obj_size p) :
    ∃ w', absorb_live_data_from_eden flg env w = Outcome.ok true w' := by
  rw [absorb_eq flg env w hassert, if_pos hgo]
  obtain ⟨t, ht, _⟩ := absorb_take_cases flg env (absorb_size w.vm)
    w.vm.old_gen.object_space.top (unused_words flg w.vm)
    (w.log Call.absorb_live_data_from_eden)
  obtain ⟨l, hl⟩ := block_starts_total _ flg.HeapWordSize
    (vm_filled env w.vm.old_gen.object_space.top (unused_words flg w.vm)
      w.vm).young_gen.eden_space.top hsize hhws _ w.vm.old_gen.object_space.top (le_refl _)
  exact ⟨_, ht l hl⟩

theorem absorb_true_inv (flg : Flags) (env : Env) (w w' : World)
    (hrun : absorb_live_data_from_eden flg env w = Outcome.ok true w') :
    absorb_goes_ahead flg w.vm = true ∧
    ∃ l t, block_starts (vm_before_registering env (absorb_size w.vm)
          w.vm.old_gen.object_space.top (unused_words flg w.vm) w.vm).obj_size
          flg.HeapWordSize
          (vm_filled env w.vm.old_gen.object_space.top (unused_words flg w.vm)
            w.vm).young_gen.eden_space.top
          ((vm_filled env w.vm.old_gen.object_space.top (unused_words flg w.vm)
            w.vm).young_gen.eden_space.top - w.vm.old_gen.object_space.top)
          w.vm.old_gen.object_space.top = some l ∧
      w'.vm = { (World.register l (World.mk (vm_before_registering env (absorb_size w.vm)
            w.vm.old_gen.object_space.top (unused_words flg w.vm) w.vm) t)).vm with
          size_policy := { (vm_before_registering env (absorb_size w.vm)
            w.vm.old_gen.object_space.top (unused_words flg w.vm) w.vm).size_policy with
            bytes_absorbed_from_eden := absorb_size w.vm } } := by
  by_cases hassert : flg.ASSERT = false ∨ (w.vm.young_gen.eden_space.is_empty = false ∧
      w.vm.young_gen.virtual_space.alignment = w.vm.old_gen.virtual_space.alignment)
  swap
  · obtain ⟨e, w1, h⟩ := absorb_halts_on_assert flg env w hassert
    rw [h] at hrun
    cases hrun
  rw [absorb_eq flg env w hassert] at hrun
  cases hgo : absorb_goes_ahead flg w.vm
  · rw [hgo] at hrun
    simp at hrun
  rw [hgo, if_pos rfl] at hrun
  refine ⟨rfl, ?_⟩
  obtain ⟨t, ht, hn⟩ := absorb_take_cases flg env (absorb_size w.vm)
    w.vm.old_gen.object_space.top (unused_words flg w.vm)
    (w.log Call.absorb_live_data_from_eden)
  cases hb : block_starts (vm_before_registering env (absorb_size w.vm)
          w.vm.old_gen.object_space.top (unused_words flg w.vm) w.vm).obj_size
          flg.HeapWordSize
          (vm_filled env w.vm.old_gen.object_space.top (unused_words flg w.vm)
            w.vm).young_gen.eden_space.top
          ((vm_filled env w.vm.old_gen.object_space.top (unused_words flg w.vm)
            w.vm).young_gen.eden_space.top - w.vm.old_gen.object_space.top)
          w.vm.old_gen.object_space.top with
  | none =>
    obtain ⟨w1, h1⟩ := hn hb
    rw [h1] at hrun
    cases hrun
  | some l =>
    have h1 := ht l hb
    rw [h1] at hrun
    injection hrun with _ hw
    subst hw
    exact ⟨l, t, rfl, rfl⟩

theorem absorb_false_inv (flg : Flags) (env : Env) (w w' : World)
    (hrun : absorb_live_data_from_eden flg env w = Outcome.ok false w') :
    absorb_goes_ahead flg w.vm = false ∧ w' = w.log Call.absorb_live_data_from_eden := by
  by_cases hassert : flg.ASSERT = false ∨ (w.vm.young_gen.eden_space.is_empty = false ∧
      w.vm.young_gen.virtual_space.alignment = w.vm.old_gen.virtual_space.alignment)
  swap
  · obtain ⟨e, w1, h⟩ := absorb_halts_on_assert flg env w hassert
    rw [h] at hrun
    cases hrun
  rw [absorb_eq flg env w hassert] at hrun
  cases hgo : absorb_goes_ahead flg w.vm
  · rw [hgo] at hrun
    simp only [Bool.false_eq_true, if_false] at hrun
    injection hrun with _ hw
    exact ⟨rfl, hw.symm⟩
  rw [hgo, if_pos rfl] at hrun
  obtain ⟨t, ht, hn⟩ := absorb_take_cases flg env (absorb_size w.vm)
    w.vm.old_gen.object_space.top (unused_words flg w.vm)
    (w.log Call.absorb_live_data_from_eden)
  cases hb : block_starts (vm_before_registering env (absorb_size w.vm)
          w.vm.old_gen.object_space.top (unused_words flg w.vm) w.vm).obj_size
          flg.HeapWordSize
          (vm_filled env w.vm.old_gen.object_space.top (unused_words flg w.vm)
            w.vm).young_gen.eden_space.top
          ((vm_filled env w.vm.old_gen.object_space.top (unused_words flg w.vm)
            w.vm).young_gen.eden_space.top - w.vm.old_gen.object_space.top)
          w.vm.old_gen.object_space.top with
  | none =>
    obtain ⟨w1, h1⟩ := hn hb
    rw [h1] at hrun
    cases hrun
  | some l =>
    have h1 := ht l hb
    rw [h1] at hrun
    injection hrun with hb _
    cases hb

/-- C12. Called with a non-empty eden (and matching alignments, or in a build without
assertions), with eden's capacity within the young generation's capacity, which fits a
`size_t`: `PSMarkSweep::absorb_live_data_from_eden` returns true only if the conditions
of the specification hold, returns false (having done nothing but being entered) when
they do not, and when they hold it does return true, provided the objects between the
old top and eden's top have positive sizes so that the registration loop ends. -/
theorem absorb_returns_true_iff (flg : Flags) (env : Env) (w : World)
    (hassert : flg.ASSERT = false ∨ (w.vm.young_gen.eden_space.is_empty = false ∧
      w.vm.young_gen.virtual_space.alignment = w.vm.old_gen.virtual_space.alignment))
    (heden : w.vm.young_gen.eden_space.capacity_in_bytes ≤ w.vm.young_gen.capacity_in_bytes)
    (hbits : w.vm.young_gen.capacity_in_bytes < 2 ^ size_t_bits) :
    (∀ b w', absorb_live_data_from_eden flg env w = Outcome.ok b w' →
      (b = true ↔ AbsorbConditions flg w.vm)) ∧
    (¬ AbsorbConditions flg w.vm →
      absorb_live_data_from_eden flg env w =
        Outcome.ok false (w.log Call.absorb_live_data_from_eden)) ∧
    (AbsorbConditions flg w.vm → 0 < flg.HeapWordSize →
      (∀ p, 0 < (vm_before_registering env (absorb_size w.vm)
        w.vm.old_gen.object_space.top (unused_words flg w.vm) w.vm).obj_size p) →
      ∃ w', absorb_live_data_from_eden flg env w = Outcome.ok true w') := by
  have hiff := absorb_goes_ahead_iff flg w.vm heden hbits
  refine ⟨?_, ?_, ?_⟩
  · intro b w' hrun
    cases b
    · have h := (absorb_false_inv flg env w w' hrun).1
      constructor
      · intro hb
        cases hb
      · intro hc
        rw [hiff.mpr hc] at h
        cases h
    · have h := (absorb_true_inv flg env w w' hrun).1
      exact ⟨fun _ => hiff.mp h, fun _ => rfl⟩
  · intro hc
    have hgo : ¬ absorb_goes_ahead flg w.vm = true := fun h => hc (hiff.mp h)
    rw [absorb_eq flg env w hassert, if_neg hgo]
  · intro hc hhws hsize
    exact absorb_returns_true_of flg env w hassert (hiff.mpr hc) hhws hsize

theorem absorb_returns_true_iff_witness :
    AbsorbConditions Sample.flags Sample.world.vm ∧
    (absorb_live_data_from_eden Sample.flags Sample.env Sample.world).value? = some true := by
  have hrun : absorb_live_data_from_eden Sample.flags Sample.env Sample.world =
      Outcome.ok true
        (absorb_live_data_from_eden Sample.flags Sample.env Sample.world).state := rfl
  have h := absorb_returns_true_iff Sample.flags Sample.env Sample.world
    (Or.inr ⟨rfl, rfl⟩) (by decide) (by decide)
  exact ⟨(h.1 true _ hrun).mp rfl, rfl⟩

/-- C13. Whenever `PSMarkSweep::absorb_live_data_from_eden` returns false the VM state
is the one it was called in and the only call recorded is the entry into the function
itself: nothing was filled, expanded, reset, registered or set. And it does return false
whenever the young generation's virtual space is not fully committed (the entry
assertions holding, or the build having none). -/
theorem absorb_declines_without_change (flg : Flags) (env : Env) (w : World) :
    (∀ w', absorb_live_data_from_eden flg env w = Outcome.ok false w' →
      w'.vm = w.vm ∧ w'.trace = w.trace ++ [Call.absorb_live_data_from_eden]) ∧
    ((flg.ASSERT = false ∨ (w.vm.young_gen.eden_space.is_empty = false ∧
        w.vm.young_gen.virtual_space.alignment = w.vm.old_gen.virtual_space.alignment)) →
      w.vm.young_gen.virtual_space.uncommitted_size ≠ 0 →
      absorb_live_data_from_eden flg env w =
        Outcome.ok false (w.log Call.absorb_live_data_from_eden)) := by
  refine ⟨?_, ?_⟩
  · intro w' hrun
    have h := (absorb_false_inv flg env w w' hrun).2
    subst h
    exact ⟨rfl, rfl⟩
  · intro hassert hyoung
    have hgo : ¬ absorb_goes_ahead flg w.vm = true := by
      unfold absorb_goes_ahead
      rw [decide_eq_false hyoung]
      simp
    rw [absorb_eq flg env w hassert, if_neg hgo]

theorem absorb_declines_without_change_witness :
    Sample.uncommitted_world.vm.young_gen.virtual_space.uncommitted_size ≠ 0 ∧
    absorb_live_data_from_eden Sample.flags Sample.env Sample.uncommitted_world =
      Outcome.ok false (Sample.uncommitted_world.log Call.absorb_live_data_from_eden) :=
  ⟨by decide,
    (absorb_declines_without_change Sample.flags Sample.env Sample.uncommitted_world).2
      (Or.inr ⟨rfl, rfl⟩) (by decide)⟩

theorem vm_filled_eden_top (env : Env) (us uw : Nat) (vm : VM)
    (hfill : ∀ a b v, (env.effect (Call.fill_with_objects a b) v).young_gen.eden_space.top =
      v.young_gen.eden_space.top) :
    (vm_filled env us uw vm).young_gen.eden_space.top = vm.young_gen.eden_space.top := by
  unfold vm_filled
  split
  · exact hfill _ _ _
  · rfl

/-- C14 (counterexample). With collaborators under which expanding the old virtual space
moves the end of the old generation's region up and `old_gen->reset_after_change()`
sets the end of the old space to it, the absorption on the sample heap succeeds and
leaves the old space's end at 2040, not at eden's top 2032. -/
theorem absorb_end_moved_by_reset_after_change :
    ∃ w', absorb_live_data_from_eden Sample.flags Sample.resizing_env Sample.world =
        Outcome.ok true w' ∧
      Sample.world.vm.young_gen.eden_space.top = 2032 ∧
      w'.vm.old_gen.object_space.top = 2032 ∧
      w'.vm.old_gen.object_space.end_ = 2040 :=
  ⟨_, rfl, rfl, rfl, rfl⟩

/-- C14 (amended). After every successful `PSMarkSweep::absorb_live_data_from_eden`
(filling the old tail not moving eden's top), the old space is what
`old_gen->reset_after_change()` leaves of a space whose top and end were both set to
eden's top as it was before the call, so its top, respectively its end, equals that
eden top whenever `reset_after_change` leaves it unchanged. The starts of the objects
laid out from the old space's previous top up to the new top are all registered in the
old generation's start array, they are the only addresses the function adds to it, and
all lie below the new top. The registration loop ends, and the function returns true,
when its conditions hold and these objects have positive sizes. -/
theorem absorb_registers_block_starts (flg : Flags) (env : Env) (w : World)
    (hfill : ∀ a b v, (env.effect (Call.fill_with_objects a b) v).young_gen.eden_space.top =
      v.young_gen.eden_space.top) :
    (∀ w', absorb_live_data_from_eden flg env w = Outcome.ok true w' →
      (∃ vm2, vm2.old_gen.object_space.top = w.vm.young_gen.eden_space.top ∧
        vm2.old_gen.object_space.end_ = w.vm.young_gen.eden_space.top ∧
        w'.vm.old_gen.object_space =
          (env.effect Call.old_gen_reset_after_change vm2).old_gen.object_space ∧
        ∃ l, block_starts w'.vm.obj_size flg.HeapWordSize w.vm.young_gen.eden_space.top
              (w.vm.young_gen.eden_space.top - w.vm.old_gen.object_space.top)
              w.vm.old_gen.object_space.top = some l ∧
          w'.vm.old_gen.start_array =
            l.reverse ++ (env.effect Call.old_gen_reset_after_change vm2).old_gen.start_array ∧
          (∀ a ∈ l, a ∈ w'.vm.old_gen.start_array) ∧
          (∀ a ∈ l, w.vm.old_gen.object_space.top ≤ a ∧ a < w.vm.young_gen.eden_space.top)) ∧
      ((∀ v, (env.effect Call.old_gen_reset_after_change v).old_gen.object_space.top =
          v.old_gen.object_space.top) →
        w'.vm.old_gen.object_space.top = w.vm.young_gen.eden_space.top) ∧
      ((∀ v, (env.effect Call.old_gen_reset_after_change v).old_gen.object_space.end_ =
          v.old_gen.object_space.end_) →
        w'.vm.old_gen.object_space.end_ = w.vm.young_gen.eden_space.top)) ∧
    ((flg.ASSERT = false ∨ (w.vm.young_gen.eden_space.is_empty = false ∧
        w.vm.young_gen.virtual_space.alignment = w.vm.old_gen.virtual_space.alignment)) →
      absorb_goes_ahead flg w.vm = true → 0 < flg.HeapWordSize →
      (∀ p, 0 < (vm_before_registering env (absorb_size w.vm)
        w.vm.old_gen.object_space.top (unused_words flg w.vm) w.vm).obj_size p) →
      ∃ w', absorb_live_data_from_eden flg env w = Outcome.ok true w') := by
  refine ⟨?_, fun hassert hgo hhws hsize =>
    absorb_returns_true_of flg env w hassert hgo hhws hsize⟩
  intro w' hrun
  obtain ⟨_, l, t, hl, hvm⟩ := absorb_true_inv flg env w w' hrun
  have htop := vm_filled_eden_top env w.vm.old_gen.object_space.top (unused_words flg w.vm)
    w.vm hfill
  rw [htop] at hl
  have hobj : w'.vm.old_gen.object_space = (vm_before_registering env (absorb_size w.vm)
      w.vm.old_gen.object_space.top (unused_words flg w.vm) w.vm).old_gen.object_space := by
    rw [hvm]; rfl
  have hsa : w'.vm.old_gen.start_array = l.reverse ++ (vm_before_registering env
      (absorb_size w.vm) w.vm.old_gen.object_space.top (unused_words flg w.vm)
      w.vm).old_gen.start_array := by
    rw [hvm]; rfl
  have hsz : w'.vm.obj_size = (vm_before_registering env (absorb_size w.vm)
      w.vm.old_gen.object_space.top (unused_words flg w.vm) w.vm).obj_size := by
    rw [hvm]; rfl
  obtain ⟨vm2, h2t, h2e, hvmb⟩ : ∃ vm2,
      vm2.old_gen.object_space.top = w.vm.young_gen.eden_space.top ∧
      vm2.old_gen.object_space.end_ = w.vm.young_gen.eden_space.top ∧
      vm_before_registering env (absorb_size w.vm) w.vm.old_gen.object_space.top
        (unused_words flg w.vm) w.vm = env.effect Call.old_gen_reset_after_change vm2 := by
    unfold vm_before_registering
    refine ⟨_, ?_, ?_, rfl⟩ <;> exact htop
  rw [hvmb] at hobj hsa
  refine ⟨⟨vm2, h2t, h2e, hobj, l, hsz ▸ hl, hsa, ?_, ?_⟩, ?_, ?_⟩
  · intro a ha
    rw [hsa]
    exact List.mem_append_left _ (List.mem_reverse.mpr ha)
  · exact block_starts_bounds _ _ _ _ _ l hl
  · intro h
    rw [hobj, h, h2t]
  · intro h
    rw [hobj, h, h2e]

theorem absorb_registers_block_starts_witness :
    (absorb_live_data_from_eden Sample.flags Sample.env Sample.world).state.vm.old_gen.start_array
      = [2016, 2000] ∧
    (absorb_live_data_from_eden Sample.flags Sample.env
      Sample.world).state.vm.old_gen.object_space.end_ = 2032 := by
  have hrun : absorb_live_data_from_eden Sample.flags Sample.env Sample.world =
      Outcome.ok true
        (absorb_live_data_from_eden Sample.flags Sample.env Sample.world).state := rfl
  have h := (absorb_registers_block_starts Sample.flags Sample.env Sample.world
    (fun _ _ _ => rfl)).1 _ hrun
  exact ⟨rfl, h.2.2 (fun _ => rfl)⟩

theorem pointer_delta_bytes {a b : Nat} (h : b ≤ a) (ha : a < 2 ^ size_t_bits) :
    pointer_delta a b 1 = a - b := by
  unfold pointer_delta
  rw [size_t_sub_of_le h ha, Nat.div_one]

theorem allocate_stacks_eq (flg : Flags) (w : World)
    (hkind : flg.ASSERT = false ∨ w.vm.heap_kind = HeapKind.ParallelScavengeHeap) :
    allocate_stacks flg w = Outcome.ok ()
      { vm := { w.vm with
          _preserved_marks := w.vm.young_gen.to_space.top,
          _preserved_count := 0,
          _preserved_count_max :=
            pointer_delta w.vm.young_gen.to_space.end_ w.vm.young_gen.to_space.top 1 /
              flg.sizeof_PreservedMark },
        trace := w.trace ++ [Call.allocate_stacks] } := by
  have hk := check_heap_kind_passes flg (w.log Call.allocate_stacks) hkind
  unfold allocate_stacks
  simp only [bind, M.bind, enter, M.modify, hk]
  rfl

/-- C19 (counterexample). On the sample heap with 64 bytes of data in to-space, in a
build with assertions, `PSMarkSweep::allocate_stacks` returns normally having made no
call: it does not verify that to-space is free, and places the scratch area at to-space's
top, 3264. -/
theorem allocate_stacks_makes_no_test_of_to_space :
    Sample.used_to_space_world.vm.young_gen.to_space.is_empty = false ∧
    ∃ w', allocate_stacks Sample.flags Sample.used_to_space_world = Outcome.ok () w' ∧
      w'.trace = [Call.allocate_stacks] ∧
      w'.vm._preserved_marks = 3264 ∧ w'.vm._preserved_count_max = 8 :=
  ⟨rfl, _, rfl, rfl, rfl, rfl⟩

/-- C19 (amended). `PSMarkSweep::allocate_stacks` uses only the unused part of to-space,
without testing whether to-space holds data: for every to-space with bottom ≤ top ≤ end
(end fitting a `size_t`) it returns, having made no call and changed nothing but its
three variables; the scratch area starts at to-space's top, `_preserved_count` is 0,
`_preserved_count_max` is the whole number of `PreservedMark` records in the end − top
bytes, so the records lie at or above top, above every used byte of to-space, and end
at or before its end. -/
theorem allocate_stacks_uses_free_to_space (flg : Flags) (w : World)
    (hkind : flg.ASSERT = false ∨ w.vm.heap_kind = HeapKind.ParallelScavengeHeap)
    (hbt : w.vm.young_gen.to_space.bottom ≤ w.vm.young_gen.to_space.top)
    (hte : w.vm.young_gen.to_space.top ≤ w.vm.young_gen.to_space.end_)
    (hbits : w.vm.young_gen.to_space.end_ < 2 ^ size_t_bits) :
    ∃ w', allocate_stacks flg w = Outcome.ok () w' ∧
      w'.vm._preserved_marks = w.vm.young_gen.to_space.top ∧
      w'.vm._preserved_count = 0 ∧
      w'.vm._preserved_count_max =
        (w.vm.young_gen.to_space.end_ - w.vm.young_gen.to_space.top) /
          flg.sizeof_PreservedMark ∧
      w'.vm._preserved_count_max * flg.sizeof_PreservedMark ≤
        w.vm.young_gen.to_space.end_ - w.vm.young_gen.to_space.top ∧
      w.vm.young_gen.to_space.bottom + w.vm.young_gen.to_space.used_in_bytes ≤
        w'.vm._preserved_marks ∧
      w'.vm._preserved_marks + w'.vm._preserved_count_max * flg.sizeof_PreservedMark ≤
        w.vm.young_gen.to_space.end_ ∧
      w'.vm.young_gen = w.vm.young_gen ∧
      w'.trace = w.trace ++ [Call.allocate_stacks] := by
  have hd := pointer_delta_bytes hte hbits
  have hdiv := Nat.div_mul_le_self
    (w.vm.young_gen.to_space.end_ - w.vm.young_gen.to_space.top) flg.sizeof_PreservedMark
  refine ⟨_, allocate_stacks_eq flg w hkind, rfl, rfl, ?_, ?_, ?_, ?_, rfl, rfl⟩
  · show pointer_delta _ _ 1 / _ = _
    rw [hd]
  · show pointer_delta _ _ 1 / _ * _ ≤ _
    rw [hd]
    exact hdiv
  · show _ + (_ - _) ≤ w.vm.young_gen.to_space.top
    omega
  · show w.vm.young_gen.to_space.top + pointer_delta _ _ 1 / _ * _ ≤ _
    rw [hd]
    omega

theorem allocate_stacks_uses_free_to_space_witness :
    (allocate_stacks Sample.flags Sample.world).state.vm._preserved_marks = 3200 ∧
    (allocate_stacks Sample.flags Sample.world).state.vm._preserved_count_max = 12 := by
  obtain ⟨w', h, hm, _, hmax, _⟩ := allocate_stacks_uses_free_to_space Sample.flags
    Sample.world (Or.inr rfl) (by decide) (by decide) (by decide)
  rw [h]
  exact ⟨hm, hmax⟩

section WeakNull

open ParNew

/-- C18 (counterexample). Slot 5024 of the sample memory is null. Applied to it, the
weak-reference closure is not a no-op: a build with assertions halts on "null weak
reference?", and a product build goes on to read the klass of the null referent. -/
theorem weak_do_oop_work_null_is_not_a_no_op :
    Sample.scan_state.heap.slot 5024 = 0 ∧
    ParScanWeakRefClosure.do_oop_work Sample.flags Sample.scan_env Sample.closure 5024
        Sample.scan_state =
      Outcome.fatal (Fault.assertion "null weak reference?") Sample.scan_state ∧
    ParScanWeakRefClosure.do_oop_work Sample.product_flags Sample.scan_env Sample.closure 5024
        Sample.scan_state =
      Outcome.fatal Fault.null_dereference Sample.scan_state :=
  ⟨rfl, rfl, rfl⟩

/-- C18 (amended). The weak-reference closure has no null step: it asserts that the slot
is not null. For every slot `p` whose content is null, `ParScanWeakRefClosure::do_oop_work`
copies nothing and leaves `*p` null and all of memory as it was, but it returns only in
a build without assertions in which no address lies below `_boundary` or to-space's
reserved region contains address 0; a build with assertions halts on "null weak
reference?", and otherwise the headers of the null referent are read. -/
theorem weak_do_oop_work_null_slot (flg : Flags) (env : ParNew.Env) (cl : ParScanClosure) (p : Nat)
    (s : ParNew.State) (hnull : s.heap.slot p = 0) :
    (flg.ASSERT = true →
      ParScanWeakRefClosure.do_oop_work flg env cl p s =
        Outcome.fatal (Fault.assertion "null weak reference?") s) ∧
    (flg.ASSERT = false → 0 < cl._boundary → cl.to_reserved.contains 0 = false →
      ParScanWeakRefClosure.do_oop_work flg env cl p s =
        Outcome.fatal Fault.null_dereference s) ∧
    (flg.ASSERT = false → (cl._boundary = 0 ∨ cl.to_reserved.contains 0 = true) →
      ParScanWeakRefClosure.do_oop_work flg env cl p s = Outcome.ok () s) := by
  refine ⟨?_, ?_, ?_⟩
  · intro ha
    simp [ParScanWeakRefClosure.do_oop_work, bind, M.bind, M.assert, ha, hnull, is_null]
  · intro ha hb hto
    simp [ParScanWeakRefClosure.do_oop_work, bind, M.bind, M.assert, ha, hnull, is_null,
      load_heap_oop, M.read, hb, hto, klass_of, M.halt]
  · intro ha hor
    rcases hor with hb | hto
    · simp [ParScanWeakRefClosure.do_oop_work, bind, M.bind, M.assert, ha, hnull, is_null,
        load_heap_oop, M.read, hb, M.pure]
    · simp [ParScanWeakRefClosure.do_oop_work, bind, M.bind, M.assert, ha, hnull, is_null,
        load_heap_oop, M.read, hto, M.pure]

theorem weak_do_oop_work_null_slot_witness :
    Sample.scan_state.heap.slot 5024 = 0 ∧
    (ParScanWeakRefClosure.do_oop_work Sample.flags Sample.scan_env Sample.closure 5024
      Sample.scan_state).fault? = some (Fault.assertion "null weak reference?") ∧
    (ParScanWeakRefClosure.do_oop_work Sample.product_flags Sample.scan_env Sample.closure
      5024 Sample.scan_state).fault? = some Fault.null_dereference := by
  have h1 := (weak_do_oop_work_null_slot Sample.flags Sample.scan_env Sample.closure 5024
    Sample.scan_state rfl).1 rfl
  have h2 := (weak_do_oop_work_null_slot Sample.product_flags Sample.scan_env Sample.closure
    5024 Sample.scan_state rfl).2.1 rfl (by decide) rfl
  rw [h1, h2]
  exact ⟨rfl, rfl, rfl⟩

end WeakNull

end Parts

end Hotspot
